import Mathlib

/-!
Eco_system: order dispatch, assignment and lifecycle.

Shallow embedding of `src/controllers/order.controller.js` and of the duty and
live-location handlers of `src/controllers/user.controller.js`, together with
the Mongoose schemas they run against (`src/models/Order.js`,
`src/models/User.js`, `src/models/ScanHistory.js`).

Conventions of the embedding

* The database is an explicit `Store` (three collections, each a list of
  documents in natural order).  A request handler is a pure function from the
  store, the clock and the request to an HTTP `Response` and the new store.
* A stored document carries exactly the paths its schema declares.  A handler
  works on a hydrated document; a property the schema does not declare reads
  as `undefined` (`none`) on it.  `orderSchema` declares no `statusHistory`
  path, so `order.statusHistory` is `undefined` on every hydrated order.
* A JavaScript exception thrown inside a handler is caught by the handler's
  `try/catch`, which answers 500 with the error message; nothing that was only
  changed in memory reaches the store.
* `doc.save()` writes the modified schema paths to the stored document with
  the same `_id`; the `pre("save")` hook stamps `updatedAt`.
* Strings are kept as strings (`"ACTIVE"` and `"active"` are different).
  Numbers are rationals, instants are milliseconds since the epoch.
* Stored documents are taken to satisfy the validators of their schema, as
  every document written through `save()` does; the validators are modelled
  where a handler builds a new document from the request (`createOrder`) and
  on `workerInfo.status`, which `updateWorkerStatus` writes.
* A nested path of a schema (such as `results` of `scanHistorySchema`) reads
  as an object on every document loaded through the model; the stored type
  keeps it optional, and a theorem that needs it present says so.
* The `protect` middleware is the presence of `userId` in a request.
* Identifiers are strings.  The handlers `cancelOrder`, `rateOrder`,
  `selfAssignOrder`, `assignOrder` and `createOrder` are given twice: first on
  identifiers that pass Mongoose's cast to `ObjectId`, then (as
  `Cast.cancelOrder` and so on, section "The ObjectId cast") with the cast in
  front, which answers 500 for a string that is not 24 hexadecimal digits.
-/

namespace EcoSystem

/-! ## Data model -/

abbrev ObjectId := String

abbrev Timestamp := Nat

/-- JavaScript truthiness of an optional string: `undefined` and `""` are falsy. -/
def truthy : Option String → Bool
  | some s => s != ""
  | none => false

/-- The idiom `x || d` on an optional string. -/
def orElse (x : Option String) (d : String) : String :=
  match x with
  | some s => if s = "" then d else s
  | none => d

structure Coordinates where
  lat : Rat
  lng : Rat
deriving DecidableEq, Repr

/-- Path `location` of `orderSchema`. -/
structure Location where
  label : Option String
  street : Option String
  landmark : Option String
  area : Option String
  city : Option String
  pincode : Option String
  coordinates : Option Coordinates
deriving DecidableEq, Repr

/-- Path `scanData.aiAnalysis` of `orderSchema`. -/
structure AiAnalysis where
  category : String
  recyclable : Bool
  estimatedWeight : Rat
  quality : String
  confidence : Rat
deriving DecidableEq, Repr

/-- Path `scanData` of `orderSchema`: the snapshot embedded in the order. -/
structure ScanData where
  scanId : ObjectId
  aiAnalysis : Option AiAnalysis
  scannedAt : Timestamp
deriving DecidableEq, Repr

/-- Path `rating` of `orderSchema`. -/
structure Rating where
  score : Option Rat
  feedback : Option String
  ratedAt : Option Timestamp
deriving DecidableEq, Repr

/-- A stored order: the paths declared by `orderSchema` (Order.js, lines 3-161)
that the handlers read or write.  The schema declares `orderId`, `user`,
`wasteTypes`, the quantities and values, `ecoPointsEarned`, the schedule,
`location`, `notes`, `scanData`, `status`, `assignedWorker`, six timestamps
(`confirmedAt` ... `cancelledAt`), `cancellationReason`, `rating`, `photos`,
`createdAt` and `updatedAt`; it declares no `statusHistory`, `pickedUpAt` or
`completionPhotos`. -/
structure Order where
  _id : ObjectId
  orderId : String
  user : ObjectId
  wasteTypes : List String
  estimatedQuantity : Rat
  actualQuantity : Option Rat
  estimatedValue : Int
  actualValue : Option Rat
  ecoPointsEarned : Int
  scheduledDate : Timestamp
  scheduledTime : String
  location : Location
  notes : String
  scanData : ScanData
  status : String
  assignedWorker : Option ObjectId
  completedAt : Option Timestamp
  cancelledAt : Option Timestamp
  cancellationReason : Option String
  rating : Rating
  createdAt : Timestamp
  updatedAt : Timestamp
deriving DecidableEq, Repr

/-- The `enum` of `orderSchema.status`. -/
def orderStatusEnum : List String :=
  ["pending", "confirmed", "assigned", "in_transit", "arrived", "completed", "cancelled"]

/-- The `enum` of `orderSchema.wasteTypes`. -/
def wasteTypeEnum : List String :=
  ["plastic", "paper", "glass", "metal", "ewaste", "organic", "mixed"]

/-- Path `workerInfo` of `userSchema`. -/
structure WorkerInfo where
  employeeId : Option String
  isOnDuty : Bool
  assignedOrders : List ObjectId
  completedOrders : Nat
  status : String
  assignedArea : Option String := none
deriving DecidableEq, Repr

/-- The `enum` of `userSchema.workerInfo.status` (User.js, lines 63-67). -/
def workerStatusEnum : List String := ["active", "inactive", "suspended"]

/-- Path `liveLocation` of `userSchema`. -/
structure LiveLocation where
  coordinates : Option Coordinates
  heading : Option Rat
  speed : Option Rat
  accuracy : Option Rat
  lastUpdated : Option Timestamp
  isSharing : Bool
deriving DecidableEq, Repr

/-- Path `subscription` of `userSchema` (the two paths the order gate reads). -/
structure Subscription where
  plan : Option String
  status : Option String
deriving DecidableEq, Repr

/-- The `enum` of `userSchema.subscription.plan`. -/
def planEnum : List String := ["FREE", "BASIC", "PREMIUM", "ENTERPRISE"]

/-- Path `stats` of `userSchema` (User.js, lines 128-136).  There is no
`completedOrders`, `totalRecycled` or top-level `ecoPoints` path. -/
structure Stats where
  points : Nat
  totalScans : Nat
  totalOrders : Nat
  recycledKg : Rat
deriving DecidableEq, Repr

/-- A stored user: the paths of `userSchema` the order handlers touch. -/
structure User where
  _id : ObjectId
  role : String
  name : Option String
  workerInfo : WorkerInfo
  liveLocation : LiveLocation
  subscription : Option Subscription
  stats : Stats
deriving DecidableEq, Repr

/-- One element of `results.items` of `scanHistorySchema`. -/
structure ScanItem where
  category : Option String
  confidence : Option Rat
deriving DecidableEq, Repr

/-- Path `results` of `scanHistorySchema`. -/
structure ScanResults where
  items : List ScanItem
  totalWeight : Rat
  recyclableCount : Int
deriving DecidableEq, Repr

/-- A stored scan record (`scanHistorySchema`, with `timestamps: true`). -/
structure ScanHistory where
  _id : ObjectId
  user : Option ObjectId
  results : Option ScanResults
  orderId : Option ObjectId
  convertedToOrder : Bool
  createdAt : Timestamp
deriving DecidableEq, Repr

/-- The database: the three collections the order controller uses. -/
structure Store where
  orders : List Order
  users : List User
  scans : List ScanHistory
deriving DecidableEq, Repr

/-- The JSON answer of a handler: HTTP status, the `success` field, the
`message`, and the names of the extra boolean fields that are set to `true`
(`scanRequired`, `orderLimitReached`, ...). -/
structure Response where
  status : Nat
  success : Bool
  message : String
  flags : List String
deriving DecidableEq, Repr

/-- The answer of the `catch` branch of every handler. -/
def serverError (msg : String) : Response :=
  { status := 500, success := false, message := msg, flags := [] }

def fail (code : Nat) (msg : String) : Response :=
  { status := code, success := false, message := msg, flags := [] }

def ok (code : Nat) (msg : String) : Response :=
  { status := code, success := true, message := msg, flags := [] }

/-! ## Store primitives -/

/-- The method `User.findById`. -/
def findUserById (s : Store) (id : ObjectId) : Option User :=
  s.users.find? (fun u => u._id == id)

/-- The method `ScanHistory.findById`. -/
def findScanById (s : Store) (id : ObjectId) : Option ScanHistory :=
  s.scans.find? (fun r => r._id == id)

/-- The filter `$or: [{ _id: orderId }, { orderId: orderId }]`. -/
def matchesKey (key : String) (o : Order) : Bool :=
  o._id == key || o.orderId == key

/-- Apply a modification to the stored order(s) with the given `_id`
(the update that `order.save()` sends for an existing document). -/
def updateOrderById (s : Store) (id : ObjectId) (f : Order → Order) : Store :=
  { s with orders := s.orders.map (fun o => if o._id = id then f o else o) }

/-- The method `User.findByIdAndUpdate`, as a modification of the stored user. -/
def updateUserById (s : Store) (id : ObjectId) (f : User → User) : Store :=
  { s with users := s.users.map (fun u => if u._id = id then f u else u) }

/-- The method `ScanHistory.findByIdAndUpdate`. -/
def updateScanById (s : Store) (id : ObjectId) (f : ScanHistory → ScanHistory) : Store :=
  { s with scans := s.scans.map (fun r => if r._id = id then f r else r) }

/-! ## cancelOrder (order.controller.js, lines 286-331) -/

structure CancelRequest where
  userId : ObjectId
  orderId : String
  reason : Option String
deriving DecidableEq, Repr

/-- The handler `cancelOrder`. -/
def cancelOrder (s : Store) (now : Timestamp) (req : CancelRequest) : Response × Store :=
  match s.orders.find? (fun o => matchesKey req.orderId o && o.user == req.userId) with
  | none => (fail 404 "Order not found", s)
  | some order =>
    if ! (["pending", "confirmed"].contains order.status) then
      (fail 400 "Cannot cancel order in current status", s)
    else
      (ok 200 "Order cancelled successfully",
        updateOrderById s order._id (fun o =>
          { o with status := "cancelled"
                   cancellationReason := some (orElse req.reason "Cancelled by user")
                   cancelledAt := some now
                   updatedAt := now }))

/-! ## Hydrated order documents -/

/-- An element the controller pushes on `order.statusHistory`. -/
structure StatusEntry where
  status : String
  timestamp : Timestamp
  note : String
  updatedBy : Option ObjectId
deriving DecidableEq, Repr

/-- A hydrated order as a handler holds it: the schema paths (`fields`) and
the JavaScript properties the controller uses that `orderSchema` does not
declare.  Only `fields` is written back by `save()`. -/
structure OrderDoc where
  fields : Order
  statusHistory : Option (List StatusEntry)
  pickedUpAt : Option Timestamp
  completionPhotos : Option (List String)
deriving DecidableEq, Repr

/-- Hydration of a stored order by `Order.findOne`: `statusHistory`,
`pickedUpAt` and `completionPhotos` are not paths of `orderSchema`, so the
document has no such property and reading one gives `undefined`.  (In the
whole repository `statusHistory` occurs only in order.controller.js, at lines
544, 625, 756 and 959, never in a schema.) -/
def hydrate (o : Order) : OrderDoc :=
  { fields := o, statusHistory := none, pickedUpAt := none, completionPhotos := none }

/-- The statement `order.statusHistory.push(entry)`: a `TypeError` when
`order.statusHistory` is `undefined`. -/
def pushStatusHistory (d : OrderDoc) (e : StatusEntry) : Except String OrderDoc :=
  match d.statusHistory with
  | none => Except.error "Cannot read properties of undefined (reading push)"
  | some h => Except.ok { d with statusHistory := some (h ++ [e]) }

/-- The call `order.save()` on a loaded order after the handler modified
`status`, `assignedWorker` and the completion paths: the modified schema
paths are written to the stored document, `updatedAt` is stamped. -/
def saveOrder (s : Store) (now : Timestamp) (d : OrderDoc) : Store :=
  updateOrderById s d.fields._id (fun o =>
    { o with status := d.fields.status
             assignedWorker := d.fields.assignedWorker
             completedAt := d.fields.completedAt
             actualQuantity := d.fields.actualQuantity
             actualValue := d.fields.actualValue
             updatedAt := now })

/-- The expression `user.profile?.name || user.workerInfo.employeeId`, as text. -/
def displayName (u : User) : String :=
  orElse u.name (orElse u.workerInfo.employeeId "null")

/-! ## selfAssignOrder (order.controller.js, lines 916-990) -/

structure SelfAssignRequest where
  userId : ObjectId
  orderId : String
deriving DecidableEq, Repr

/-- The role, status and duty checks of `selfAssignOrder` (lines 922-941):
`none` when the caller passes. -/
def selfAssignChecks (user : User) : Option Response :=
  if ! (["WORKER", "DRIVER"].contains user.role) then
    some (fail 403 "Only workers and drivers can self-assign orders")
  else if user.workerInfo.status != "ACTIVE" then
    some (fail 403 "Your account is not active")
  else if ! user.workerInfo.isOnDuty then
    some (fail 403 "Please go on duty first to accept orders")
  else none

/-- The query of lines 943-947: key, `status: "pending"`, `assignedWorker: null`. -/
def findPendingUnassigned (s : Store) (key : String) : Option Order :=
  s.orders.find? (fun o => matchesKey key o && o.status == "pending" && o.assignedWorker == none)

/-- Lines 956-964: the in-memory assignment and the push on `statusHistory`. -/
def selfAssignMutate (now : Timestamp) (user : User) (userId : ObjectId) (o : Order) :
    Except String OrderDoc :=
  let order := hydrate o
  let order := { order with fields := { order.fields with assignedWorker := some userId } }
  let order := { order with fields := { order.fields with status := "assigned" } }
  pushStatusHistory order
    { status := "assigned", timestamp := now,
      note := "Self-assigned by " ++ displayName user, updatedBy := some userId }

/-- Lines 968-971: `$push` of the order on the worker's `assignedOrders`. -/
def pushAssignedOrder (s : Store) (workerId : ObjectId) (orderId : ObjectId) : Store :=
  updateUserById s workerId (fun u =>
    { u with workerInfo := { u.workerInfo with
        assignedOrders := u.workerInfo.assignedOrders ++ [orderId] } })

/-- The handler `selfAssignOrder`. -/
def selfAssignOrder (s : Store) (now : Timestamp) (req : SelfAssignRequest) : Response × Store :=
  match findUserById s req.userId with
  | none => (serverError "Cannot read properties of null (reading role)", s)
  | some user =>
    match selfAssignChecks user with
    | some r => (r, s)
    | none =>
      match findPendingUnassigned s req.orderId with
      | none => (fail 404 "Order not found or already assigned", s)
      | some o =>
        match selfAssignMutate now user req.userId o with
        | Except.error msg => (serverError msg, s)
        | Except.ok order =>
          let s1 := saveOrder s now order
          let s2 := pushAssignedOrder s1 req.userId order.fields._id
          (ok 200 "Order assigned to you successfully", s2)

/-! ## assignOrder (order.controller.js, lines 495-577; route guarded by `adminOnly`) -/

structure AssignRequest where
  userId : ObjectId
  orderId : String
  workerId : Option ObjectId
deriving DecidableEq, Repr

/-- The middleware `adminOnly` (auth.js, lines 44-62): `none` lets the request through. -/
def adminOnly (s : Store) (userId : ObjectId) : Option Response :=
  match findUserById s userId with
  | none => some (fail 401 "User not found")
  | some user =>
    if ! (["SUPER_ADMIN", "AREA_ADMIN"].contains user.role) then
      some (fail 403 "Admin access required")
    else none

/-- The handler `assignOrder`. -/
def assignOrder (s : Store) (now : Timestamp) (req : AssignRequest) : Response × Store :=
  if ! truthy req.workerId then (fail 400 "Worker ID is required", s)
  else
    match s.orders.find? (fun o => matchesKey req.orderId o) with
    | none => (fail 404 "Order not found", s)
    | some o =>
      match findUserById s (orElse req.workerId "") with
      | none => (fail 404 "Worker not found", s)
      | some worker =>
        if ! (["WORKER", "DRIVER"].contains worker.role) then
          (fail 400 "Can only assign orders to workers or drivers", s)
        else if worker.workerInfo.status != "ACTIVE" then
          (fail 400 "Worker is not active", s)
        else
          let order := hydrate o
          let order := { order with fields := { order.fields with assignedWorker := req.workerId } }
          let order := { order with fields := { order.fields with status := "assigned" } }
          match pushStatusHistory order
              { status := "assigned", timestamp := now,
                note := "Assigned to " ++ displayName worker, updatedBy := none } with
          | Except.error msg => (serverError msg, s)
          | Except.ok order =>
            let s1 := saveOrder s now order
            let s2 := pushAssignedOrder s1 (orElse req.workerId "") order.fields._id
            (ok 200 "Order assigned successfully", s2)

/-- The route `POST /admin/assign/:orderId`: `adminOnly`, then `assignOrder`. -/
def assignOrderRoute (s : Store) (now : Timestamp) (req : AssignRequest) : Response × Store :=
  match adminOnly s req.userId with
  | some r => (r, s)
  | none => assignOrder s now req

/-! ## updateOrderStatus (order.controller.js, lines 579-682) -/

structure UpdateStatusRequest where
  userId : ObjectId
  orderId : String
  status : Option String
  note : Option String
  actualQuantity : Option Rat
  actualValue : Option Rat
  photos : Option (List String)
deriving DecidableEq, Repr

def validStatuses : List String :=
  ["confirmed", "assigned", "in_transit", "arrived", "completed", "cancelled"]

/-- The method `String.prototype.toLowerCase` (on the ASCII letters, which is
all that membership in `validStatuses` can depend on). -/
def toLowerCase (s : String) : String := String.mk (s.data.map Char.toLower)

/-- JavaScript truthiness of an optional number: `undefined` and `0` are falsy. -/
def truthyNum : Option Rat → Bool
  | some q => q != 0
  | none => false

/-- Lines 622-630: the in-memory status change and the push on `statusHistory`. -/
def updateStatusMutate (now : Timestamp) (req : UpdateStatusRequest) (st : String) (o : Order) :
    Except String OrderDoc :=
  let order := hydrate o
  let previousStatus := order.fields.status
  let order := { order with fields := { order.fields with status := st } }
  pushStatusHistory order
    { status := st, timestamp := now,
      note := orElse req.note ("Status changed from " ++ previousStatus),
      updatedBy := some req.userId }

/-- Lines 632-644: pickup and completion details set on the document. -/
def updateStatusDetails (now : Timestamp) (req : UpdateStatusRequest) (st : String)
    (order : OrderDoc) : OrderDoc :=
  let order := if st == "in_transit" then { order with pickedUpAt := some now } else order
  if st == "completed" then
    let order := { order with fields := { order.fields with completedAt := some now } }
    let order := if truthyNum req.actualQuantity then
      { order with fields := { order.fields with actualQuantity := req.actualQuantity } } else order
    let order := if truthyNum req.actualValue then
      { order with fields := { order.fields with actualValue := req.actualValue } } else order
    match req.photos with
    | some (p :: ps) => { order with completionPhotos := some (p :: ps) }
    | _ => order
  else order

/-- Lines 646-652: `$inc` of `workerInfo.completedOrders` and `$pull` of the
order from `workerInfo.assignedOrders` on the assigned worker. -/
def creditWorker (s : Store) (order : OrderDoc) : Store :=
  match order.fields.assignedWorker with
  | none => s
  | some w =>
    updateUserById s w (fun u =>
      { u with workerInfo := { u.workerInfo with
          completedOrders := u.workerInfo.completedOrders + 1
          assignedOrders := u.workerInfo.assignedOrders.filter (fun x => x != order.fields._id) } })

/-- Lines 654-661: `$inc` of `stats.completedOrders`, `stats.totalRecycled` and
`ecoPoints` on the owner.  None of the three is a path of `userSchema`
(User.js, lines 128-136), so under the schema the update changes no stored
path. -/
def creditOwner (s : Store) (_owner : ObjectId) (_recycled : Rat) (_points : Int) : Store := s

/-- The handler `updateOrderStatus`. -/
def updateOrderStatus (s : Store) (now : Timestamp) (req : UpdateStatusRequest) :
    Response × Store :=
  let invalid := fail 400 ("Invalid status. Valid: " ++ ", ".intercalate validStatuses)
  match req.status.map toLowerCase with
  | none => (invalid, s)
  | some st =>
    if ! validStatuses.contains st then (invalid, s)
    else
      match s.orders.find? (fun o => matchesKey req.orderId o) with
      | none => (fail 404 "Order not found", s)
      | some o =>
        match findUserById s req.userId with
        | none => (serverError "Cannot read properties of null (reading role)", s)
        | some user =>
          if ["WORKER", "DRIVER"].contains user.role && o.assignedWorker != some req.userId then
            (fail 403 "You are not assigned to this order", s)
          else
            match updateStatusMutate now req st o with
            | Except.error msg => (serverError msg, s)
            | Except.ok order =>
              let order := updateStatusDetails now req st order
              let s1 := if st == "completed" then
                creditOwner (creditWorker s order) order.fields.user
                  (if truthyNum req.actualQuantity then req.actualQuantity.getD 0
                    else order.fields.estimatedQuantity)
                  order.fields.ecoPointsEarned
                else s
              (ok 200 ("Order status updated to " ++ req.status.getD ""), saveOrder s1 now order)

/-! ## rateOrder (order.controller.js, lines 333-383) -/

structure RateRequest where
  userId : ObjectId
  orderId : String
  score : Option Rat
  feedback : Option String
deriving DecidableEq, Repr

/-- The handler `rateOrder`. -/
def rateOrder (s : Store) (now : Timestamp) (req : RateRequest) : Response × Store :=
  if ! truthyNum req.score || decide (req.score.getD 0 < 1) || decide (req.score.getD 0 > 5) then
    (fail 400 "Please provide a rating between 1 and 5", s)
  else
    match s.orders.find? (fun o => matchesKey req.orderId o && o.user == req.userId) with
    | none => (fail 404 "Order not found", s)
    | some order =>
      if order.status != "completed" then
        (fail 400 "Can only rate completed orders", s)
      else
        (ok 200 "Thank you for your feedback!",
          updateOrderById s order._id (fun o =>
            { o with rating := { score := req.score, feedback := some (orElse req.feedback ""),
                                 ratedAt := some now }
                     updatedAt := now }))

/-! ## createOrder (order.controller.js, lines 5-218; Order.js, lines 163-205) -/

/-- Path `scanData` of the request body. -/
structure ScanDataInput where
  scanId : Option ObjectId
  aiAnalysis : Option AiAnalysis
deriving DecidableEq, Repr

structure CreateOrderRequest where
  userId : ObjectId
  wasteTypes : Option (List String)
  estimatedQuantity : Option Rat
  scheduledDate : Option Timestamp
  scheduledTime : Option String
  location : Option Location
  notes : Option String
  scanData : Option ScanDataInput
deriving DecidableEq, Repr

/-- What the runtime supplies to `createOrder`: the current instant, the first
instant of the current calendar month (local time), and the fresh `_id` and
`orderId` code generated for the new document. -/
structure Env where
  now : Timestamp
  monthStart : Timestamp
  newId : ObjectId
  newOrderId : String
deriving DecidableEq, Repr

/-- The expression `user.subscription?.plan || "FREE"`. -/
def subscriptionPlan (user : User) : String :=
  orElse (user.subscription.bind (fun x => x.plan)) "FREE"

/-- The expression `user.subscription?.status === "active"`. -/
def isActive (user : User) : Bool :=
  user.subscription.bind (fun x => x.status) == some "active"

/-- The count `Order.countDocuments({ user, createdAt: { $gte: monthStart } })`. -/
def monthlyOrders (s : Store) (userId : ObjectId) (monthStart : Timestamp) : Nat :=
  (s.orders.filter (fun o => o.user == userId && decide (monthStart ≤ o.createdAt))).length

/-- The table `orderLimits` (lines 64-68). -/
def orderLimits (plan : String) : Option Nat :=
  if plan = "BASIC" then some 5
  else if plan = "PREMIUM" then some 20
  else if plan = "ENTERPRISE" then some 999
  else none

/-- The expression `orderLimits[subscriptionPlan] || 5`. -/
def orderLimit (plan : String) : Nat :=
  match orderLimits plan with
  | some n => if n = 0 then 5 else n
  | none => 5

/-- The subscription check (lines 27-80): `none` lets the request through. -/
def subscriptionGate (user : User) (count : Nat) : Option Response :=
  if subscriptionPlan user = "FREE" then
    some { status := 403, success := false,
           message := "Please upgrade your subscription to place orders. Scanning is free, but order scheduling requires a subscription.",
           flags := ["subscriptionRequired"] }
  else if ! isActive user then
    some { status := 403, success := false,
           message := "Your subscription has expired. Please renew to place orders.",
           flags := ["subscriptionExpired"] }
  else if count ≥ orderLimit (subscriptionPlan user) then
    some { status := 403, success := false,
           message := "You have reached your monthly order limit (" ++
             toString (orderLimit (subscriptionPlan user)) ++
             "). Please upgrade your plan for more orders.",
           flags := ["orderLimitReached"] }
  else none

def maxScanAge : Int := 24 * 60 * 60 * 1000

/-- A 400 answer carrying `scanRequired: true` (and possibly further flags). -/
def scanRejection (msg : String) (more : List String) : Response :=
  { status := 400, success := false, message := msg, flags := "scanRequired" :: more }

/-- The scan validation (lines 82-115): the scan record, or the 400 answer. -/
def scanBinding (s : Store) (now : Timestamp) (scanData : Option ScanDataInput) :
    Except Response ScanHistory :=
  let missing := scanRejection
    "Please scan or take a picture of your waste before scheduling pickup. This helps us prepare for collection."
    []
  match scanData.bind (fun x => x.scanId) with
  | none => Except.error missing
  | some scanId =>
    if scanId = "" then Except.error missing
    else
      match findScanById s scanId with
      | none =>
        Except.error (scanRejection "Invalid scan data. Please scan your waste again." [])
      | some scanRecord =>
        if (now : Int) - (scanRecord.createdAt : Int) > maxScanAge then
          Except.error (scanRejection
            "Your scan has expired. Please scan your waste again for accurate pickup scheduling."
            ["scanExpired"])
        else Except.ok scanRecord

/-- The field validation (lines 117-144): `none` when all fields are present. -/
def validateFields (req : CreateOrderRequest) : Option Response :=
  if req.wasteTypes.getD [] = [] then
    some (fail 400 "Please select at least one waste type")
  else if ! truthyNum req.estimatedQuantity || decide (req.estimatedQuantity.getD 0 < 1) then
    some (fail 400 "Please provide estimated quantity")
  else if req.scheduledDate = none || ! truthy req.scheduledTime then
    some (fail 400 "Please select pickup date and time")
  else if (req.location.bind (fun l => l.coordinates)) = none then
    some (fail 400 "Please provide pickup location")
  else none

/-- The snapshot built at lines 156-168 from the scan record. -/
def scanSnapshot (scanId : ObjectId) (scanRecord : ScanHistory) (input : Option ScanDataInput) :
    ScanData :=
  { scanId := scanId
    aiAnalysis :=
      match scanRecord.results with
      | some results =>
        some { category := orElse (results.items.head?.bind (fun i => i.category)) "Mixed"
               recyclable := decide (results.recyclableCount > 0)
               estimatedWeight := results.totalWeight
               quality := "good"
               confidence :=
                 if truthyNum (results.items.head?.bind (fun i => i.confidence)) then
                   (results.items.head?.bind (fun i => i.confidence)).getD 0
                 else 85 / 100 }
      | none => input.bind (fun x => x.aiAnalysis)
    scannedAt := scanRecord.createdAt }

/-- The function `Math.round`. -/
def mathRound (x : Rat) : Int := Int.floor (x + 1 / 2)

/-- The table `prices` of `calculateEstimatedValue`, with its `|| 5` fallback. -/
def price (type : String) : Rat :=
  if type = "plastic" then 5 else if type = "paper" then 8 else if type = "glass" then 3
  else if type = "metal" then 25 else if type = "ewaste" then 50
  else if type = "organic" then 2 else 5

/-- The method `calculateEstimatedValue` (Order.js, lines 182-205). -/
def calculateEstimatedValue (o : Order) : Order :=
  let o := if o.wasteTypes.length > 0 then
      { o with estimatedValue :=
          mathRound ((o.wasteTypes.map price).sum / o.wasteTypes.length * o.estimatedQuantity) }
    else o
  { o with ecoPointsEarned := mathRound (o.estimatedQuantity * 2) }

/-- The document `new Order({...})` of lines 147-169 with the schema defaults. -/
def newOrder (env : Env) (req : CreateOrderRequest) (scanId : ObjectId)
    (scanRecord : ScanHistory) : Order :=
  { _id := env.newId, orderId := env.newOrderId, user := req.userId,
    wasteTypes := req.wasteTypes.getD [],
    estimatedQuantity := req.estimatedQuantity.getD 0,
    actualQuantity := none, estimatedValue := 0, actualValue := none, ecoPointsEarned := 0,
    scheduledDate := req.scheduledDate.getD 0,
    scheduledTime := req.scheduledTime.getD "",
    location := req.location.getD
      { label := none, street := none, landmark := none, area := none, city := none,
        pincode := none, coordinates := none },
    notes := orElse req.notes "",
    scanData := scanSnapshot scanId scanRecord req.scanData,
    status := "pending", assignedWorker := none, completedAt := none, cancelledAt := none,
    cancellationReason := none, rating := { score := none, feedback := none, ratedAt := none },
    createdAt := env.now, updatedAt := env.now }

/-- What `order.save()` checks on a new order: the `wasteTypes` enum and the
unique indexes on `_id` and `orderId`; the error message when one fails. -/
def insertError (s : Store) (o : Order) : Option String :=
  if ! o.wasteTypes.all (fun w => wasteTypeEnum.contains w) then
    some "Order validation failed: wasteTypes is not a valid enum value"
  else if s.orders.any (fun x => x._id == o._id || x.orderId == o.orderId) then
    some "E11000 duplicate key error"
  else none

/-- The handler `createOrder`. -/
def createOrder (s : Store) (env : Env) (req : CreateOrderRequest) : Response × Store :=
  match findUserById s req.userId with
  | none => (fail 404 "User not found", s)
  | some user =>
    match subscriptionGate user (monthlyOrders s req.userId env.monthStart) with
    | some r => (r, s)
    | none =>
      match scanBinding s env.now req.scanData with
      | Except.error r => (r, s)
      | Except.ok scanRecord =>
        match validateFields req with
        | some r => (r, s)
        | none =>
          let scanId := orElse (req.scanData.bind (fun x => x.scanId)) ""
          let order := calculateEstimatedValue (newOrder env req scanId scanRecord)
          match insertError s order with
          | some msg => (serverError msg, s)
          | none =>
            let s1 := { s with orders := s.orders ++ [order] }
            let s2 := updateUserById s1 req.userId (fun u =>
              { u with stats := { u.stats with totalOrders := u.stats.totalOrders + 1 } })
            let s3 := updateScanById s2 scanId (fun r =>
              { r with orderId := some order._id
                       convertedToOrder := true
                       user := some req.userId })
            (ok 201 "Order placed successfully", s3)

/-! ## Concurrent self-assignment

Each `await` of `selfAssignOrder` is one atomic access to the store; between
two accesses of one call, accesses of other calls may take place. -/

/-- Where a running `selfAssignOrder` call stands. -/
inductive SelfAssignPc where
  | start
  | checked (user : User)
  | mutated (user : User) (order : OrderDoc)
  | saved (order : OrderDoc)
  | done (r : Response)
deriving DecidableEq, Repr

/-- One atomic step of a call: `User.findById` with the checks (line 921),
`Order.findOne` with the in-memory assignment (line 943), `order.save()`
(line 966), `User.findByIdAndUpdate` with the answer (line 969). -/
def selfAssignStep (s : Store) (now : Timestamp) (req : SelfAssignRequest) :
    SelfAssignPc → SelfAssignPc × Store
  | SelfAssignPc.start =>
    match findUserById s req.userId with
    | none => (SelfAssignPc.done (serverError "Cannot read properties of null (reading role)"), s)
    | some user =>
      match selfAssignChecks user with
      | some r => (SelfAssignPc.done r, s)
      | none => (SelfAssignPc.checked user, s)
  | SelfAssignPc.checked user =>
    match findPendingUnassigned s req.orderId with
    | none => (SelfAssignPc.done (fail 404 "Order not found or already assigned"), s)
    | some o =>
      match selfAssignMutate now user req.userId o with
      | Except.error msg => (SelfAssignPc.done (serverError msg), s)
      | Except.ok order => (SelfAssignPc.mutated user order, s)
  | SelfAssignPc.mutated _ order => (SelfAssignPc.saved order, saveOrder s now order)
  | SelfAssignPc.saved order =>
    (SelfAssignPc.done (ok 200 "Order assigned to you successfully"),
      pushAssignedOrder s req.userId order.fields._id)
  | SelfAssignPc.done r => (SelfAssignPc.done r, s)

/-- The states of a call that has written nothing and has not answered 200. -/
def SelfAssignPc.safe : SelfAssignPc → Prop
  | SelfAssignPc.start => True
  | SelfAssignPc.checked _ => True
  | SelfAssignPc.done r => r.status ≠ 200
  | _ => False

/-- A call in flight: its request and where it stands. -/
structure Call where
  req : SelfAssignRequest
  pc : SelfAssignPc
deriving DecidableEq, Repr

/-- The shared store and the calls in flight. -/
structure System where
  store : Store
  calls : List Call
deriving DecidableEq, Repr

/-- All calls at their first statement. -/
def System.init (s : Store) (reqs : List SelfAssignRequest) : System :=
  { store := s, calls := reqs.map (fun r => { req := r, pc := SelfAssignPc.start }) }

/-- Call number `i` performs its next store access at instant `now`. -/
def System.step (sys : System) (now : Timestamp) (i : Nat) : System :=
  match sys.calls.get? i with
  | none => sys
  | some c =>
    { store := (selfAssignStep sys.store now c.req c.pc).2
      calls := sys.calls.set i { c with pc := (selfAssignStep sys.store now c.req c.pc).1 } }

/-- Run a schedule: a list of (call number, instant). -/
def System.run (sys : System) (schedule : List (Nat × Timestamp)) : System :=
  schedule.foldl (fun st x => st.step x.2 x.1) sys

/-- The answers of the calls that have finished. -/
def System.answers (sys : System) : List (Option Response) :=
  sys.calls.map (fun c => match c.pc with
    | SelfAssignPc.done r => some r
    | _ => none)

/-- Number of calls that answered 200. -/
def System.successes (sys : System) : Nat :=
  (sys.answers.filter (fun a => a.map (fun r => r.status) == some 200)).length

/-! ## The lifecycle as the specification words it -/

/-- The transition table in the words of the specification (section 4.5):
the legal successors of a status.  The controller contains no such table. -/
def specTransitionTable (status : String) : List String :=
  if status = "pending" then ["confirmed", "assigned", "cancelled"]
  else if status = "confirmed" then ["assigned", "cancelled"]
  else if status = "assigned" then ["in_transit", "cancelled"]
  else if status = "in_transit" then ["arrived"]
  else if status = "arrived" then ["completed"]
  else []

/-- The invariant of section 3 on one order: an assigned worker implies a
status from `assigned` on. -/
def orderInvariant (o : Order) : Prop :=
  o.assignedWorker ≠ none → o.status ∈ ["assigned", "in_transit", "arrived", "completed"]

instance : DecidablePred orderInvariant := fun o => by
  unfold orderInvariant
  infer_instance

/-- The property `statusHistory` of a stored order as a handler reads it
(for instance `trackOrder`, line 756). -/
def readStatusHistory (o : Order) : Option (List StatusEntry) := (hydrate o).statusHistory

/-! ## Order operations as a type -/

/-- What can happen to the store once an order exists: one of the five later
order operations with its request, or any change of the scan collection
(records modified, deleted or added). -/
inductive LaterOp where
  | cancelOrder (now : Timestamp) (req : CancelRequest)
  | rateOrder (now : Timestamp) (req : RateRequest)
  | assignOrder (now : Timestamp) (req : AssignRequest)
  | selfAssignOrder (now : Timestamp) (req : SelfAssignRequest)
  | updateOrderStatus (now : Timestamp) (req : UpdateStatusRequest)
  | scans (change : List ScanHistory → List ScanHistory)

/-- The store after a later step. -/
def LaterOp.run : LaterOp → Store → Store
  | LaterOp.cancelOrder now req, s => (EcoSystem.cancelOrder s now req).2
  | LaterOp.rateOrder now req, s => (EcoSystem.rateOrder s now req).2
  | LaterOp.assignOrder now req, s => (EcoSystem.assignOrder s now req).2
  | LaterOp.selfAssignOrder now req, s => (EcoSystem.selfAssignOrder s now req).2
  | LaterOp.updateOrderStatus now req, s => (EcoSystem.updateOrderStatus s now req).2
  | LaterOp.scans change, s => { s with scans := change s.scans }

/-- Any order operation: `createOrder`, or a later one. -/
inductive Op where
  | createOrder (env : Env) (req : CreateOrderRequest)
  | later (op : LaterOp)

/-- The store after an operation. -/
def Op.run : Op → Store → Store
  | Op.createOrder env req, s => (EcoSystem.createOrder s env req).2
  | Op.later op, s => op.run s

/-- The scan snapshot of every stored order, by `_id`. -/
def snapshots (s : Store) : List (ObjectId × ScanData) :=
  s.orders.map (fun o => (o._id, o.scanData))

/-! ## Example data -/

def exLocation : Location :=
  { label := none, street := none, landmark := none, area := some "Andheri West",
    city := none, pincode := none, coordinates := some { lat := 19, lng := 72 } }

def exOrder : Order :=
  { _id := "o1", orderId := "ORD-250101-ABC123", user := "u1", wasteTypes := ["mixed"],
    estimatedQuantity := 10, actualQuantity := none, estimatedValue := 50,
    actualValue := none, ecoPointsEarned := 20, scheduledDate := 1000,
    scheduledTime := "09:00-12:00", location := exLocation, notes := "",
    scanData := { scanId := "s1", aiAnalysis := none, scannedAt := 5 },
    status := "pending", assignedWorker := none, completedAt := none,
    cancelledAt := none, cancellationReason := none,
    rating := { score := none, feedback := none, ratedAt := none },
    createdAt := 10, updatedAt := 10 }

def exStats : Stats := { points := 0, totalScans := 0, totalOrders := 3, recycledKg := 0 }

def exLive : LiveLocation :=
  { coordinates := none, heading := none, speed := none, accuracy := none,
    lastUpdated := none, isSharing := false }

def exIdle : WorkerInfo :=
  { employeeId := none, isOnDuty := false, assignedOrders := [], completedOrders := 0,
    status := "active" }

/-- The owner of the example order: PREMIUM plan, active subscription. -/
def exOwner : User :=
  { _id := "u1", role := "USER", name := some "Asha", workerInfo := exIdle,
    liveLocation := exLive,
    subscription := some { plan := some "PREMIUM", status := some "active" },
    stats := exStats }

/-- A worker on duty whose status is the active value of the schema. -/
def exWorker1 : User :=
  { _id := "w1", role := "WORKER", name := some "Ram Kumar",
    workerInfo := { employeeId := some "WRK001", isOnDuty := true, assignedOrders := [],
                    completedOrders := 0, status := "active" },
    liveLocation := exLive, subscription := none, stats := exStats }

/-- A second worker on duty, same status. -/
def exWorker2 : User :=
  { _id := "w2", role := "WORKER", name := some "Sita Devi",
    workerInfo := { employeeId := some "WRK002", isOnDuty := true, assignedOrders := [],
                    completedOrders := 0, status := "active" },
    liveLocation := exLive, subscription := none, stats := exStats }

/-- A worker on duty whose stored status is the upper-case string the
controller compares with (not a value of the schema enum). -/
def exWorker3 : User :=
  { _id := "w3", role := "WORKER", name := some "Gita",
    workerInfo := { employeeId := some "WRK003", isOnDuty := true, assignedOrders := [],
                    completedOrders := 0, status := "ACTIVE" },
    liveLocation := exLive, subscription := none, stats := exStats }

def exAdmin : User :=
  { _id := "a1", role := "SUPER_ADMIN", name := some "Admin User", workerInfo := exIdle,
    liveLocation := exLive, subscription := none, stats := exStats }

def exScan : ScanHistory :=
  { _id := "s1", user := some "u1",
    results := some { items := [{ category := some "plastic", confidence := some (9 / 10) }],
                      totalWeight := 10, recyclableCount := 1 },
    orderId := none, convertedToOrder := false, createdAt := 5 }

/-- A cancelled order of the same owner. -/
def exCancelled : Order :=
  { exOrder with _id := "o2", orderId := "ORD-250101-CANCEL", status := "cancelled",
                 cancelledAt := some 20, cancellationReason := some "Cancelled by user" }

/-- An order at which worker `w1` has arrived. -/
def exArrived : Order :=
  { exOrder with _id := "o3", orderId := "ORD-250101-ARRIVE", status := "arrived",
                 assignedWorker := some "w1" }

/-- A completed order. -/
def exCompleted : Order :=
  { exOrder with _id := "o4", orderId := "ORD-250101-COMPLT", status := "completed",
                 assignedWorker := some "w1", completedAt := some 30 }

def exStore : Store :=
  { orders := [exOrder, exCancelled, exArrived, exCompleted], users := [exOwner, exWorker1, exWorker2, exWorker3, exAdmin],
    scans := [exScan] }

/-- A runtime context: the month started at instant 0. -/
def exEnv : Env := { now := 100, monthStart := 0, newId := "o9", newOrderId := "ORD-250102-NEWONE" }

/-- A complete request of the owner that binds the example scan. -/
def exCreate : CreateOrderRequest :=
  { userId := "u1", wasteTypes := some ["mixed"], estimatedQuantity := some 10,
    scheduledDate := some 2000, scheduledTime := some "09:00-12:00",
    location := some exLocation, notes := none,
    scanData := some { scanId := some "s1", aiAnalysis := none } }

/-! ## Proximity search

The distance formula is written out four times in the repository with the
same text: `calculateDistance` of Facility.js (lines 217-229, also used by
incident.controller.js) and inline in `getNearbyWorkers`,
`getPendingOrdersInArea` and `trackOrder`.  The functions of the JavaScript
`Math` object belong to the runtime; the embedding takes them, and the number
type, as parameters, so that every definition computes over the rationals and
can be read over the reals. -/

/-- The part of the JavaScript `Math` object the distance formula uses. -/
structure JsMath (K : Type) where
  PI : K
  sin : K → K
  cos : K → K
  sqrt : K → K
  atan2 : K → K → K

/-- The `Math` object over the real numbers (`atan2 y x` is the argument of
`x + y i`). -/
noncomputable def realMath : JsMath ℝ :=
  { PI := Real.pi, sin := Real.sin, cos := Real.cos, sqrt := Real.sqrt,
    atan2 := fun y x => Complex.arg (Complex.mk x y) }

section Proximity

variable {K : Type} [LinearOrderedField K] [FloorRing K]

/-- The function `calculateDistance` (Facility.js, lines 217-229): Haversine
distance in km on a sphere of radius 6371 km. -/
def calculateDistance (M : JsMath K) (lat1 lon1 lat2 lon2 : K) : K :=
  let R : K := 6371
  let dLat := ((lat2 - lat1) * M.PI) / 180
  let dLon := ((lon2 - lon1) * M.PI) / 180
  let a :=
    M.sin (dLat / 2) * M.sin (dLat / 2) +
      M.cos ((lat1 * M.PI) / 180) * M.cos ((lat2 * M.PI) / 180) *
        M.sin (dLon / 2) * M.sin (dLon / 2)
  let c := 2 * M.atan2 (M.sqrt a) (M.sqrt (1 - a))
  R * c

/-- The function `Math.round`: the nearest integer, halves up. -/
def jsRound (x : K) : Int := Int.floor (x + 1 / 2)

/-- The expression `parseFloat(x.toFixed(2))`: the nearest multiple of 0.01,
halves away from zero. -/
def toFixed2 (x : K) : K :=
  if 0 ≤ x then (Int.floor (x * 100 + 1 / 2) : K) / 100
  else -((Int.floor (-x * 100 + 1 / 2) : K) / 100)

/-- The expression `Math.round(x * 100) / 100`. -/
def round2 (x : K) : K := (jsRound (x * 100) : K) / 100

/-- The bounding box of the two `findNearby` queries (Facility.js lines
182-189, Incident.js lines 179-186): `$gte`/`$lte` windows on `location.lat`
and `location.lng`.  (A division by a zero cosine is 0 here and infinite in
JavaScript; this can only differ at the poles.) -/
def inBox (M : JsMath K) (lat lng radiusKm : K) (p : Coordinates) : Bool :=
  decide (lat - radiusKm / 111 ≤ (p.lat : K)) &&
  decide ((p.lat : K) ≤ lat + radiusKm / 111) &&
  decide (lng - radiusKm / (111 * M.cos ((lat * M.PI) / 180)) ≤ (p.lng : K)) &&
  decide ((p.lng : K) ≤ lng + radiusKm / (111 * M.cos ((lat * M.PI) / 180)))

end Proximity

/-- A stored facility: the paths of `facilitySchema` that `findNearby` reads. -/
structure Facility where
  _id : ObjectId
  name : String
  type : String
  location : Coordinates
  accepts : List String
  isActive : Bool
deriving DecidableEq, Repr

/-- An element of the result of `Facility.findNearby`: the facility object
with the added `distance_km`. -/
structure NearbyFacility (K : Type) where
  facility : Facility
  distance_km : K

section Proximity

variable {K : Type} [LinearOrderedField K] [FloorRing K]

/-- The static `Facility.findNearby` (Facility.js, lines 173-214) on the
stored facilities.  `radiusKm` defaults to 5 and `category` to `null` at the
call.  The final `sort` is stable. -/
def Facility.findNearby (M : JsMath K) (facilities : List Facility) (lat lng radiusKm : K)
    (category : Option String) : List (NearbyFacility K) :=
  let found := facilities.filter (fun f =>
    f.isActive && inBox M lat lng radiusKm f.location &&
      (if truthy category then f.accepts.contains (orElse category "") else true))
  ((found.map (fun f =>
      ({ facility := f
         distance_km := toFixed2 (calculateDistance M lat lng f.location.lat f.location.lng) } :
        NearbyFacility K))).filter
    (fun f => decide (f.distance_km ≤ radiusKm))).insertionSort
    (fun a b => a.distance_km ≤ b.distance_km)

end Proximity

/-! ## getNearbyWorkers (user.controller.js, lines 503-587) -/

/-- The query string of `getNearbyWorkers`, with `lat`, `lng` and `radius`
already read by `parseFloat` (`none`: absent or empty). -/
structure NearbyWorkersQuery (K : Type) where
  lat : Option K
  lng : Option K
  radius : Option K
  role : Option String

/-- An element of the `workers` list of the answer. -/
structure NearbyWorker (K : Type) where
  id : ObjectId
  role : String
  lat : K
  lng : K
  distance : K
  eta : Int

/-- The method `String.prototype.toUpperCase` (on the ASCII letters). -/
def toUpperCase (s : String) : String := String.mk (s.data.map Char.toUpper)

section Proximity

variable {K : Type} [LinearOrderedField K] [FloorRing K]

/-- The handler `getNearbyWorkers`: the answer and its `workers` list. -/
def getNearbyWorkers (M : JsMath K) (s : Store) (q : NearbyWorkersQuery K) :
    Response × List (NearbyWorker K) :=
  match q.lat, q.lng with
  | some userLat, some userLng =>
    let searchRadius := q.radius.getD 5
    let workers := s.users.filter (fun u =>
      u.workerInfo.isOnDuty && u.workerInfo.status == "ACTIVE" && u.liveLocation.isSharing &&
        (if truthy q.role then u.role == toUpperCase (orElse q.role "")
          else ["WORKER", "DRIVER"].contains u.role))
    let nearbyWorkers := ((workers.map (fun w =>
        let workerLat : K := ((w.liveLocation.coordinates.map (fun c => c.lat)).getD 0 : Rat)
        let workerLng : K := ((w.liveLocation.coordinates.map (fun c => c.lng)).getD 0 : Rat)
        let distance := calculateDistance M userLat userLng workerLat workerLng
        ({ id := w._id, role := w.role, lat := workerLat, lng := workerLng
           distance := round2 distance
           eta := jsRound ((distance / 30) * 60) } : NearbyWorker K))).filter
      (fun w => decide (w.distance ≤ searchRadius))).insertionSort
      (fun a b => a.distance ≤ b.distance)
    (ok 200 "", nearbyWorkers)
  | _, _ => (fail 400 "Latitude and longitude are required", [])

end Proximity

/-! ## Incidents (Incident.js, lines 167-188; incident.controller.js, lines 239-311) -/

/-- A stored incident: the paths of `incidentSchema` the proximity search reads. -/
structure Incident where
  _id : ObjectId
  type : String
  severity : String
  status : String
  location : Coordinates
  createdAt : Timestamp
deriving DecidableEq, Repr

/-- An element of the `incidents` list of `getNearbyIncidents`. -/
structure ListedIncident (K : Type) where
  incident : Incident
  distance_km : K

/-- The query string of `getNearbyIncidents`, numbers already parsed. -/
structure NearbyIncidentsQuery (K : Type) where
  lat : Option K
  lng : Option K
  radius : Option K
  type : Option String
  severity : Option String
  status : Option String

/-- The table `severityOrder` of `getNearbyIncidents` on the values of the
schema enum (any other string ranks last). -/
def severityOrder (severity : String) : Nat :=
  if severity = "critical" then 0 else if severity = "high" then 1
  else if severity = "medium" then 2 else if severity = "low" then 3 else 4

section Proximity

variable {K : Type} [LinearOrderedField K] [FloorRing K]

/-- The static `Incident.findNearby`: the status and bounding-box query,
sorted by `severity` descending, then `createdAt` descending.  The value
`radiusInRadians` of line 175 is computed and never used. -/
def Incident.findNearby (M : JsMath K) (incidents : List Incident) (lat lng radiusKm : K)
    (status : String) : List Incident :=
  (incidents.filter (fun i => i.status == status && inBox M lat lng radiusKm i.location)).insertionSort
    (fun a b => b.severity < a.severity ∨ (a.severity = b.severity ∧ b.createdAt ≤ a.createdAt))

/-- The handler `getNearbyIncidents`: the answer and its `incidents` list. -/
def getNearbyIncidents (M : JsMath K) (incidents : List Incident) (q : NearbyIncidentsQuery K) :
    Response × List (ListedIncident K) :=
  match q.lat, q.lng with
  | some lat, some lng =>
    let found := Incident.findNearby M incidents lat lng (q.radius.getD 10)
      (orElse q.status "active")
    let found := if truthy q.type then found.filter (fun i => i.type == orElse q.type "")
      else found
    let found := if truthy q.severity then
        found.filter (fun i => i.severity == orElse q.severity "")
      else found
    let listed := found.map (fun i =>
      ({ incident := i
         distance_km := toFixed2 (calculateDistance M lat lng i.location.lat i.location.lng) } :
        ListedIncident K))
    (ok 200 "", listed.insertionSort (fun a b =>
      severityOrder a.incident.severity < severityOrder b.incident.severity ∨
        (severityOrder a.incident.severity = severityOrder b.incident.severity ∧
          a.distance_km ≤ b.distance_km)))
  | _, _ => (fail 400 "Location (lat, lng) is required", [])

end Proximity

/-! ## getPendingOrdersInArea (order.controller.js, lines 830-914) -/

/-- The query string of `getPendingOrdersInArea`, numbers already parsed. -/
structure PendingOrdersQuery (K : Type) where
  area : Option String
  lat : Option K
  lng : Option K
  radius : Option K

/-- An element of the `orders` list of the answer: the order and its
`distance` (`none` for `null` or `undefined`). -/
structure PendingOrder (K : Type) where
  order : Order
  distance : Option K

section Proximity

variable {K : Type} [LinearOrderedField K] [FloorRing K]

/-- The expression `o.distance || 0`. -/
def distanceOrZero (o : PendingOrder K) : K := o.distance.getD 0

/-- The handler `getPendingOrdersInArea`.  `regexTest pattern text` is the
case-insensitive `$regex` match of MongoDB, a parameter of the embedding. -/
def getPendingOrdersInArea (M : JsMath K) (regexTest : String → String → Bool) (s : Store)
    (q : PendingOrdersQuery K) : Response × List (PendingOrder K) :=
  let orders := (s.orders.filter (fun o =>
      o.status == "pending" && o.assignedWorker == none &&
        (if truthy q.area then
          (match o.location.area with
            | some a => regexTest (orElse q.area "") a
            | none => false)
          else true))).insertionSort
    (fun a b => a.scheduledDate < b.scheduledDate ∨
      (a.scheduledDate = b.scheduledDate ∧ ¬ b.scheduledTime < a.scheduledTime))
  match q.lat, q.lng with
  | some userLat, some userLng =>
    let searchRadius := q.radius.getD 10
    (ok 200 "",
      ((orders.map (fun order =>
          match order.location.coordinates with
          | some c =>
            ({ order := order
               distance := some (round2 (calculateDistance M userLat userLng c.lat c.lng)) } :
              PendingOrder K)
          | none => { order := order, distance := none })).filter
        (fun o => (o.distance == none || o.distance == some 0) ||
          decide (distanceOrZero o ≤ searchRadius))).insertionSort
        (fun a b => distanceOrZero a ≤ distanceOrZero b))
  | _, _ => (ok 200 "", orders.map (fun order => { order := order, distance := none }))

end Proximity

/-! ## Example data for the proximity search -/

/-- A facility on the equator, 0.045 degrees east of the origin. -/
def exFacility : Facility :=
  { _id := "f1", name := "Equator Recycling", type := "recycling_center",
    location := { lat := 0, lng := 9 / 200 }, accepts := ["plastic"], isActive := true }

/-- A facility on the equator, 0.00901 degrees east of the origin. -/
def exFacilityA : Facility :=
  { _id := "f2", name := "Depot A", type := "recycling_center",
    location := { lat := 0, lng := 901 / 100000 }, accepts := ["paper"], isActive := true }

/-- A facility on the equator, 0.009 degrees east of the origin. -/
def exFacilityB : Facility :=
  { _id := "f3", name := "Depot B", type := "recycling_center",
    location := { lat := 0, lng := 9 / 1000 }, accepts := ["paper"], isActive := true }

/-- An active incident on the equator, 10/111 degrees east of the origin. -/
def exIncident : Incident :=
  { _id := "i1", type := "pothole", severity := "low", status := "active",
    location := { lat := 0, lng := 10 / 111 }, createdAt := 1 }

/-- An incident at the corner of the bounding box of radius 10 at the origin. -/
def exCorner : Incident :=
  { _id := "i2", type := "fire", severity := "critical", status := "active",
    location := { lat := 10 / 111, lng := 10 / 111 }, createdAt := 2 }

/-- A pending, unassigned order stored without coordinates. -/
def exNoCoordinates : Order :=
  { exOrder with _id := "o5", orderId := "ORD-250101-NOCOOR",
                 location := { exLocation with coordinates := none } }

/-! ## getOrderById, trackOrder, getMyAssignedOrders (order.controller.js, lines 257-284, 684-828) -/

/-- The two inputs of a read by key: the caller (`req.userId`) and the path
parameter `orderId`. -/
structure OrderKeyRequest where
  userId : ObjectId
  orderId : String
deriving DecidableEq, Repr

/-- The filter `{ $or: [{ _id }, { orderId }], user: req.userId }` that
`getOrderById`, `cancelOrder`, `rateOrder` and `trackOrder` all pass to
`Order.findOne`. -/
def findOwned (s : Store) (key : String) (userId : ObjectId) : Option Order :=
  s.orders.find? (fun o => matchesKey key o && o.user == userId)

/-- The call `.populate("assignedWorker", ...)`: the referenced user, `null`
when the order has no worker or the reference is dangling. -/
def populateWorker (s : Store) (o : Order) : Option User :=
  o.assignedWorker.bind (findUserById s)

/-- The `worker` object of the answer of `trackOrder` (lines 765-771): the
fields the model carries. -/
structure WorkerView where
  name : String
  employeeId : Option String
deriving DecidableEq, Repr

/-- The populated `assignedWorker` inside the order that `getOrderById`
returns: the selected paths as stored. -/
structure PopulatedWorker where
  _id : ObjectId
  name : Option String
  employeeId : Option String
deriving DecidableEq, Repr

/-- The answer of `getOrderById`. -/
structure OrderResponse where
  status : Nat
  success : Bool
  message : Option String
  order : Option Order
  assignedWorker : Option PopulatedWorker
deriving DecidableEq, Repr

/-- The handler `getOrderById`. -/
def getOrderById (s : Store) (req : OrderKeyRequest) : OrderResponse :=
  match findOwned s req.orderId req.userId with
  | none =>
    { status := 404, success := false, message := some "Order not found", order := none,
      assignedWorker := none }
  | some order =>
    { status := 200, success := true, message := none, order := some order,
      assignedWorker := (populateWorker s order).map (fun w =>
        { _id := w._id, name := w.name, employeeId := w.workerInfo.employeeId }) }

/-- The `order` object of the answer of `trackOrder` (lines 752-761). -/
structure TrackedOrder where
  orderId : String
  status : String
  statusHistory : Option (List StatusEntry)
  scheduledDate : Timestamp
  scheduledTime : String
  location : Location
  estimatedQuantity : Rat
  wasteTypes : List String
deriving DecidableEq, Repr

/-- The `liveTracking` object of the answer of `trackOrder`.  A `distance` or
`eta` of `none` is a field that is not set, or one that JSON writes as `null`. -/
structure LiveTracking (K : Type) where
  isAvailable : Bool
  location : Option LiveLocation
  distance : Option K
  eta : Option Int
  message : Option String

/-- The answer of `trackOrder`. -/
structure TrackResponse (K : Type) where
  status : Nat
  success : Bool
  message : Option String
  order : Option TrackedOrder
  worker : Option WorkerView
  liveTracking : Option (LiveTracking K)

section Tracking

variable {K : Type} [LinearOrderedField K] [FloorRing K]

/-- The distance of lines 793-811 of `trackOrder`, written out there inline. -/
def trackDistance (M : JsMath K) (userLat userLng workerLat workerLng : K) : K :=
  let R : K := 6371
  let dLat := ((userLat - workerLat) * M.PI) / 180
  let dLng := ((userLng - workerLng) * M.PI) / 180
  let a :=
    M.sin (dLat / 2) * M.sin (dLat / 2) +
      M.cos ((workerLat * M.PI) / 180) * M.cos ((userLat * M.PI) / 180) *
        M.sin (dLng / 2) * M.sin (dLng / 2)
  let c := 2 * M.atan2 (M.sqrt a) (M.sqrt (1 - a))
  R * c

/-- The `liveTracking` object for a populated worker (lines 775-826).  The
estimate is made when both `order.location.coordinates` and the worker's
`liveLocation.coordinates` are set. -/
def liveTracking (M : JsMath K) (order : Order) (worker : User) : LiveTracking K :=
  if worker.liveLocation.isSharing then
    match order.location.coordinates, worker.liveLocation.coordinates with
    | some u, some w =>
      let distance := trackDistance M (u.lat : K) (u.lng : K) (w.lat : K) (w.lng : K)
      { isAvailable := true, location := some worker.liveLocation,
        distance := some (round2 distance),
        eta := some (jsRound ((distance / 25) * 60)),
        message := none }
    | _, _ =>
      { isAvailable := true, location := some worker.liveLocation, distance := none,
        eta := none, message := none }
  else
    { isAvailable := false, location := none, distance := none, eta := none,
      message := some "Worker location not currently available" }

/-- The handler `trackOrder`. -/
def trackOrder (M : JsMath K) (s : Store) (req : OrderKeyRequest) : TrackResponse K :=
  match findOwned s req.orderId req.userId with
  | none =>
    { status := 404, success := false, message := some "Order not found", order := none,
      worker := none, liveTracking := none }
  | some order =>
    { status := 200, success := true, message := none,
      order := some
        { orderId := order.orderId, status := order.status,
          statusHistory := readStatusHistory order,
          scheduledDate := order.scheduledDate, scheduledTime := order.scheduledTime,
          location := order.location, estimatedQuantity := order.estimatedQuantity,
          wasteTypes := order.wasteTypes },
      worker := (populateWorker s order).map (fun w =>
        { name := orElse w.name "N/A", employeeId := w.workerInfo.employeeId }),
      liveTracking := (populateWorker s order).map (liveTracking M order) }

end Tracking

/-- The query and the caller of `getMyAssignedOrders`. -/
structure AssignedOrdersQuery where
  userId : ObjectId
  status : Option String
deriving DecidableEq, Repr

/-- An element of the `orders` list of `getMyAssignedOrders`. -/
structure AssignedOrder where
  id : ObjectId
  orderId : String
  status : String
  customerName : String
  wasteTypes : List String
  estimatedQuantity : Rat
  scheduledDate : Timestamp
  scheduledTime : String
  location : Location
  notes : String
  scanData : ScanData
deriving DecidableEq, Repr

/-- The filter on `status` of `getMyAssignedOrders` (lines 691-696): the
upper-cased query value, or by default
`$nin: ["COMPLETED", "CANCELLED", "FAILED"]`. -/
def assignedStatusFilter (status : Option String) (o : Order) : Bool :=
  if truthy status then o.status == toUpperCase (orElse status "")
  else ! ["COMPLETED", "CANCELLED", "FAILED"].contains o.status

/-- The order of `.sort({ scheduledDate: 1, scheduledTime: 1 })`. -/
def scheduleLe (a b : Order) : Prop :=
  a.scheduledDate < b.scheduledDate ∨
    (a.scheduledDate = b.scheduledDate ∧ a.scheduledTime ≤ b.scheduledTime)

instance : DecidableRel scheduleLe := fun a b => by
  unfold scheduleLe
  exact inferInstance

/-- The handler `getMyAssignedOrders`: the answer and its `orders` list. -/
def getMyAssignedOrders (s : Store) (q : AssignedOrdersQuery) : Response × List AssignedOrder :=
  let orders := (s.orders.filter (fun o =>
    o.assignedWorker == some q.userId && assignedStatusFilter q.status o)).insertionSort scheduleLe
  (ok 200 "", orders.map (fun o =>
    { id := o._id, orderId := o.orderId, status := o.status,
      customerName := orElse ((findUserById s o.user).bind (fun u => u.name)) "N/A",
      wasteTypes := o.wasteTypes, estimatedQuantity := o.estimatedQuantity,
      scheduledDate := o.scheduledDate, scheduledTime := o.scheduledTime,
      location := o.location, notes := o.notes, scanData := o.scanData }))

/-! ## Duty and live location (user.controller.js, lines 369-447 and 808-860)

The answers of these handlers carry no `success` field on their error
branches; the `Response` of the model reads the missing field as `false`. -/

/-- What `user.save()` validates among the modelled paths: the `enum` of
`workerInfo.status` (User.js, lines 63-67); the message of the error. -/
def userValidationError (u : User) : Option String :=
  if workerStatusEnum.contains u.workerInfo.status then none
  else some "User validation failed: workerInfo.status is not a valid enum value"

/-- The call `user.save()` of the three handlers below: validation, then the
write of the paths they modify (`workerInfo` and `liveLocation`). -/
def saveUser (s : Store) (u : User) : Except String Store :=
  match userValidationError u with
  | some msg => Except.error msg
  | none =>
    Except.ok (updateUserById s u._id (fun x =>
      { x with workerInfo := u.workerInfo, liveLocation := u.liveLocation }))

/-- The body of `POST /users/live-location` with the caller. -/
structure LiveLocationRequest where
  userId : ObjectId
  lat : Option Rat
  lng : Option Rat
  heading : Option Rat
  speed : Option Rat
  accuracy : Option Rat
  isSharing : Option Bool
deriving DecidableEq, Repr

/-- The expression `x || 0` on an optional number. -/
def orZero (x : Option Rat) : Rat := if truthyNum x then x.getD 0 else 0

/-- The handler `updateLiveLocation` (lines 369-411). -/
def updateLiveLocation (s : Store) (now : Timestamp) (req : LiveLocationRequest) :
    Response × Store :=
  match req.lat, req.lng with
  | some lat, some lng =>
    match findUserById s req.userId with
    | none => (fail 404 "User not found", s)
    | some user =>
      if ! ["WORKER", "DRIVER"].contains user.role then
        (fail 403 "Only workers and drivers can share live location", s)
      else
        let user1 := { user with liveLocation :=
          { coordinates := some { lat := lat, lng := lng }
            heading := some (orZero req.heading)
            speed := some (orZero req.speed)
            accuracy := some (orZero req.accuracy)
            lastUpdated := some now
            isSharing := req.isSharing.getD true } }
        match saveUser s user1 with
        | Except.error msg => (serverError msg, s)
        | Except.ok s1 => (ok 200 "Live location updated", s1)
  | _, _ => (fail 400 "Latitude and longitude are required", s)

/-- The body of `POST /users/duty-status` with the caller. -/
structure DutyRequest where
  userId : ObjectId
  isOnDuty : Bool
deriving DecidableEq, Repr

/-- The handler `toggleDutyStatus` (lines 413-447). -/
def toggleDutyStatus (s : Store) (req : DutyRequest) : Response × Store :=
  match findUserById s req.userId with
  | none => (fail 404 "User not found", s)
  | some user =>
    if ! ["WORKER", "DRIVER"].contains user.role then
      (fail 403 "Only workers and drivers can toggle duty status", s)
    else
      let user1 := { user with
        workerInfo := { user.workerInfo with isOnDuty := req.isOnDuty }
        liveLocation := { user.liveLocation with isSharing := req.isOnDuty } }
      let user2 := if ! req.isOnDuty then
          { user1 with liveLocation :=
              { user1.liveLocation with coordinates := some { lat := 0, lng := 0 } } }
        else user1
      match saveUser s user2 with
      | Except.error msg => (serverError msg, s)
      | Except.ok s1 =>
        (ok 200 (if req.isOnDuty then "You are now on duty" else "You are now off duty"), s1)

/-- The path parameter and body of `PUT /users/admin/worker/:userId/status`
(the route is guarded by `protect` and `adminOnly`). -/
structure WorkerStatusRequest where
  userId : ObjectId
  status : Option String
  assignedArea : Option String
deriving DecidableEq, Repr

/-- The list `validStatuses` of `updateWorkerStatus`. -/
def validWorkerStatuses : List String := ["ACTIVE", "INACTIVE", "SUSPENDED", "ON_LEAVE"]

/-- The handler `updateWorkerStatus` (lines 808-860). -/
def updateWorkerStatus (s : Store) (req : WorkerStatusRequest) : Response × Store :=
  match findUserById s req.userId with
  | none => (fail 404 "User not found", s)
  | some user =>
    if ! ["WORKER", "DRIVER"].contains user.role then
      (fail 400 "This user is not a worker or driver", s)
    else if truthy req.status && ! validWorkerStatuses.contains (toUpperCase (orElse req.status ""))
    then
      (fail 400 "Invalid status. Valid: ACTIVE, INACTIVE, SUSPENDED, ON_LEAVE", s)
    else
      let user1 := if truthy req.status then
          { user with workerInfo :=
              { user.workerInfo with status := toUpperCase (orElse req.status "") } }
        else user
      let user2 :=
        if truthy req.status &&
            ["SUSPENDED", "INACTIVE"].contains (toUpperCase (orElse req.status "")) then
          { user1 with
            workerInfo := { user1.workerInfo with isOnDuty := false }
            liveLocation := { user1.liveLocation with isSharing := false } }
        else user1
      let user3 := if truthy req.assignedArea then
          { user2 with workerInfo := { user2.workerInfo with assignedArea := req.assignedArea } }
        else user2
      match saveUser s user3 with
      | Except.error msg => (serverError msg, s)
      | Except.ok s1 => (ok 200 "Worker status updated successfully", s1)

/-- One call of the three handlers that write a worker's duty and sharing
flags. -/
inductive WorkerOp where
  | updateLiveLocation (now : Timestamp) (req : LiveLocationRequest)
  | toggleDutyStatus (req : DutyRequest)
  | updateWorkerStatus (req : WorkerStatusRequest)

/-- The store after one call. -/
def WorkerOp.run : WorkerOp → Store → Store
  | WorkerOp.updateLiveLocation now req, s => (EcoSystem.updateLiveLocation s now req).2
  | WorkerOp.toggleDutyStatus req, s => (EcoSystem.toggleDutyStatus s req).2
  | WorkerOp.updateWorkerStatus req, s => (EcoSystem.updateWorkerStatus s req).2

/-- The invariant on a worker record: off duty implies not sharing. -/
def dutyInvariant (u : User) : Prop :=
  u.workerInfo.isOnDuty = false → u.liveLocation.isSharing = false

instance : DecidablePred dutyInvariant := fun u => by
  unfold dutyInvariant
  exact inferInstance

/-- The completed-order counter of a user, 0 when there is no such user. -/
def completedOrdersOf (s : Store) (id : ObjectId) : Nat :=
  ((findUserById s id).map (fun u => u.workerInfo.completedOrders)).getD 0

/-- The points of a user (`stats.points`), 0 when there is no such user. -/
def pointsOf (s : Store) (id : ObjectId) : Nat :=
  ((findUserById s id).map (fun u => u.stats.points)).getD 0

/-- The store after a sequence of `updateOrderStatus` calls. -/
def runStatusCalls (s : Store) (calls : List (Timestamp × UpdateStatusRequest)) : Store :=
  calls.foldl (fun st c => (updateOrderStatus st c.1 c.2).2) s

/-! ## Example data for tracking, duty and rating -/

/-- A worker who is off duty and not sharing. -/
def exOffDuty : User :=
  { _id := "w4", role := "WORKER", name := some "Mohan",
    workerInfo := { employeeId := some "WRK004", isOnDuty := false, assignedOrders := [],
                    completedOrders := 0, status := "active" },
    liveLocation := exLive, subscription := none, stats := exStats }

/-- A worker on duty who shares the position (19.01, 72). -/
def exSharing : User :=
  { _id := "w5", role := "WORKER", name := some "Kiran",
    workerInfo := { employeeId := some "WRK005", isOnDuty := true, assignedOrders := ["o6"],
                    completedOrders := 0, status := "active" },
    liveLocation := { coordinates := some { lat := 1901 / 100, lng := 72 }, heading := some 0,
                      speed := some 0, accuracy := some 0, lastUpdated := some 50,
                      isSharing := true },
    subscription := none, stats := exStats }

/-- An order of `u1` assigned to the sharing worker. -/
def exTracked : Order :=
  { exOrder with _id := "o6", orderId := "ORD-250101-TRACKD", status := "assigned",
                 assignedWorker := some "w5" }

/-- A second customer. -/
def exOther : User := { exOwner with _id := "u2", name := some "Bela" }

def exTrackStore : Store :=
  { orders := [exTracked, exCompleted], users := [exOwner, exOther, exWorker1, exOffDuty, exSharing],
    scans := [exScan] }

/-- The facility at (19.0760, 72.8877). -/
def exNeighbour : Facility :=
  { _id := "f4", name := "Neighbourhood point", type := "recycling",
    location := { lat := 19076 / 1000, lng := 728877 / 10000 }, accepts := ["plastic"],
    isActive := true }

/-- A scan record that an order already used. -/
def exUsedScan : ScanHistory := { exScan with orderId := some "o1", convertedToOrder := true }

/-- The owner rates the completed example order with 4. -/
def exRate : RateRequest :=
  { userId := "u1", orderId := "o4", score := some 4, feedback := some "on time" }

/-- The owner rates the same order again, with 1. -/
def exRateAgain : RateRequest :=
  { userId := "u1", orderId := "o4", score := some 1, feedback := some "changed my mind" }

/-- The off-duty worker reports the position (19, 72), without `isSharing`. -/
def exReport : LiveLocationRequest :=
  { userId := "w4", lat := some 19, lng := some 72, heading := none, speed := none,
    accuracy := none, isSharing := none }

/-- The example request with an analysis made up by the client. -/
def exCreateForged : CreateOrderRequest :=
  { exCreate with
    scanData := some
      { scanId := some "s1"
        aiAnalysis := some { category := "metal", recyclable := true, estimatedWeight := 500,
                             quality := "excellent", confidence := 1 } } }

/-- Two requests of worker `w1` to complete the order at which he has arrived. -/
def exCompleteTwice : List (Timestamp × UpdateStatusRequest) :=
  [(40, { userId := "w1", orderId := "o3", status := some "completed", note := none,
          actualQuantity := some 10, actualValue := none, photos := none }),
   (41, { userId := "w1", orderId := "o3", status := some "completed", note := none,
          actualQuantity := some 10, actualValue := none, photos := none })]

/-! ## The ObjectId cast

The path parameter `orderId` and the body fields `scanId` and `workerId` are
strings chosen by the client.  When a handler builds a query on `_id` with
such a string (`findById`, or `_id` inside `$or`), Mongoose casts it to an
`ObjectId`; a string that is not 24 hexadecimal digits makes the query throw a
`CastError`, and the `catch` of the handler answers 500.  In particular the
filter `$or: [{ _id: orderId }, { orderId: orderId }]` throws for an order
code (`ORD-...`) before any stored order is compared with it.

The definitions of the handlers above describe the handler on identifiers
that pass the cast (the short identifiers of the first example store stand
for ObjectIds).  The definitions of this section put the cast in front of
them, at the statement where the source builds the query.  The caller's
`req.userId` is taken from the verified token and is an ObjectId. -/

/-- A hexadecimal digit. -/
def isHexDigit (c : Char) : Bool :=
  c.isDigit || ('a' ≤ c && c ≤ 'f') || ('A' ≤ c && c ≤ 'F')

/-- The strings that Mongoose casts to an `ObjectId`: 24 hexadecimal digits. -/
def isObjectId (s : String) : Bool := s.length == 24 && s.data.all isHexDigit

/-- The answer of the `catch` branch to a `CastError` (the message without its
quotation marks). -/
def castError (value path model : String) : Response :=
  serverError ("Cast to ObjectId failed for value " ++ value ++ " (type string) at path " ++
    path ++ " for model " ++ model)

/-- The handler `cancelOrder` with the cast of its filter (lines 291-295). -/
def Cast.cancelOrder (s : Store) (now : Timestamp) (req : CancelRequest) : Response × Store :=
  if ! isObjectId req.orderId then (castError req.orderId "_id" "Order", s)
  else EcoSystem.cancelOrder s now req

/-- The handler `rateOrder` with the cast of its filter (lines 345-349), which
comes after the test of the score (lines 338-343). -/
def Cast.rateOrder (s : Store) (now : Timestamp) (req : RateRequest) : Response × Store :=
  if ! truthyNum req.score || decide (req.score.getD 0 < 1) || decide (req.score.getD 0 > 5) then
    (fail 400 "Please provide a rating between 1 and 5", s)
  else if ! isObjectId req.orderId then (castError req.orderId "_id" "Order", s)
  else EcoSystem.rateOrder s now req

/-- The handler `selfAssignOrder` with the cast of its filter (lines 943-947),
which comes after the checks on the caller (lines 921-941). -/
def Cast.selfAssignOrder (s : Store) (now : Timestamp) (req : SelfAssignRequest) :
    Response × Store :=
  match findUserById s req.userId with
  | none => (serverError "Cannot read properties of null (reading role)", s)
  | some user =>
    match selfAssignChecks user with
    | some r => (r, s)
    | none =>
      if ! isObjectId req.orderId then (castError req.orderId "_id" "Order", s)
      else EcoSystem.selfAssignOrder s now req

/-- The handler `assignOrder` with the casts of its two queries: `orderId` in
`Order.findOne` (lines 508-510) and `workerId` in `User.findById` (line 519). -/
def Cast.assignOrder (s : Store) (now : Timestamp) (req : AssignRequest) : Response × Store :=
  if ! truthy req.workerId then (fail 400 "Worker ID is required", s)
  else if ! isObjectId req.orderId then (castError req.orderId "_id" "Order", s)
  else
    match s.orders.find? (fun o => matchesKey req.orderId o) with
    | none => (fail 404 "Order not found", s)
    | some _ =>
      if ! isObjectId (orElse req.workerId "") then
        (castError (orElse req.workerId "") "_id" "User", s)
      else EcoSystem.assignOrder s now req

/-- The handler `createOrder` with the cast of `scanData.scanId` in
`ScanHistory.findById` (line 95), which comes after the lookup of the caller,
the subscription gate and the test that a `scanId` is supplied. -/
def Cast.createOrder (s : Store) (env : Env) (req : CreateOrderRequest) : Response × Store :=
  match findUserById s req.userId with
  | none => (fail 404 "User not found", s)
  | some user =>
    match subscriptionGate user (monthlyOrders s req.userId env.monthStart) with
    | some r => (r, s)
    | none =>
      if truthy (req.scanData.bind (fun x => x.scanId)) &&
          ! isObjectId (orElse (req.scanData.bind (fun x => x.scanId)) "") then
        (castError (orElse (req.scanData.bind (fun x => x.scanId)) "") "_id" "ScanHistory", s)
      else EcoSystem.createOrder s env req

/-! ## Example data with identifiers of the stored form -/

/-- A customer on the PREMIUM plan. -/
def hexOwner : User := { exOwner with _id := "65f0000000000000000000a1" }

/-- A worker on duty whose stored status is the string the controller tests. -/
def hexWorker : User := { exWorker3 with _id := "65f0000000000000000000b1" }

/-- A worker on duty whose status is `inactive`. -/
def hexInactive : User :=
  { exWorker1 with
    _id := "65f0000000000000000000b2"
    workerInfo := { exWorker1.workerInfo with status := "inactive" } }

/-- A worker off duty whose stored status is the string the controller tests. -/
def hexOffDuty : User :=
  { exWorker3 with
    _id := "65f0000000000000000000b3"
    workerInfo := { exWorker3.workerInfo with isOnDuty := false } }

/-- A pending order of the customer, with its order code. -/
def hexPending : Order :=
  { exOrder with _id := "65f0000000000000000000c1", user := "65f0000000000000000000a1" }

/-- An order of the customer at which the worker has arrived. -/
def hexArrived : Order :=
  { exArrived with _id := "65f0000000000000000000c3", user := "65f0000000000000000000a1",
                   assignedWorker := some "65f0000000000000000000b1" }

/-- A completed order of the customer. -/
def hexCompleted : Order :=
  { exCompleted with _id := "65f0000000000000000000c4", user := "65f0000000000000000000a1",
                     assignedWorker := some "65f0000000000000000000b1" }

/-- A fresh scan of the customer. -/
def hexScan : ScanHistory :=
  { exScan with _id := "65f0000000000000000000d1", user := some "65f0000000000000000000a1" }

def hexStore : Store :=
  { orders := [hexPending, hexArrived, hexCompleted],
    users := [hexOwner, hexWorker, hexInactive, hexOffDuty],
    scans := [hexScan] }

/-- The customer cancels the pending order, named by its order code. -/
def hexCancelByCode : CancelRequest :=
  { userId := "65f0000000000000000000a1", orderId := "ORD-250101-ABC123", reason := none }

/-- The customer cancels the pending order, named by its `_id`. -/
def hexCancelById : CancelRequest :=
  { userId := "65f0000000000000000000a1", orderId := "65f0000000000000000000c1", reason := none }

/-- The customer rates the completed order, named by its order code. -/
def hexRateByCode : RateRequest :=
  { userId := "65f0000000000000000000a1", orderId := "ORD-250101-COMPLT", score := some 4,
    feedback := some "on time" }

/-- The customer rates the completed order, named by its `_id`. -/
def hexRateById : RateRequest :=
  { userId := "65f0000000000000000000a1", orderId := "65f0000000000000000000c4", score := some 4,
    feedback := some "on time" }

/-- The customer's request with a `scanId` that is not an ObjectId. -/
def hexCreateMalformed : CreateOrderRequest :=
  { exCreate with userId := "65f0000000000000000000a1"
                  scanData := some { scanId := some "nope", aiAnalysis := none } }

/-- The customer's request with the `scanId` of the stored scan. -/
def hexCreate : CreateOrderRequest :=
  { exCreate with userId := "65f0000000000000000000a1"
                  scanData := some { scanId := some "65f0000000000000000000d1",
                                     aiAnalysis := none } }

/-- The administrator's request to give the pending order to the off-duty
worker. -/
def hexAssignOffDuty : AssignRequest :=
  { userId := "65f0000000000000000000e1", orderId := "65f0000000000000000000c1",
    workerId := some "65f0000000000000000000b3" }

/-- The administrator's request to give the pending order to the inactive
worker. -/
def hexAssignInactive : AssignRequest :=
  { userId := "65f0000000000000000000e1", orderId := "65f0000000000000000000c1",
    workerId := some "65f0000000000000000000b2" }

/-- The worker who passes the checks asks for the order named by `key`. -/
def hexSelfAssign (key : String) : SelfAssignRequest :=
  { userId := "65f0000000000000000000b1", orderId := key }

/-! ## Theorems -/

/-- A filter `p && q` whose `p` part singles out one stored document finds that
document exactly when it also passes `q`. -/
theorem find?_of_unique {α : Type} (l : List α) (p q : α → Bool) (o : α)
    (hmem : o ∈ l) (hp : p o = true) (huniq : ∀ x ∈ l, p x = true → x = o) :
    l.find? (fun x => p x && q x) = if q o = true then some o else none := by
  induction l with
  | nil => simp at hmem
  | cons a t ih =>
    by_cases hpa : p a = true
    · have hao : a = o := huniq a (List.mem_cons_self a t) hpa
      subst hao
      by_cases hq : q a = true
      · simp [List.find?, hpa, hq]
      · have hq2 : q a = false := by simpa using hq
        simp only [List.find?, hpa, hq2, Bool.and_false]
        have : t.find? (fun x => p x && q x) = none := by
          rw [List.find?_eq_none]
          intro x hx
          have hxa : p x = true → x = a := huniq x (List.mem_cons_of_mem a hx)
          by_cases hpx : p x = true
          · rw [hxa hpx]; simp [hq2]
          · simp [hpx]
        simp [this]
    · have hpa2 : p a = false := by simpa using hpa
      have hne : o ≠ a := by
        intro h; rw [h] at hp; exact hpa hp
      have hmem2 : o ∈ t := by
        rcases List.mem_cons.mp hmem with h | h
        · exact absurd h hne
        · exact h
      simp only [List.find?, hpa2, Bool.false_and]
      exact ih hmem2 (fun x hx => huniq x (List.mem_cons_of_mem a hx))

/-- On a hydrated order the push on `statusHistory` throws. -/
theorem pushStatusHistory_hydrated (o : Order) (f : Order → Order) (e : StatusEntry) :
    pushStatusHistory { hydrate o with fields := f o } e =
      Except.error "Cannot read properties of undefined (reading push)" := rfl

theorem selfAssignMutate_throws (now : Timestamp) (user : User) (userId : ObjectId) (o : Order) :
    selfAssignMutate now user userId o =
      Except.error "Cannot read properties of undefined (reading push)" := rfl

theorem updateStatusMutate_throws (now : Timestamp) (req : UpdateStatusRequest) (st : String)
    (o : Order) :
    updateStatusMutate now req st o =
      Except.error "Cannot read properties of undefined (reading push)" := rfl

/-- The checks of `selfAssignOrder` never answer 200. -/
theorem selfAssignChecks_status (user : User) (r : Response)
    (h : selfAssignChecks user = some r) : r.status = 403 := by
  unfold selfAssignChecks at h
  split_ifs at h <;> simp [fail] at h <;> simp [← h]

/-- The handler `selfAssignOrder` writes nothing and never answers 200. -/
theorem selfAssignOrder_inert (s : Store) (now : Timestamp) (req : SelfAssignRequest) :
    (selfAssignOrder s now req).2 = s ∧ (selfAssignOrder s now req).1.status ≠ 200 := by
  unfold selfAssignOrder
  cases hu : findUserById s req.userId with
  | none => simp [serverError]
  | some user =>
    dsimp only
    cases hc : selfAssignChecks user with
    | some r => simp [selfAssignChecks_status user r hc]
    | none =>
      dsimp only
      cases ho : findPendingUnassigned s req.orderId with
      | none => simp [fail]
      | some o => simp [selfAssignMutate_throws, serverError]

/-- The handler `assignOrder` writes nothing and never answers 200. -/
theorem assignOrder_inert (s : Store) (now : Timestamp) (req : AssignRequest) :
    (assignOrder s now req).2 = s ∧ (assignOrder s now req).1.status ≠ 200 := by
  unfold assignOrder
  split_ifs with h1
  · simp [fail]
  · cases ho : s.orders.find? (fun o => matchesKey req.orderId o) with
    | none => simp [fail]
    | some o =>
      dsimp only
      cases hw : findUserById s (orElse req.workerId "") with
      | none => simp [fail]
      | some worker =>
        dsimp only
        split_ifs <;> simp [fail, serverError, pushStatusHistory, hydrate]

/-- The route of `assignOrder` writes nothing and never answers 200. -/
theorem assignOrderRoute_inert (s : Store) (now : Timestamp) (req : AssignRequest) :
    (assignOrderRoute s now req).2 = s ∧ (assignOrderRoute s now req).1.status ≠ 200 := by
  unfold assignOrderRoute
  cases ha : adminOnly s req.userId with
  | none => exact assignOrder_inert s now req
  | some r =>
    refine ⟨rfl, ?_⟩
    unfold adminOnly at ha
    cases hu : findUserById s req.userId with
    | none => simp [hu, fail] at ha; simp [← ha]
    | some u =>
      simp only [hu] at ha
      split_ifs at ha
      · simp [fail] at ha; simp [← ha]

/-- The handler `updateOrderStatus` writes nothing and never answers 200. -/
theorem updateOrderStatus_inert (s : Store) (now : Timestamp) (req : UpdateStatusRequest) :
    (updateOrderStatus s now req).2 = s ∧ (updateOrderStatus s now req).1.status ≠ 200 := by
  unfold updateOrderStatus
  simp only [updateStatusMutate_throws]
  cases hst : req.status.map toLowerCase with
  | none => simp [fail]
  | some st =>
    dsimp only
    split_ifs with hv
    · simp [fail]
    · cases ho : s.orders.find? (fun o => matchesKey req.orderId o) with
      | none => simp [fail]
      | some o =>
        dsimp only
        cases hu : findUserById s req.userId with
        | none => simp [serverError]
        | some user =>
          dsimp only
          split_ifs <;> simp [fail, serverError]

/-- A single call run alone through its four steps is the handler
`selfAssignOrder`. -/
theorem selfAssign_alone (s : Store) (now : Timestamp) (req : SelfAssignRequest) :
    (System.init s [req]).run [(0, now), (0, now), (0, now), (0, now)] =
      { store := (selfAssignOrder s now req).2
        calls := [{ req := req, pc := SelfAssignPc.done (selfAssignOrder s now req).1 }] } := by
  simp only [System.run, System.init, List.foldl, List.map, System.step, List.get?, List.set]
  unfold selfAssignOrder
  cases hu : findUserById s req.userId with
  | none => simp [selfAssignStep, hu]
  | some user =>
    cases hc : selfAssignChecks user with
    | some r => simp [selfAssignStep, hu, hc]
    | none =>
      cases ho : findPendingUnassigned s req.orderId with
      | none => simp [selfAssignStep, hu, hc, ho]
      | some o =>
        cases hm : selfAssignMutate now user req.userId o with
        | error msg => simp [selfAssignStep, hu, hc, ho, hm]
        | ok order => simp [selfAssignStep, hu, hc, ho, hm]

theorem selfAssignStep_safe (s : Store) (now : Timestamp) (req : SelfAssignRequest)
    (pc : SelfAssignPc) (h : pc.safe) :
    (selfAssignStep s now req pc).2 = s ∧ (selfAssignStep s now req pc).1.safe := by
  cases pc with
  | start =>
    unfold selfAssignStep
    cases hu : findUserById s req.userId with
    | none => simp [serverError, SelfAssignPc.safe]
    | some user =>
      dsimp only
      cases hc : selfAssignChecks user with
      | some r => simp [SelfAssignPc.safe, selfAssignChecks_status user r hc]
      | none => simp [SelfAssignPc.safe]
  | checked user =>
    unfold selfAssignStep
    cases ho : findPendingUnassigned s req.orderId with
    | none => simp [fail, SelfAssignPc.safe]
    | some o => simp [selfAssignMutate_throws, serverError, SelfAssignPc.safe]
  | mutated u d => exact absurd h (by simp [SelfAssignPc.safe])
  | saved d => exact absurd h (by simp [SelfAssignPc.safe])
  | done r => exact ⟨rfl, h⟩

theorem System.step_safe (sys : System) (now : Timestamp) (i : Nat)
    (h : ∀ c ∈ sys.calls, c.pc.safe) :
    (sys.step now i).store = sys.store ∧ ∀ c ∈ (sys.step now i).calls, c.pc.safe := by
  unfold System.step
  cases hc : sys.calls.get? i with
  | none => exact ⟨rfl, h⟩
  | some c =>
    have hmem : c ∈ sys.calls := List.get?_mem hc
    have hs := selfAssignStep_safe sys.store now c.req c.pc (h c hmem)
    refine ⟨hs.1, ?_⟩
    intro c2 hc2
    rcases List.mem_or_eq_of_mem_set hc2 with h2 | h2
    · exact h c2 h2
    · rw [h2]; exact hs.2

theorem System.run_safe (schedule : List (Nat × Timestamp)) (sys : System)
    (h : ∀ c ∈ sys.calls, c.pc.safe) :
    (sys.run schedule).store = sys.store ∧ ∀ c ∈ (sys.run schedule).calls, c.pc.safe := by
  induction schedule generalizing sys with
  | nil => exact ⟨rfl, h⟩
  | cons x xs ih =>
    have h1 := System.step_safe sys x.2 x.1 h
    have h2 := ih (sys.step x.2 x.1) h1.2
    exact ⟨by simpa [System.run, h1.1] using h2.1, by simpa [System.run] using h2.2⟩

/-- Under any schedule of any number of concurrent `selfAssignOrder` calls the
store is never written and no call answers 200. -/
theorem selfAssign_no_winner (s : Store) (reqs : List SelfAssignRequest)
    (schedule : List (Nat × Timestamp)) :
    ((System.init s reqs).run schedule).store = s ∧
      ((System.init s reqs).run schedule).successes = 0 := by
  have hinit : ∀ c ∈ (System.init s reqs).calls, c.pc.safe := by
    intro c hc
    simp only [System.init, List.mem_map] at hc
    obtain ⟨r, _, rfl⟩ := hc
    trivial
  have h := System.run_safe schedule (System.init s reqs) hinit
  refine ⟨h.1, ?_⟩
  unfold System.successes System.answers
  rw [List.length_eq_zero, List.filter_eq_nil_iff]
  intro a ha
  simp only [List.mem_map] at ha
  obtain ⟨c, hc, rfl⟩ := ha
  have hsafe := h.2 c hc
  cases hpc : c.pc with
  | done r =>
    rw [hpc] at hsafe
    simpa [SelfAssignPc.safe] using hsafe
  | _ => simp

/-- The save step of `selfAssignOrder` (line 966) carries no condition on the
stored order.  In a store where the example order has meanwhile been assigned
to `w1`, a call of `w2` standing before its save (which takes a document whose
`statusHistory` is an array, so that the push went through) overwrites the
assignment and goes on to answer 200. -/
theorem selfAssign_save_unconditional :
    (updateOrderById exStore "o1" (fun o =>
        { o with status := "assigned", assignedWorker := some "w1" })).orders.map
      (fun o => (o._id, o.status, o.assignedWorker)) =
      [("o1", "assigned", some "w1"), ("o2", "cancelled", none),
       ("o3", "arrived", some "w1"), ("o4", "completed", some "w1")] ∧
    ((System.mk
        (updateOrderById exStore "o1" (fun o =>
          { o with status := "assigned", assignedWorker := some "w1" }))
        [{ req := { userId := "w2", orderId := "o1" },
           pc := SelfAssignPc.mutated exWorker2
            { fields := { exOrder with status := "assigned", assignedWorker := some "w2" },
              statusHistory := some [], pickedUpAt := none, completionPhotos := none } }]).run
        [(0, 100), (0, 101)]).store.orders.map (fun o => (o._id, o.status, o.assignedWorker)) =
      [("o1", "assigned", some "w2"), ("o2", "cancelled", none),
       ("o3", "arrived", some "w1"), ("o4", "completed", some "w1")] ∧
    ((System.mk
        (updateOrderById exStore "o1" (fun o =>
          { o with status := "assigned", assignedWorker := some "w1" }))
        [{ req := { userId := "w2", orderId := "o1" },
           pc := SelfAssignPc.mutated exWorker2
            { fields := { exOrder with status := "assigned", assignedWorker := some "w2" },
              statusHistory := some [], pickedUpAt := none, completionPhotos := none } }]).run
        [(0, 100), (0, 101)]).answers = [some (ok 200 "Order assigned to you successfully")] :=
  ⟨by rfl, by rfl, by rfl⟩

/-- C1 (the code diverges). Two distinct on-duty workers whose status is the
schema value `active` call `selfAssignOrder` concurrently on the pending,
unassigned example order: under every schedule the store is never written and
no call answers 200; when both calls run to completion both are answered 403
and the order is still pending and unassigned.  A single call (N = 1) fares
the same, and a worker stored with status `ACTIVE` is answered 500. -/
theorem selfAssign_concurrent_no_success :
    findPendingUnassigned exStore "o1" = some exOrder ∧
    (∀ schedule : List (Nat × Timestamp),
      ((System.init exStore [{ userId := "w1", orderId := "o1" },
          { userId := "w2", orderId := "o1" }]).run schedule).store = exStore ∧
      ((System.init exStore [{ userId := "w1", orderId := "o1" },
          { userId := "w2", orderId := "o1" }]).run schedule).successes = 0) ∧
    ((System.init exStore [{ userId := "w1", orderId := "o1" },
        { userId := "w2", orderId := "o1" }]).run
          [(0, 100), (1, 101), (0, 102), (1, 103)]).answers =
      [some (fail 403 "Your account is not active"),
       some (fail 403 "Your account is not active")] ∧
    ((System.init exStore [{ userId := "w1", orderId := "o1" }]).run
          [(0, 100), (0, 101), (0, 102), (0, 103)]).answers =
      [some (fail 403 "Your account is not active")] ∧
    ((System.init exStore [{ userId := "w3", orderId := "o1" }]).run
          [(0, 100), (0, 101), (0, 102), (0, 103)]).answers =
      [some (serverError "Cannot read properties of undefined (reading push)")] :=
  ⟨by rfl, fun schedule => selfAssign_no_winner exStore _ schedule, by rfl, by rfl, by rfl⟩

/-- C2 (the code diverges). The caller is a WORKER, on duty, with the schema
status `active`, and the example order is pending and unassigned, yet
`selfAssignOrder` answers 403 and leaves the order as it was; with the stored
status `ACTIVE` the call passes the checks and is answered 500 by the failing
push on `statusHistory`, again without a write. -/
theorem selfAssignOrder_active_worker_rejected :
    findUserById exStore "w1" = some exWorker1 ∧
    exWorker1.role = "WORKER" ∧ exWorker1.workerInfo.status = "active" ∧
    exWorker1.workerInfo.status ∈ workerStatusEnum ∧ exWorker1.workerInfo.isOnDuty = true ∧
    findPendingUnassigned exStore "o1" = some exOrder ∧
    selfAssignOrder exStore 100 { userId := "w1", orderId := "o1" } =
      (fail 403 "Your account is not active", exStore) ∧
    selfAssignOrder exStore 100 { userId := "w3", orderId := "o1" } =
      (serverError "Cannot read properties of undefined (reading push)", exStore) :=
  ⟨by rfl, by rfl, by rfl, by decide, by rfl, by rfl, by rfl, by rfl⟩

/-- C3 (as stated, refuted). The administrator asks to move the cancelled
example order to `completed`, which the transition table of the specification
forbids: the answer is the 500 of the failing `statusHistory` push, not a 400
illegal-transition error, and it is the very answer the assigned worker gets
for the legal move of an `arrived` order to `completed`. -/
theorem updateOrderStatus_no_transition_error :
    exCancelled ∈ exStore.orders ∧ exCancelled.status = "cancelled" ∧
    "completed" ∉ specTransitionTable "cancelled" ∧
    updateOrderStatus exStore 100
        { userId := "a1", orderId := "o2", status := some "completed", note := none,
          actualQuantity := none, actualValue := none, photos := none } =
      (serverError "Cannot read properties of undefined (reading push)", exStore) ∧
    exArrived.status = "arrived" ∧ "completed" ∈ specTransitionTable "arrived" ∧
    updateOrderStatus exStore 100
        { userId := "w1", orderId := "o3", status := some "completed", note := none,
          actualQuantity := none, actualValue := none, photos := none } =
      (serverError "Cannot read properties of undefined (reading push)", exStore) :=
  ⟨by decide, by rfl, by decide, by rfl, by rfl, by decide, by rfl⟩

/-- C3 (amended). `updateOrderStatus` has no transition table.  It answers 400
exactly when the requested status, lower-cased, is not one of `confirmed`,
`assigned`, `in_transit`, `arrived`, `completed`, `cancelled`; its answer is
the same whatever the current statuses of the stored orders are; and a request
it rejects (400, 403 or 404) leaves the store unchanged. -/
theorem updateOrderStatus_checks (s : Store) (now : Timestamp) (req : UpdateStatusRequest) :
    ((updateOrderStatus s now req).1.status = 400 ↔
        ¬ ∃ st, req.status = some st ∧ toLowerCase st ∈ validStatuses) ∧
    (∀ g : Order → String,
        (updateOrderStatus { s with orders := s.orders.map (fun o => { o with status := g o }) }
          now req).1 = (updateOrderStatus s now req).1) ∧
    ((updateOrderStatus s now req).1.status = 400 ∨ (updateOrderStatus s now req).1.status = 403 ∨
        (updateOrderStatus s now req).1.status = 404 → (updateOrderStatus s now req).2 = s) := by
  refine ⟨?_, ?_, fun _ => (updateOrderStatus_inert s now req).1⟩
  · unfold updateOrderStatus
    simp only [updateStatusMutate_throws]
    cases hst : req.status with
    | none => simp [fail]
    | some st0 =>
      simp only [Option.map_some']
      by_cases hv : validStatuses.contains (toLowerCase st0) = true
      · have hv2 : toLowerCase st0 ∈ validStatuses := by simpa using hv
        simp only [hv, Bool.not_true, Bool.false_eq_true, if_false]
        cases ho : s.orders.find? (fun o => matchesKey req.orderId o) with
        | none => simp [fail, hv2]
        | some o =>
          cases hu : findUserById s req.userId with
          | none => simp [serverError, hv2]
          | some user =>
            dsimp only
            split_ifs <;> simp [fail, serverError, hv2]
      · have hv2 : toLowerCase st0 ∉ validStatuses := by simpa using hv
        simp [hv, fail, hv2]
  · intro g
    unfold updateOrderStatus
    simp only [updateStatusMutate_throws, List.find?_map, findUserById]
    cases hst : req.status.map toLowerCase with
    | none => rfl
    | some st =>
      dsimp only
      split_ifs with hv
      · rfl
      · have hcomp : ((fun o => matchesKey req.orderId o) ∘ fun o => { o with status := g o })
            = fun o => matchesKey req.orderId o := by
          funext o; simp [matchesKey]
        rw [hcomp]
        cases ho : s.orders.find? (fun o => matchesKey req.orderId o) with
        | none => rfl
        | some o =>
          simp only [Option.map_some']
          cases hu : s.users.find? (fun u => u._id == req.userId) with
          | none => rfl
          | some user =>
            dsimp only
            split_ifs <;> rfl

/-- What `cancelOrder` does: either it answers an error and writes nothing, or
it found a pending or confirmed order of the caller and cancels it. -/
theorem cancelOrder_cases (s : Store) (now : Timestamp) (req : CancelRequest) :
    ((cancelOrder s now req).1.status ≠ 200 ∧ (cancelOrder s now req).2 = s) ∨
    ∃ d, d ∈ s.orders ∧ matchesKey req.orderId d = true ∧ d.user = req.userId ∧
      (d.status = "pending" ∨ d.status = "confirmed") ∧
      cancelOrder s now req =
        (ok 200 "Order cancelled successfully",
          updateOrderById s d._id (fun o =>
            { o with status := "cancelled"
                     cancellationReason := some (orElse req.reason "Cancelled by user")
                     cancelledAt := some now
                     updatedAt := now })) := by
  unfold cancelOrder
  cases hf : s.orders.find? (fun o => matchesKey req.orderId o && o.user == req.userId) with
  | none => left; simp [fail]
  | some d =>
    dsimp only
    have hp := List.find?_some hf
    have hm := List.mem_of_find?_eq_some hf
    simp only [Bool.and_eq_true, beq_iff_eq] at hp
    by_cases hc : ["pending", "confirmed"].contains d.status = true
    · right
      refine ⟨d, hm, hp.1, hp.2, ?_, ?_⟩
      · simpa using hc
      · simp only [hc, Bool.not_true, Bool.false_eq_true, if_false]
    · left
      have hc2 : ["pending", "confirmed"].contains d.status = false := by simpa using hc
      simp only [hc2, Bool.not_false, if_true]
      simp [fail]

/-- Orders of a store with distinct `_id` are determined by their `_id`. -/
theorem eq_of_id_eq (s : Store) (hid : (s.orders.map (fun o => o._id)).Nodup)
    (x y : Order) (hx : x ∈ s.orders) (hy : y ∈ s.orders) (h : x._id = y._id) : x = y :=
  List.inj_on_of_nodup_map hid hx hy h

/-- A modification that keeps `_id` keeps the list of `_id`. -/
theorem updateOrderById_ids (s : Store) (id : ObjectId) (f : Order → Order)
    (hf : ∀ o, (f o)._id = o._id) :
    (updateOrderById s id f).orders.map (fun o => o._id) = s.orders.map (fun o => o._id) := by
  simp only [updateOrderById, List.map_map]
  apply List.map_congr_left
  intro a _
  simp only [Function.comp]
  split_ifs
  · exact hf a
  · rfl

/-- What `rateOrder` does: either it writes nothing, or it found a completed
order of the caller and sets its rating. -/
theorem rateOrder_cases (s : Store) (now : Timestamp) (req : RateRequest) :
    (rateOrder s now req).2 = s ∨
    ∃ d, d ∈ s.orders ∧ d.status = "completed" ∧
      (rateOrder s now req).2 =
        updateOrderById s d._id (fun o =>
          { o with rating := { score := req.score, feedback := some (orElse req.feedback ""),
                               ratedAt := some now }
                   updatedAt := now }) := by
  unfold rateOrder
  split_ifs
  · left; rfl
  · cases hf : s.orders.find? (fun o => matchesKey req.orderId o && o.user == req.userId) with
    | none => left; rfl
    | some d =>
      dsimp only
      by_cases hc : d.status = "completed"
      · right
        exact ⟨d, List.mem_of_find?_eq_some hf, hc, by simp [hc]⟩
      · left
        simp [hc]

/-- A later step keeps the `_id` of the stored orders and, in a store with
distinct `_id`, the status of an order that is completed or cancelled. -/
theorem LaterOp.run_terminal (s : Store) (hid : (s.orders.map (fun o => o._id)).Nodup)
    (o : Order) (hmem : o ∈ s.orders)
    (hterm : o.status = "completed" ∨ o.status = "cancelled") (op : LaterOp) :
    ((op.run s).orders.map (fun x => x._id) = s.orders.map (fun x => x._id)) ∧
      ∀ x ∈ (op.run s).orders, x._id = o._id → x.status = o.status := by
  have keep : ∀ x ∈ s.orders, x._id = o._id → x.status = o.status := by
    intro x hx h
    rw [eq_of_id_eq s hid x o hx hmem h]
  have hnot : ¬ (o.status = "pending" ∨ o.status = "confirmed") := by
    rcases hterm with h | h <;> simp [h]
  cases op with
  | cancelOrder t req =>
    simp only [LaterOp.run]
    rcases cancelOrder_cases s t req with h | ⟨d, hd, _, _, hds, heq⟩
    · rw [h.2]; exact ⟨rfl, keep⟩
    · rw [heq]
      have hne : o._id ≠ d._id := by
        intro h
        have := eq_of_id_eq s hid o d hmem hd h
        rw [this] at hnot
        exact hnot hds
      refine ⟨?_, ?_⟩
      · dsimp only
        rw [updateOrderById_ids]
        intro a; rfl
      · intro x hx hxo
        simp only [updateOrderById, List.mem_map] at hx
        obtain ⟨a, ha, rfl⟩ := hx
        by_cases had : a._id = d._id
        · simp only [had, if_true] at hxo
          exact absurd hxo.symm hne
        · simp only [had, if_false] at hxo ⊢
          exact keep a ha hxo
  | rateOrder t req =>
    simp only [LaterOp.run]
    rcases rateOrder_cases s t req with h | ⟨d, _, _, heq⟩
    · rw [h]; exact ⟨rfl, keep⟩
    · rw [heq]
      refine ⟨?_, ?_⟩
      · rw [updateOrderById_ids]
        intro a; rfl
      · intro x hx hxo
        simp only [updateOrderById, List.mem_map] at hx
        obtain ⟨a, ha, rfl⟩ := hx
        by_cases had : a._id = d._id
        · simp only [had, if_true] at hxo ⊢
          exact keep a ha (had.trans hxo)
        · simp only [had, if_false] at hxo ⊢
          exact keep a ha hxo
  | assignOrder t req =>
    simp only [LaterOp.run]
    rw [(assignOrder_inert s t req).1]
    exact ⟨rfl, keep⟩
  | selfAssignOrder t req =>
    simp only [LaterOp.run]
    rw [(selfAssignOrder_inert s t req).1]
    exact ⟨rfl, keep⟩
  | updateOrderStatus t req =>
    simp only [LaterOp.run]
    rw [(updateOrderStatus_inert s t req).1]
    exact ⟨rfl, keep⟩
  | scans change => exact ⟨rfl, keep⟩

/-- C4. In a store whose orders have distinct `_id`, an order whose status is
`completed` or `cancelled` keeps that status under `updateOrderStatus`,
`assignOrder` (with or without its route guard), `selfAssignOrder` and
`cancelOrder`, whatever the request, and no order is added or removed; in
particular `updateOrderStatus` never answers 200 (so a completion request on
a cancelled order, and a cancellation request on a completed one, fail), and a
`cancelOrder` request that addresses a completed or cancelled order does not
answer 200. -/
theorem terminal_status_kept (s : Store) (now : Timestamp)
    (hid : (s.orders.map (fun o => o._id)).Nodup)
    (o : Order) (hmem : o ∈ s.orders)
    (hterm : o.status = "completed" ∨ o.status = "cancelled") :
    (∀ req, ((updateOrderStatus s now req).2.orders.map (fun x => x._id)
          = s.orders.map (fun x => x._id)) ∧
        ∀ x ∈ (updateOrderStatus s now req).2.orders, x._id = o._id → x.status = o.status) ∧
    (∀ req, ((assignOrder s now req).2.orders.map (fun x => x._id)
          = s.orders.map (fun x => x._id)) ∧
        ∀ x ∈ (assignOrder s now req).2.orders, x._id = o._id → x.status = o.status) ∧
    (∀ req, ((assignOrderRoute s now req).2.orders.map (fun x => x._id)
          = s.orders.map (fun x => x._id)) ∧
        ∀ x ∈ (assignOrderRoute s now req).2.orders, x._id = o._id → x.status = o.status) ∧
    (∀ req, ((selfAssignOrder s now req).2.orders.map (fun x => x._id)
          = s.orders.map (fun x => x._id)) ∧
        ∀ x ∈ (selfAssignOrder s now req).2.orders, x._id = o._id → x.status = o.status) ∧
    (∀ req, ((cancelOrder s now req).2.orders.map (fun x => x._id)
          = s.orders.map (fun x => x._id)) ∧
        ∀ x ∈ (cancelOrder s now req).2.orders, x._id = o._id → x.status = o.status) ∧
    (∀ req, (updateOrderStatus s now req).1.status ≠ 200) ∧
    (∀ req, matchesKey req.orderId o = true →
        (∀ x ∈ s.orders, matchesKey req.orderId x = true → x = o) →
        (cancelOrder s now req).1.status ≠ 200) := by
  have keep : ∀ x ∈ s.orders, x._id = o._id → x.status = o.status := by
    intro x hx h
    rw [eq_of_id_eq s hid x o hx hmem h]
  have hnot : ¬ (o.status = "pending" ∨ o.status = "confirmed") := by
    rcases hterm with h | h <;> simp [h]
  refine ⟨fun req => LaterOp.run_terminal s hid o hmem hterm (LaterOp.updateOrderStatus now req),
    fun req => LaterOp.run_terminal s hid o hmem hterm (LaterOp.assignOrder now req), ?_,
    fun req => LaterOp.run_terminal s hid o hmem hterm (LaterOp.selfAssignOrder now req),
    fun req => LaterOp.run_terminal s hid o hmem hterm (LaterOp.cancelOrder now req),
    fun req => (updateOrderStatus_inert s now req).2, ?_⟩
  · intro req
    rw [(assignOrderRoute_inert s now req).1]
    exact ⟨rfl, keep⟩
  · intro req hkey huniq
    rcases cancelOrder_cases s now req with h | ⟨d, hd, hdk, _, hds, _⟩
    · exact h.1
    · have := huniq d hd hdk
      rw [this] at hds
      exact absurd hds hnot

/-- The subscription gate only ever answers 403. -/
theorem subscriptionGate_status (user : User) (count : Nat) (r : Response)
    (h : subscriptionGate user count = some r) : r.status = 403 := by
  unfold subscriptionGate at h
  split_ifs at h <;> simp at h <;> simp [← h]

/-- The scan validation only ever answers 400 with the flag `scanRequired`. -/
theorem scanBinding_status (s : Store) (now : Timestamp) (input : Option ScanDataInput)
    (r : Response) (h : scanBinding s now input = Except.error r) :
    r.status = 400 ∧ "scanRequired" ∈ r.flags := by
  unfold scanBinding at h
  cases hi : input.bind (fun x => x.scanId) with
  | none => simp [hi, scanRejection] at h; simp [← h]
  | some scanId =>
    simp only [hi] at h
    split_ifs at h with h1
    · simp [scanRejection] at h; simp [← h]
    · cases hf : findScanById s scanId with
      | none => simp [hf, scanRejection] at h; simp [← h]
      | some rec =>
        simp only [hf] at h
        split_ifs at h
        · simp [scanRejection] at h; simp [← h]

/-- The field validation only ever answers 400, without flags. -/
theorem validateFields_status (req : CreateOrderRequest) (r : Response)
    (h : validateFields req = some r) : r.status = 400 ∧ r.flags = [] := by
  unfold validateFields at h
  split_ifs at h <;> simp [fail] at h <;> simp [← h]

/-- What `createOrder` does to the orders: nothing unless it answers 201, and
then it appends one pending, unassigned order with the fresh `_id`, which no
stored order had. -/
theorem createOrder_cases (s : Store) (env : Env) (req : CreateOrderRequest) :
    ((createOrder s env req).1.status ≠ 201 ∧ (createOrder s env req).2 = s) ∨
    ∃ order, order.status = "pending" ∧ order.assignedWorker = none ∧
      order._id = env.newId ∧ (∀ x ∈ s.orders, x._id ≠ env.newId) ∧
      (createOrder s env req).1.status = 201 ∧
      (createOrder s env req).2.orders = s.orders ++ [order] := by
  unfold createOrder
  cases hu : findUserById s req.userId with
  | none => left; simp [fail]
  | some user =>
    dsimp only
    cases hg : subscriptionGate user (monthlyOrders s req.userId env.monthStart) with
    | some r => left; simp [subscriptionGate_status user _ r hg]
    | none =>
      dsimp only
      cases hb : scanBinding s env.now req.scanData with
      | error r => left; simp [(scanBinding_status s env.now req.scanData r hb).1]
      | ok scanRecord =>
        dsimp only
        cases hv : validateFields req with
        | some r => left; simp [(validateFields_status req r hv).1]
        | none =>
          dsimp only
          cases hi : insertError s (calculateEstimatedValue (newOrder env req
              (orElse (req.scanData.bind (fun x => x.scanId)) "") scanRecord)) with
          | some msg => left; simp [serverError]
          | none =>
            right
            refine ⟨_, ?_, ?_, ?_, ?_, ?_, rfl⟩
            · simp only [calculateEstimatedValue, newOrder]; split_ifs <;> rfl
            · simp only [calculateEstimatedValue, newOrder]; split_ifs <;> rfl
            · simp only [calculateEstimatedValue, newOrder]; split_ifs <;> rfl
            · intro x hx hxe
              unfold insertError at hi
              split_ifs at hi with h1 h2
              simp only [List.any_eq_true, Bool.or_eq_true, beq_iff_eq, not_exists, not_and,
                not_or] at h2
              have h3 := (h2 x hx).1
              apply h3
              rw [hxe]
              simp only [calculateEstimatedValue, newOrder]; split_ifs <;> rfl
            · simp [ok]

/-- A later step keeps the order invariant of a store with distinct `_id`. -/
theorem LaterOp.run_invariant (s : Store) (hid : (s.orders.map (fun o => o._id)).Nodup)
    (hinv : ∀ o ∈ s.orders, orderInvariant o) (op : LaterOp) :
    ∀ o ∈ (op.run s).orders, orderInvariant o := by
  cases op with
  | cancelOrder t req =>
    simp only [LaterOp.run]
    rcases cancelOrder_cases s t req with h | ⟨d, hd, _, _, hds, heq⟩
    · rw [h.2]; exact hinv
    · rw [heq]
      intro x hx
      simp only [updateOrderById, List.mem_map] at hx
      obtain ⟨a, ha, rfl⟩ := hx
      by_cases had : a._id = d._id
      · have hadd : a = d := eq_of_id_eq s hid a d ha hd had
        have hnone : d.assignedWorker = none := by
          by_contra hne
          have := hinv d hd hne
          rcases hds with h | h <;> simp [h] at this
        simp only [had, if_true]
        intro hne
        rw [hadd] at hne
        exact absurd hnone hne
      · simp only [had, if_false]
        exact hinv a ha
  | rateOrder t req =>
    simp only [LaterOp.run]
    rcases rateOrder_cases s t req with h | ⟨d, _, _, heq⟩
    · rw [h]; exact hinv
    · rw [heq]
      intro x hx
      simp only [updateOrderById, List.mem_map] at hx
      obtain ⟨a, ha, rfl⟩ := hx
      by_cases had : a._id = d._id
      · simp only [had, if_true]
        exact hinv a ha
      · simp only [had, if_false]
        exact hinv a ha
  | assignOrder t req =>
    simp only [LaterOp.run]; rw [(assignOrder_inert s t req).1]; exact hinv
  | selfAssignOrder t req =>
    simp only [LaterOp.run]; rw [(selfAssignOrder_inert s t req).1]; exact hinv
  | updateOrderStatus t req =>
    simp only [LaterOp.run]; rw [(updateOrderStatus_inert s t req).1]; exact hinv
  | scans change => exact hinv

/-- A later step keeps the `_id` of the stored orders. -/
theorem LaterOp.run_ids (s : Store) (op : LaterOp) :
    (op.run s).orders.map (fun x => x._id) = s.orders.map (fun x => x._id) := by
  cases op with
  | cancelOrder t req =>
    simp only [LaterOp.run]
    rcases cancelOrder_cases s t req with h | ⟨d, _, _, _, _, heq⟩
    · rw [h.2]
    · rw [heq]
      dsimp only
      rw [updateOrderById_ids]
      intro a; rfl
  | rateOrder t req =>
    simp only [LaterOp.run]
    rcases rateOrder_cases s t req with h | ⟨d, _, _, heq⟩
    · rw [h]
    · rw [heq, updateOrderById_ids]
      intro a; rfl
  | assignOrder t req => simp only [LaterOp.run]; rw [(assignOrder_inert s t req).1]
  | selfAssignOrder t req => simp only [LaterOp.run]; rw [(selfAssignOrder_inert s t req).1]
  | updateOrderStatus t req => simp only [LaterOp.run]; rw [(updateOrderStatus_inert s t req).1]
  | scans change => rfl

/-- C5. The order invariant is inductive.  In a store whose orders have
distinct `_id` and all satisfy it (the single nullable `assignedWorker`
reference is set only on orders whose status is `assigned`, `in_transit`,
`arrived` or `completed`), after any operation (`createOrder`, `cancelOrder`,
`rateOrder`, `assignOrder`, `selfAssignOrder`, `updateOrderStatus`, with any
request) the orders still have distinct `_id` and all satisfy the invariant;
and an order that `createOrder` produces is pending and unassigned, so it
satisfies it. -/
theorem order_invariant_preserved (s : Store) (op : Op)
    (hid : (s.orders.map (fun o => o._id)).Nodup)
    (hinv : ∀ o ∈ s.orders, orderInvariant o) :
    ((op.run s).orders.map (fun o => o._id)).Nodup ∧
    (∀ o ∈ (op.run s).orders, orderInvariant o) ∧
    (∀ env req, (createOrder s env req).1.status = 201 →
      ∃ o, (createOrder s env req).2.orders = s.orders ++ [o] ∧
        o.status = "pending" ∧ o.assignedWorker = none ∧ orderInvariant o) := by
  refine ⟨?_, ?_, ?_⟩
  · cases op with
    | createOrder env req =>
      simp only [Op.run]
      rcases createOrder_cases s env req with h | ⟨o, _, _, hoid, hfresh, _, heq⟩
      · rw [h.2]; exact hid
      · rw [heq, List.map_append, List.map_singleton, ← List.concat_eq_append]
        refine List.Nodup.concat ?_ hid
        intro hmem
        obtain ⟨x, hx, hxe⟩ := List.mem_map.mp hmem
        exact hfresh x hx (hxe.trans hoid)
    | later l =>
      simp only [Op.run]
      rw [LaterOp.run_ids]
      exact hid
  · cases op with
    | createOrder env req =>
      simp only [Op.run]
      rcases createOrder_cases s env req with h | ⟨o, _, hoa, _, _, _, heq⟩
      · rw [h.2]; exact hinv
      · rw [heq]
        intro x hx
        rcases List.mem_append.mp hx with h | h
        · exact hinv x h
        · rw [List.mem_singleton.mp h]
          intro hne
          exact absurd hoa hne
    | later l => exact LaterOp.run_invariant s hid hinv l
  · intro env req h201
    rcases createOrder_cases s env req with h | ⟨o, hos, hoa, _, _, _, heq⟩
    · exact absurd h201 h.1
    · exact ⟨o, heq, hos, hoa, fun hne => absurd hoa hne⟩

/-- When the caller exists, `createOrder` answers 403 exactly when the
subscription gate stops the request. -/
theorem createOrder_403_iff (s : Store) (env : Env) (req : CreateOrderRequest) (user : User)
    (hu : findUserById s req.userId = some user) :
    (createOrder s env req).1.status = 403 ↔
      subscriptionGate user (monthlyOrders s req.userId env.monthStart) ≠ none := by
  unfold createOrder
  rw [hu]
  dsimp only
  cases hg : subscriptionGate user (monthlyOrders s req.userId env.monthStart) with
  | some r => simp [subscriptionGate_status user _ r hg]
  | none =>
    dsimp only
    cases hb : scanBinding s env.now req.scanData with
    | error r => simp [(scanBinding_status s env.now req.scanData r hb).1]
    | ok scanRecord =>
      dsimp only
      cases hv : validateFields req with
      | some r => simp [(validateFields_status req r hv).1]
      | none =>
        dsimp only
        cases hi : insertError s (calculateEstimatedValue (newOrder env req
            (orElse (req.scanData.bind (fun x => x.scanId)) "") scanRecord)) with
        | some msg => simp [serverError]
        | none => simp [ok]

/-- The gate in the words of the claim, for a plan of the schema enum. -/
theorem subscriptionGate_iff (user : User) (count : Nat)
    (hplan : ∀ p, user.subscription.bind (fun x => x.plan) = some p → p ∈ planEnum) :
    subscriptionGate user count ≠ none ↔
      ((user.subscription.bind (fun x => x.plan) = none ∨
          user.subscription.bind (fun x => x.plan) = some "FREE") ∨
        user.subscription.bind (fun x => x.status) ≠ some "active" ∨
        (user.subscription.bind (fun x => x.plan) = some "BASIC" ∧ count ≥ 5) ∨
        (user.subscription.bind (fun x => x.plan) = some "PREMIUM" ∧ count ≥ 20) ∨
        (user.subscription.bind (fun x => x.plan) = some "ENTERPRISE" ∧ count ≥ 999)) := by
  cases hp : user.subscription.bind (fun x => x.plan) with
  | none => simp [subscriptionGate, subscriptionPlan, hp, orElse]
  | some p =>
    have hmem := hplan p hp
    simp only [planEnum, List.mem_cons, List.mem_singleton, List.not_mem_nil, or_false] at hmem
    by_cases ha : user.subscription.bind (fun x => x.status) = some "active"
    · rcases hmem with rfl | rfl | rfl | rfl <;>
        simp [subscriptionGate, subscriptionPlan, hp, orElse, isActive, ha, orderLimit,
          orderLimits]
    · rcases hmem with rfl | rfl | rfl | rfl <;>
        simp [subscriptionGate, subscriptionPlan, hp, orElse, isActive, ha, orderLimit,
          orderLimits]

/-- C6. For an existing caller whose plan, when present, is a value of the
schema enum: `createOrder` answers 403 exactly when the plan is absent or
FREE, or the subscription status is not `active`, or the number of the
caller's orders created since the start of the month is at least the limit of
the plan (BASIC 5, PREMIUM 20, ENTERPRISE 999).  In particular an active BASIC
caller with 5 orders is denied, an active PREMIUM caller with 19 is not, and
one with 20 is. -/
theorem subscription_gate_spec (s : Store) (env : Env) (req : CreateOrderRequest) (user : User)
    (hu : findUserById s req.userId = some user)
    (hplan : ∀ p, user.subscription.bind (fun x => x.plan) = some p → p ∈ planEnum) :
    ((createOrder s env req).1.status = 403 ↔
      ((user.subscription.bind (fun x => x.plan) = none ∨
          user.subscription.bind (fun x => x.plan) = some "FREE") ∨
        user.subscription.bind (fun x => x.status) ≠ some "active" ∨
        (user.subscription.bind (fun x => x.plan) = some "BASIC" ∧
          monthlyOrders s req.userId env.monthStart ≥ 5) ∨
        (user.subscription.bind (fun x => x.plan) = some "PREMIUM" ∧
          monthlyOrders s req.userId env.monthStart ≥ 20) ∨
        (user.subscription.bind (fun x => x.plan) = some "ENTERPRISE" ∧
          monthlyOrders s req.userId env.monthStart ≥ 999))) ∧
    (user.subscription.bind (fun x => x.plan) = some "BASIC" →
      user.subscription.bind (fun x => x.status) = some "active" →
      monthlyOrders s req.userId env.monthStart = 5 → (createOrder s env req).1.status = 403) ∧
    (user.subscription.bind (fun x => x.plan) = some "PREMIUM" →
      user.subscription.bind (fun x => x.status) = some "active" →
      monthlyOrders s req.userId env.monthStart = 19 → (createOrder s env req).1.status ≠ 403) ∧
    (user.subscription.bind (fun x => x.plan) = some "PREMIUM" →
      user.subscription.bind (fun x => x.status) = some "active" →
      monthlyOrders s req.userId env.monthStart = 20 → (createOrder s env req).1.status = 403) := by
  have key := (createOrder_403_iff s env req user hu).trans
    (subscriptionGate_iff user (monthlyOrders s req.userId env.monthStart) hplan)
  refine ⟨key, ?_, ?_, ?_⟩
  · intro hp ha hc
    rw [key]; simp [hp, ha, hc]
  · intro hp ha hc
    rw [Ne, key]; simp [hp, ha, hc]
  · intro hp ha hc
    rw [key]; simp [hp, ha, hc]

/-- The scan validation in the words of the claim. -/
theorem scanBinding_error_iff (s : Store) (now : Timestamp) (input : Option ScanDataInput) :
    (∃ r, scanBinding s now input = Except.error r) ↔
      ((¬ ∃ id, input.bind (fun x => x.scanId) = some id ∧ id ≠ "") ∨
        (∃ id, input.bind (fun x => x.scanId) = some id ∧ id ≠ "" ∧ findScanById s id = none) ∨
        (∃ id scanRecord, input.bind (fun x => x.scanId) = some id ∧ id ≠ "" ∧
          findScanById s id = some scanRecord ∧ scanRecord.createdAt + 86400000 < now)) := by
  unfold scanBinding
  cases hi : input.bind (fun x => x.scanId) with
  | none => simp
  | some scanId =>
    dsimp only
    by_cases he : scanId = ""
    · simp [he]
    · simp only [he, if_false]
      cases hf : findScanById s scanId with
      | none => simp [he, hf]
      | some scanRecord =>
        dsimp only
        have hage : ((now : Int) - (scanRecord.createdAt : Int) > maxScanAge) ↔
            scanRecord.createdAt + 86400000 < now := by
          have hm : maxScanAge = 86400000 := by decide
          rw [hm]
          constructor
          · intro h
            have h2 : (scanRecord.createdAt : Int) + 86400000 < (now : Int) := by linarith
            exact_mod_cast h2
          · intro h
            have h2 : (scanRecord.createdAt : Int) + 86400000 < (now : Int) := by exact_mod_cast h
            linarith
        by_cases hold : (now : Int) - (scanRecord.createdAt : Int) > maxScanAge
        · simp only [hold, if_true]
          simp [he, hf, hage.mp hold]
        · simp only [hold, if_false]
          have hn : ¬ scanRecord.createdAt + 86400000 < now := fun h => hold (hage.mpr h)
          simp [he, hf, hn]

/-- The scan validation inside `createOrder`, for a `scanId` that passed the
cast: for an existing caller whom the subscription gate lets through, the
answer is 400 with `scanRequired` exactly when no (non-empty) `scanId` is
supplied, or no scan record has that id, or the record was created strictly
more than 86,400,000 ms before the current instant. -/
theorem scan_binding_spec (s : Store) (env : Env) (req : CreateOrderRequest) (user : User)
    (hu : findUserById s req.userId = some user)
    (hgate : subscriptionGate user (monthlyOrders s req.userId env.monthStart) = none) :
    ((createOrder s env req).1.status = 400 ∧ "scanRequired" ∈ (createOrder s env req).1.flags) ↔
      ((¬ ∃ id, req.scanData.bind (fun x => x.scanId) = some id ∧ id ≠ "") ∨
        (∃ id, req.scanData.bind (fun x => x.scanId) = some id ∧ id ≠ "" ∧
          findScanById s id = none) ∨
        (∃ id scanRecord, req.scanData.bind (fun x => x.scanId) = some id ∧ id ≠ "" ∧
          findScanById s id = some scanRecord ∧
          scanRecord.createdAt + 86400000 < env.now)) := by
  rw [← scanBinding_error_iff s env.now req.scanData]
  unfold createOrder
  rw [hu]
  dsimp only
  rw [hgate]
  dsimp only
  cases hb : scanBinding s env.now req.scanData with
  | error r =>
    have := scanBinding_status s env.now req.scanData r hb
    simp [this.1, this.2]
  | ok scanRecord =>
    dsimp only
    cases hv : validateFields req with
    | some r => simp [(validateFields_status req r hv).2]
    | none =>
      dsimp only
      cases hi : insertError s (calculateEstimatedValue (newOrder env req
          (orElse (req.scanData.bind (fun x => x.scanId)) "") scanRecord)) with
      | some msg => simp [serverError]
      | none => simp [ok]

/-- A modification that keeps `_id` and `scanData` keeps the snapshots. -/
theorem updateOrderById_snapshots (s : Store) (id : ObjectId) (f : Order → Order)
    (hf : ∀ o, (f o)._id = o._id ∧ (f o).scanData = o.scanData) :
    snapshots (updateOrderById s id f) = snapshots s := by
  simp only [snapshots, updateOrderById, List.map_map]
  apply List.map_congr_left
  intro a _
  simp only [Function.comp]
  split_ifs
  · rw [(hf a).1, (hf a).2]
  · rfl

/-- No later step changes a snapshot. -/
theorem LaterOp.run_snapshots (op : LaterOp) (s : Store) :
    snapshots (op.run s) = snapshots s := by
  cases op with
  | cancelOrder t req =>
    simp only [LaterOp.run]
    rcases cancelOrder_cases s t req with h | ⟨d, _, _, _, _, heq⟩
    · rw [h.2]
    · rw [heq]
      dsimp only
      rw [updateOrderById_snapshots]
      intro o; exact ⟨rfl, rfl⟩
  | rateOrder t req =>
    simp only [LaterOp.run]
    rcases rateOrder_cases s t req with h | ⟨d, _, _, heq⟩
    · rw [h]
    · rw [heq, updateOrderById_snapshots]
      intro o; exact ⟨rfl, rfl⟩
  | assignOrder t req => simp only [LaterOp.run]; rw [(assignOrder_inert s t req).1]
  | selfAssignOrder t req => simp only [LaterOp.run]; rw [(selfAssignOrder_inert s t req).1]
  | updateOrderStatus t req => simp only [LaterOp.run]; rw [(updateOrderStatus_inert s t req).1]
  | scans change => rfl

/-- C8. Whatever sequence of later steps follows a `createOrder` (any of
`cancelOrder`, `rateOrder`, `assignOrder`, `selfAssignOrder`,
`updateOrderStatus` with any request, and any modification or deletion of scan
records), every stored order keeps the `scanData` snapshot it had when
`createOrder` returned. -/
theorem scan_snapshot_immutable (s : Store) (env : Env) (req : CreateOrderRequest)
    (later : List LaterOp) :
    snapshots (later.foldl (fun st op => op.run st) (createOrder s env req).2) =
      snapshots (createOrder s env req).2 := by
  generalize (createOrder s env req).2 = s0
  induction later generalizing s0 with
  | nil => rfl
  | cons op ops ih =>
    simp only [List.foldl]
    rw [ih (op.run s0), LaterOp.run_snapshots]

/-- C10 (the code diverges). The owner cancels the pending example order:
`cancelOrder` answers 200 and the stored status changes from `pending` to
`cancelled`, but no entry is appended anywhere: the order has no
`statusHistory` before or after (the schema declares none, and `cancelOrder`,
unlike its sibling handlers, does not even attempt the push). -/
theorem cancelOrder_appends_no_history :
    (cancelOrder exStore 100 { userId := "u1", orderId := "o1", reason := none }).1.status = 200 ∧
    exStore.orders.map (fun o => (o._id, o.status)) =
      [("o1", "pending"), ("o2", "cancelled"), ("o3", "arrived"), ("o4", "completed")] ∧
    (cancelOrder exStore 100 { userId := "u1", orderId := "o1", reason := none }).2.orders.map
        (fun o => (o._id, o.status)) =
      [("o1", "cancelled"), ("o2", "cancelled"), ("o3", "arrived"), ("o4", "completed")] ∧
    exStore.orders.map readStatusHistory = [none, none, none, none] ∧
    (cancelOrder exStore 100 { userId := "u1", orderId := "o1", reason := none }).2.orders.map
        readStatusHistory = [none, none, none, none] :=
  ⟨by rfl, by rfl, by rfl, by rfl, by rfl⟩

/-- C4, witness: the cancelled example order in the example store. -/
theorem terminal_status_kept_witness :
    (exStore.orders.map (fun o => o._id)).Nodup ∧ exCancelled ∈ exStore.orders ∧
    (exCancelled.status = "completed" ∨ exCancelled.status = "cancelled") ∧
    (cancelOrder exStore 100 { userId := "u1", orderId := "o2", reason := none }).1.status
      ≠ 200 :=
  ⟨by decide, by decide, Or.inr rfl,
    (terminal_status_kept exStore 100 (by decide) exCancelled (by decide)
      (Or.inr rfl)).2.2.2.2.2.2
      { userId := "u1", orderId := "o2", reason := none } (by decide) (by decide)⟩

/-- C5, witness: the example store satisfies the invariant, and still does
after the owner cancels the pending order. -/
theorem order_invariant_preserved_witness :
    (exStore.orders.map (fun o => o._id)).Nodup ∧
    (∀ o ∈ exStore.orders, orderInvariant o) ∧
    (∀ o ∈ ((Op.later (LaterOp.cancelOrder 100
        { userId := "u1", orderId := "o1", reason := none })).run exStore).orders,
      orderInvariant o) :=
  ⟨by decide, by decide,
    (order_invariant_preserved exStore
      (Op.later (LaterOp.cancelOrder 100 { userId := "u1", orderId := "o1", reason := none }))
      (by decide) (by decide)).2.1⟩

/-- C6, witness: the PREMIUM owner with four orders this month is not denied. -/
theorem subscription_gate_spec_witness :
    findUserById exStore exCreate.userId = some exOwner ∧
    monthlyOrders exStore exCreate.userId exEnv.monthStart = 4 ∧
    ((createOrder exStore exEnv exCreate).1.status = 403 ↔
      ((exOwner.subscription.bind (fun x => x.plan) = none ∨
          exOwner.subscription.bind (fun x => x.plan) = some "FREE") ∨
        exOwner.subscription.bind (fun x => x.status) ≠ some "active" ∨
        (exOwner.subscription.bind (fun x => x.plan) = some "BASIC" ∧
          monthlyOrders exStore exCreate.userId exEnv.monthStart ≥ 5) ∨
        (exOwner.subscription.bind (fun x => x.plan) = some "PREMIUM" ∧
          monthlyOrders exStore exCreate.userId exEnv.monthStart ≥ 20) ∨
        (exOwner.subscription.bind (fun x => x.plan) = some "ENTERPRISE" ∧
          monthlyOrders exStore exCreate.userId exEnv.monthStart ≥ 999))) :=
  ⟨by rfl, by rfl,
    (subscription_gate_spec exStore exEnv exCreate exOwner (by rfl)
      (by intro p hp; cases hp; decide)).1⟩

/-- The handler `cancelOrder` on a key that passed the cast and addresses the
stored order `o` (every stored order matching the key is `o`): the answer is
200 exactly when `o` belongs to the caller and `o.status` is `pending` or
`confirmed`; on success the order with the `_id` of `o` gets
`status = cancelled`, `cancellationReason` = the supplied reason, or
`Cancelled by user` when none (or an empty one) is supplied, and
`cancelledAt` = the current instant, everything else but `updatedAt` being
kept; on every other answer the store is unchanged. -/
theorem cancelOrder_spec (s : Store) (now : Timestamp) (req : CancelRequest) (o : Order)
    (hmem : o ∈ s.orders) (hkey : matchesKey req.orderId o = true)
    (huniq : ∀ x ∈ s.orders, matchesKey req.orderId x = true → x = o) :
    ((cancelOrder s now req).1.status = 200 ↔
        (o.user = req.userId ∧ (o.status = "pending" ∨ o.status = "confirmed"))) ∧
    ((cancelOrder s now req).1.status = 200 →
        (cancelOrder s now req).2 =
          { s with orders := s.orders.map (fun x => if x._id = o._id then
              { x with status := "cancelled"
                       cancellationReason := some (orElse req.reason "Cancelled by user")
                       cancelledAt := some now
                       updatedAt := now } else x) }) ∧
    ((cancelOrder s now req).1.status ≠ 200 → (cancelOrder s now req).2 = s) := by
  have hfind := find?_of_unique s.orders (matchesKey req.orderId)
    (fun x => x.user == req.userId) o hmem hkey huniq
  unfold cancelOrder
  rw [hfind]
  by_cases hu : o.user = req.userId
  · by_cases hs : o.status = "pending" ∨ o.status = "confirmed"
    · have hc : ["pending", "confirmed"].contains o.status = true := by
        rcases hs with h | h <;> simp [h]
      simp [hu, hs, hc, ok, updateOrderById]
    · have hc : ["pending", "confirmed"].contains o.status = false := by
        simp only [not_or] at hs
        simp [hs.1, hs.2]
      simp [hu, hs, hc, fail]
  · simp [hu, fail]

/-- The handler `selfAssignOrder` always answers `success: false`. -/
theorem selfAssignOrder_fails (s : Store) (now : Timestamp) (req : SelfAssignRequest) :
    (selfAssignOrder s now req).1.success = false := by
  unfold selfAssignOrder
  cases hu : findUserById s req.userId with
  | none => simp [serverError]
  | some user =>
    dsimp only
    cases hc : selfAssignChecks user with
    | some r =>
      unfold selfAssignChecks at hc
      split_ifs at hc <;> simp [fail] at hc <;> simp [← hc]
    | none =>
      dsimp only
      cases ho : findPendingUnassigned s req.orderId with
      | none => simp [fail]
      | some o => simp [selfAssignMutate_throws, serverError]

/-- The handler `assignOrder` always answers `success: false`. -/
theorem assignOrder_fails (s : Store) (now : Timestamp) (req : AssignRequest) :
    (assignOrder s now req).1.success = false := by
  unfold assignOrder
  split_ifs with h1
  · simp [fail]
  · cases ho : s.orders.find? (fun o => matchesKey req.orderId o) with
    | none => simp [fail]
    | some o =>
      dsimp only
      cases hw : findUserById s (orElse req.workerId "") with
      | none => simp [fail]
      | some worker =>
        dsimp only
        split_ifs <;> simp [fail, serverError, pushStatusHistory, hydrate]

/-- The handler `updateOrderStatus` always answers `success: false`. -/
theorem updateOrderStatus_fails (s : Store) (now : Timestamp) (req : UpdateStatusRequest) :
    (updateOrderStatus s now req).1.success = false := by
  unfold updateOrderStatus
  simp only [updateStatusMutate_throws]
  cases hst : req.status.map toLowerCase with
  | none => simp [fail]
  | some st =>
    dsimp only
    split_ifs with hv
    · simp [fail]
    · cases ho : s.orders.find? (fun o => matchesKey req.orderId o) with
      | none => simp [fail]
      | some o =>
        dsimp only
        cases hu : findUserById s req.userId with
        | none => simp [serverError]
        | some user =>
          dsimp only
          split_ifs <;> simp [fail, serverError]

/-- C12. A caller who is neither the assigned worker of the addressed order
nor an administrator (`SUPER_ADMIN`, `AREA_ADMIN`) never gets a success answer
from `updateOrderStatus`, and the store (orders, users, scans) is left as it
was; a worker or driver not assigned to the order who asks for a valid status
is answered 403 `You are not assigned to this order`.  (No caller at all gets
a 200 or changes the store.) -/
theorem updateOrderStatus_unauthorized (s : Store) (now : Timestamp) (req : UpdateStatusRequest)
    (user : User) (o : Order)
    (hu : findUserById s req.userId = some user)
    (ho : s.orders.find? (fun x => matchesKey req.orderId x) = some o)
    (hnot : o.assignedWorker ≠ some req.userId)
    (_hadmin : user.role ∉ ["SUPER_ADMIN", "AREA_ADMIN"]) :
    (updateOrderStatus s now req).1.success = false ∧
    (updateOrderStatus s now req).1.status ≠ 200 ∧
    (updateOrderStatus s now req).2 = s ∧
    (user.role ∈ ["WORKER", "DRIVER"] →
      (∃ st, req.status = some st ∧ toLowerCase st ∈ validStatuses) →
      (updateOrderStatus s now req).1 = fail 403 "You are not assigned to this order") ∧
    (∀ req2, (updateOrderStatus s now req2).2 = s ∧ (updateOrderStatus s now req2).1.status ≠ 200) := by
  refine ⟨updateOrderStatus_fails s now req, (updateOrderStatus_inert s now req).2,
    (updateOrderStatus_inert s now req).1, ?_, fun req2 => updateOrderStatus_inert s now req2⟩
  intro hrole hvalid
  obtain ⟨st, hst, hv⟩ := hvalid
  have hv2 : validStatuses.contains (toLowerCase st) = true := by simpa using hv
  have hr : ["WORKER", "DRIVER"].contains user.role = true := by simpa using hrole
  have hn : (o.assignedWorker != some req.userId) = true := by simpa using hnot
  have hrole2 : user.role = "WORKER" ∨ user.role = "DRIVER" := by simpa using hrole
  unfold updateOrderStatus
  simp [hst, hv2, ho, hu, hr, hn, hv, hrole2]

/-- C12, witness: worker `w2` asks to complete order `o3`, assigned to `w1`. -/
theorem updateOrderStatus_unauthorized_witness :
    findUserById exStore "w2" = some exWorker2 ∧
    exStore.orders.find? (fun x => matchesKey "o3" x) = some exArrived ∧
    exArrived.assignedWorker ≠ some "w2" ∧
    (updateOrderStatus exStore 100
        { userId := "w2", orderId := "o3", status := some "completed", note := none,
          actualQuantity := none, actualValue := none, photos := none }).2 = exStore :=
  ⟨by rfl, by rfl, by decide,
    (updateOrderStatus_unauthorized exStore 100
        { userId := "w2", orderId := "o3", status := some "completed", note := none,
          actualQuantity := none, actualValue := none, photos := none }
        exWorker2 exArrived (by rfl) (by rfl) (by decide) (by decide)).2.2.1⟩

/-- C14 (the code diverges). Worker `w1`, assigned to the 10 kg order `o3` at
which he has arrived, asks for `completed` with `actualQuantity` 9: the
answer is 500 and nothing is written, so the order is still `arrived` with no
`actualQuantity`, the worker's completed-order counter is still 0, and the
owner's record is as before. -/
theorem updateOrderStatus_completion_lost :
    exArrived.assignedWorker = some "w1" ∧ exArrived.estimatedQuantity = 10 ∧
    exArrived.ecoPointsEarned = 20 ∧ exArrived.user = "u1" ∧
    updateOrderStatus exStore 100
        { userId := "w1", orderId := "o3", status := some "completed", note := none,
          actualQuantity := some 9, actualValue := none, photos := none } =
      (serverError "Cannot read properties of undefined (reading push)", exStore) ∧
    exStore.orders.map (fun o => (o._id, o.status, o.actualQuantity)) =
      [("o1", "pending", none), ("o2", "cancelled", none), ("o3", "arrived", none),
       ("o4", "completed", none)] ∧
    (findUserById exStore "w1").map (fun u => u.workerInfo.completedOrders) = some 0 ∧
    findUserById exStore "u1" = some exOwner :=
  ⟨by rfl, by rfl, by rfl, by rfl, by rfl, by rfl, by rfl, by rfl⟩

/-- The order a successful `createOrder` appends carries the requested
quantity `q` (at least 1) and `ecoPointsEarned = Math.round(q * 2)`. -/
theorem createOrder_ecoPoints (s : Store) (env : Env) (req : CreateOrderRequest)
    (h : (createOrder s env req).1.status = 201) :
    ∃ o q, (createOrder s env req).2.orders = s.orders ++ [o] ∧
      req.estimatedQuantity = some q ∧ 1 ≤ q ∧ o.estimatedQuantity = q ∧
      o.ecoPointsEarned = mathRound (q * 2) := by
  unfold createOrder at h ⊢
  cases hu : findUserById s req.userId with
  | none => simp [hu, fail] at h
  | some user =>
    simp only [hu] at h ⊢
    cases hg : subscriptionGate user (monthlyOrders s req.userId env.monthStart) with
    | some r => simp [hg, subscriptionGate_status user _ r hg] at h
    | none =>
      simp only [hg] at h ⊢
      cases hb : scanBinding s env.now req.scanData with
      | error r => simp [hb, (scanBinding_status s env.now req.scanData r hb).1] at h
      | ok scanRecord =>
        simp only [hb] at h ⊢
        cases hv : validateFields req with
        | some r => simp [hv, (validateFields_status req r hv).1] at h
        | none =>
          simp only [hv] at h ⊢
          cases hi : insertError s (calculateEstimatedValue (newOrder env req
              (orElse (req.scanData.bind (fun x => x.scanId)) "") scanRecord)) with
          | some msg => simp [hi, serverError] at h
          | none =>
            simp only [hi]
            cases hq : req.estimatedQuantity with
            | none =>
              unfold validateFields at hv
              simp [hq, truthyNum] at hv
              split_ifs at hv
            | some q =>
              refine ⟨_, q, rfl, rfl, ?_, ?_, ?_⟩
              · unfold validateFields at hv
                simp only [hq, Option.getD_some] at hv
                split_ifs at hv with h1 h2
                simp only [Bool.or_eq_true, Bool.not_eq_true', decide_eq_true_eq, not_or,
                  not_lt] at h2
                exact h2.2
              · simp only [calculateEstimatedValue, newOrder, hq, Option.getD_some]
                split_ifs <;> rfl
              · simp only [calculateEstimatedValue, newOrder, hq, Option.getD_some]
                split_ifs <;> rfl

/-- C15 (as stated, refuted). The owner orders a pickup of 1.3 kg:
`createOrder` answers 201 and the stored order has `ecoPointsEarned = 3`,
which is not 2 * 1.3 = 2.6. -/
theorem createOrder_ecoPoints_rounded :
    (createOrder exStore exEnv { exCreate with estimatedQuantity := some (13 / 10) }).1.status
      = 201 ∧
    (createOrder exStore exEnv { exCreate with estimatedQuantity := some (13 / 10) }).2.orders.map
        (fun o => (o._id, o.ecoPointsEarned)) =
      [("o1", 20), ("o2", 20), ("o3", 20), ("o4", 20), ("o9", 3)] ∧
    ((3 : Int) : Rat) ≠ 2 * (13 / 10) := by
  refine ⟨by decide!, by decide!, by norm_num⟩

/-- C15 (amended). Every order created by `createOrder` with estimated
quantity `q` has `ecoPointsEarned = Math.round(2 * q)`, the integer nearest to
`2 * q` (halves up); this equals `2 * q` exactly when `2 * q` is an integer,
in particular for a whole number of kg. -/
theorem createOrder_ecoPoints_spec (s : Store) (env : Env) (req : CreateOrderRequest)
    (h : (createOrder s env req).1.status = 201) :
    ∃ o q, (createOrder s env req).2.orders = s.orders ++ [o] ∧
      req.estimatedQuantity = some q ∧ o.estimatedQuantity = q ∧
      o.ecoPointsEarned = Int.floor (2 * q + 1 / 2) ∧
      (((o.ecoPointsEarned : Int) : Rat) = 2 * q ↔ ∃ n : Int, 2 * q = n) ∧
      (∀ n : Int, q = n → o.ecoPointsEarned = 2 * n) := by
  obtain ⟨o, q, ho, hq, _, hoq, hoe⟩ := createOrder_ecoPoints s env req h
  have hfloor : o.ecoPointsEarned = Int.floor (2 * q + 1 / 2) := by
    rw [hoe, mathRound, mul_comm]
  have hint : ∀ n : Int, 2 * q = n → o.ecoPointsEarned = n := by
    intro n hn
    rw [hfloor, hn, Int.floor_eq_iff]
    constructor <;> norm_num
  refine ⟨o, q, ho, hq, hoq, hfloor, ?_, ?_⟩
  · constructor
    · intro he
      exact ⟨o.ecoPointsEarned, he.symm⟩
    · rintro ⟨n, hn⟩
      rw [hint n hn, hn]
  · intro n hn
    apply hint
    rw [hn]
    push_cast
    ring

/-- C15, witness: the 10 kg example request. -/
theorem createOrder_ecoPoints_spec_witness :
    (createOrder exStore exEnv exCreate).1.status = 201 ∧
    ∃ o q, (createOrder exStore exEnv exCreate).2.orders = exStore.orders ++ [o] ∧
      exCreate.estimatedQuantity = some q ∧ o.estimatedQuantity = q ∧
      o.ecoPointsEarned = Int.floor (2 * q + 1 / 2) ∧
      (((o.ecoPointsEarned : Int) : Rat) = 2 * q ↔ ∃ n : Int, 2 * q = n) ∧
      (∀ n : Int, q = n → o.ecoPointsEarned = 2 * n) :=
  ⟨by rfl, createOrder_ecoPoints_spec exStore exEnv exCreate (by rfl)⟩

/-- What `createOrder` answers when it writes: the `ok 201` response. -/
theorem createOrder_error_unchanged (s : Store) (env : Env) (req : CreateOrderRequest) :
    (createOrder s env req).2 = s ∨
      (createOrder s env req).1 = ok 201 "Order placed successfully" := by
  unfold createOrder
  cases hu : findUserById s req.userId with
  | none => left; rfl
  | some user =>
    dsimp only
    cases hg : subscriptionGate user (monthlyOrders s req.userId env.monthStart) with
    | some r => left; rfl
    | none =>
      dsimp only
      cases hb : scanBinding s env.now req.scanData with
      | error r => left; rfl
      | ok scanRecord =>
        dsimp only
        cases hv : validateFields req with
        | some r => left; rfl
        | none =>
          dsimp only
          cases hi : insertError s (calculateEstimatedValue (newOrder env req
              (orElse (req.scanData.bind (fun x => x.scanId)) "") scanRecord)) with
          | some msg => left; rfl
          | none => right; rfl

/-- What `rateOrder` answers when it writes: the `ok 200` response. -/
theorem rateOrder_error_unchanged (s : Store) (now : Timestamp) (req : RateRequest) :
    (rateOrder s now req).2 = s ∨
      (rateOrder s now req).1 = ok 200 "Thank you for your feedback!" := by
  unfold rateOrder
  split_ifs
  · left; rfl
  · cases hf : s.orders.find? (fun o => matchesKey req.orderId o && o.user == req.userId) with
    | none => left; rfl
    | some d =>
      dsimp only
      split_ifs
      · left; rfl
      · right; rfl

/-- C16. Each of `createOrder`, `cancelOrder`, `rateOrder`, `assignOrder`,
`selfAssignOrder` and `updateOrderStatus`, on any store and request, leaves
the whole store (orders, users, scan records) exactly as it was whenever its
answer is an error, that is `success: false` or an HTTP status of 400 or
more. -/
theorem error_leaves_store (s : Store) (now : Timestamp) (env : Env) :
    (∀ req, ((createOrder s env req).1.success = false ∨ 400 ≤ (createOrder s env req).1.status) →
      (createOrder s env req).2 = s) ∧
    (∀ req, ((cancelOrder s now req).1.success = false ∨ 400 ≤ (cancelOrder s now req).1.status) →
      (cancelOrder s now req).2 = s) ∧
    (∀ req, ((rateOrder s now req).1.success = false ∨ 400 ≤ (rateOrder s now req).1.status) →
      (rateOrder s now req).2 = s) ∧
    (∀ req, ((assignOrder s now req).1.success = false ∨ 400 ≤ (assignOrder s now req).1.status) →
      (assignOrder s now req).2 = s) ∧
    (∀ req, ((selfAssignOrder s now req).1.success = false ∨
        400 ≤ (selfAssignOrder s now req).1.status) → (selfAssignOrder s now req).2 = s) ∧
    (∀ req, ((updateOrderStatus s now req).1.success = false ∨
        400 ≤ (updateOrderStatus s now req).1.status) → (updateOrderStatus s now req).2 = s) := by
  refine ⟨?_, ?_, ?_, fun req _ => (assignOrder_inert s now req).1,
    fun req _ => (selfAssignOrder_inert s now req).1,
    fun req _ => (updateOrderStatus_inert s now req).1⟩
  · intro req h
    rcases createOrder_error_unchanged s env req with h1 | h1
    · exact h1
    · rw [h1] at h
      simp [ok] at h
  · intro req h
    rcases cancelOrder_cases s now req with h1 | ⟨d, _, _, _, _, heq⟩
    · exact h1.2
    · rw [heq] at h
      simp [ok] at h
  · intro req h
    rcases rateOrder_error_unchanged s now req with h1 | h1
    · exact h1
    · rw [h1] at h
      simp [ok] at h

/-- On the equator the Haversine distance over the reals is the arc length. -/
theorem calculateDistance_equator (x : ℝ) (h0 : 0 ≤ x) (h1 : x ≤ 180) :
    calculateDistance realMath 0 0 0 x = 6371 * (x * Real.pi / 180) := by
  have hpi := Real.pi_pos
  have ht0 : 0 ≤ x * Real.pi / 180 / 2 := by positivity
  have ht1 : x * Real.pi / 180 / 2 ≤ Real.pi / 2 := by
    have : x * Real.pi ≤ 180 * Real.pi := mul_le_mul_of_nonneg_right h1 hpi.le
    linarith
  have hsin : 0 ≤ Real.sin (x * Real.pi / 180 / 2) :=
    Real.sin_nonneg_of_nonneg_of_le_pi ht0 (by linarith)
  have hcos : 0 ≤ Real.cos (x * Real.pi / 180 / 2) :=
    Real.cos_nonneg_of_neg_pi_div_two_le_of_le (by linarith) ht1
  have hcs : 1 - Real.sin (x * Real.pi / 180 / 2) * Real.sin (x * Real.pi / 180 / 2) =
      Real.cos (x * Real.pi / 180 / 2) * Real.cos (x * Real.pi / 180 / 2) := by
    have := Real.sin_sq_add_cos_sq (x * Real.pi / 180 / 2)
    nlinarith
  have harg : Complex.arg (Complex.mk (Real.cos (x * Real.pi / 180 / 2))
      (Real.sin (x * Real.pi / 180 / 2))) = x * Real.pi / 180 / 2 := by
    rw [Complex.mk_eq_add_mul_I, Complex.ofReal_cos, Complex.ofReal_sin]
    exact Complex.arg_cos_add_sin_mul_I ⟨by linarith, by linarith⟩
  simp only [calculateDistance, realMath, sub_zero, zero_mul, zero_div, Real.sin_zero, mul_zero,
    Real.cos_zero, mul_one, one_mul, zero_add]
  rw [hcs, Real.sqrt_mul_self hsin, Real.sqrt_mul_self hcos, harg]
  ring

/-- Rounding a non-negative real to two decimals, given the bracket of its
hundredfold. -/
theorem toFixed2_eq (x : ℝ) (n : Int) (h0 : 0 ≤ x) (h1 : (n : ℝ) ≤ x * 100 + 1 / 2)
    (h2 : x * 100 + 1 / 2 < n + 1) : toFixed2 x = (n : ℝ) / 100 := by
  have hf : Int.floor (x * 100 + 1 / 2) = n := Int.floor_eq_iff.mpr ⟨h1, h2⟩
  simp only [toFixed2, h0, if_true, hf]

/-- A value that passes the filter on the two-decimal rounding is at most
0.005 above the radius. -/
theorem toFixed2_le {K : Type} [LinearOrderedField K] [FloorRing K] (x r : K)
    (h : toFixed2 x ≤ r) : x ≤ r + 1 / 200 := by
  unfold toFixed2 at h
  split_ifs at h with h0
  · have h1 := Int.lt_floor_add_one (x * 100 + 1 / 2)
    have h2 : (Int.floor (x * 100 + 1 / 2) : K) ≤ r * 100 := by
      rwa [div_le_iff₀ (by norm_num : (0 : K) < 100)] at h
    linarith
  · have h1 := Int.floor_le (-x * 100 + 1 / 2)
    have h2 : -(r * 100) ≤ (Int.floor (-x * 100 + 1 / 2) : K) := by
      have h3 : -r ≤ (Int.floor (-x * 100 + 1 / 2) : K) / 100 := by linarith
      rw [le_div_iff₀ (by norm_num : (0 : K) < 100)] at h3
      linarith
    linarith

/-- A value that passes the filter on `Math.round(x * 100) / 100` is less than
0.005 above the radius. -/
theorem round2_le {K : Type} [LinearOrderedField K] [FloorRing K] (x r : K)
    (h : round2 x ≤ r) : x < r + 1 / 200 := by
  unfold round2 jsRound at h
  have h1 := Int.lt_floor_add_one (x * 100 + 1 / 2)
  have h2 : (Int.floor (x * 100 + 1 / 2) : K) ≤ r * 100 := by
    rwa [div_le_iff₀ (by norm_num : (0 : K) < 100)] at h
  linarith

/-- The bounding box at the origin over the reals. -/
theorem inBox_origin (r : ℝ) (p : Coordinates) (h1 : -(r / 111) ≤ (p.lat : ℝ))
    (h2 : (p.lat : ℝ) ≤ r / 111) (h3 : -(r / 111) ≤ (p.lng : ℝ)) (h4 : (p.lng : ℝ) ≤ r / 111) :
    inBox realMath 0 0 r p = true := by
  simp only [inBox, realMath, zero_mul, zero_div, Real.cos_zero, mul_one, zero_sub, zero_add,
    Bool.and_eq_true, decide_eq_true_eq]
  exact ⟨⟨⟨h1, h2⟩, h3⟩, h4⟩

/-- The example facility is 6371 * pi / 4000 km (about 5.0038 km) from the origin. -/
theorem exFacility_distance :
    calculateDistance realMath 0 0 (exFacility.location.lat : ℝ) (exFacility.location.lng : ℝ) =
      6371 * Real.pi / 4000 := by
  have h1 : ((exFacility.location.lat : ℚ) : ℝ) = 0 := by simp [exFacility]
  have h2 : ((exFacility.location.lng : ℚ) : ℝ) = 9 / 200 := by simp [exFacility]
  rw [h1, h2, calculateDistance_equator _ (by norm_num) (by norm_num)]
  ring

/-- With radius 5 at the origin, `Facility.findNearby` returns the example
facility, with `distance_km = 5`. -/
theorem findNearby_exFacility :
    Facility.findNearby realMath [exFacility] 0 0 5 none =
      [{ facility := exFacility, distance_km := 5 }] := by
  have hbox : inBox realMath 0 0 5 exFacility.location = true := by
    apply inBox_origin <;> simp [exFacility] <;> norm_num
  have hpi1 := Real.pi_gt_d6
  have hpi2 := Real.pi_lt_d6
  have hd : toFixed2 (calculateDistance realMath 0 0 (exFacility.location.lat : ℝ)
      (exFacility.location.lng : ℝ)) = 5 := by
    rw [exFacility_distance, toFixed2_eq _ 500 (by positivity) (by norm_num; linarith)
      (by norm_num; linarith)]
    norm_num
  have hact : exFacility.isActive = true := rfl
  simp [Facility.findNearby, hbox, hact, truthy, hd]

/-- What an element of the result of `Facility.findNearby` satisfies. -/
theorem Facility.mem_findNearby {K : Type} [LinearOrderedField K] [FloorRing K] (M : JsMath K)
    (facilities : List Facility) (lat lng r : K) (category : Option String)
    (x : NearbyFacility K) (hx : x ∈ Facility.findNearby M facilities lat lng r category) :
    x.facility ∈ facilities ∧ x.facility.isActive = true ∧
    x.distance_km =
      toFixed2 (calculateDistance M lat lng x.facility.location.lat x.facility.location.lng) ∧
    x.distance_km ≤ r := by
  unfold Facility.findNearby at hx
  rw [List.mem_insertionSort, List.mem_filter, List.mem_map] at hx
  obtain ⟨⟨f, hf, rfl⟩, hle⟩ := hx
  rw [List.mem_filter] at hf
  simp only [Bool.and_eq_true] at hf
  exact ⟨hf.1, hf.2.1.1, rfl, by simpa using hle⟩

/-- C17 (as stated, refuted). Over the reals, `Facility.findNearby(0, 0, 5)`
returns the example facility at (0, 0.045), whose Haversine distance from the
centre is 6371 * pi / 4000 km, more than 5 km (about 5.0038): the filter
compares the distance rounded to two decimals, 5.00, with the radius. -/
theorem findNearby_beyond_radius :
    (Facility.findNearby realMath [exFacility] 0 0 5 none).map (fun x => x.facility) =
      [exFacility] ∧
    calculateDistance realMath 0 0 (exFacility.location.lat : ℝ) (exFacility.location.lng : ℝ) =
      6371 * Real.pi / 4000 ∧
    (5 : ℝ) < calculateDistance realMath 0 0 (exFacility.location.lat : ℝ)
      (exFacility.location.lng : ℝ) := by
  refine ⟨by rw [findNearby_exFacility]; rfl, exFacility_distance, ?_⟩
  rw [exFacility_distance]
  have := Real.pi_gt_d6
  linarith

/-- C17 (amended). For every `Math` object, centre, radius, category and
stored facilities, each element of the result of `Facility.findNearby` is a
stored active facility whose `distance_km`, the Haversine distance from the
centre rounded to two decimals, is at most the radius; the distance itself is
therefore at most the radius plus 0.005 km. -/
theorem findNearby_within_rounded {K : Type} [LinearOrderedField K] [FloorRing K]
    (M : JsMath K) (facilities : List Facility) (lat lng r : K) (category : Option String)
    (x : NearbyFacility K) (hx : x ∈ Facility.findNearby M facilities lat lng r category) :
    x.facility ∈ facilities ∧
    x.distance_km =
      toFixed2 (calculateDistance M lat lng x.facility.location.lat x.facility.location.lng) ∧
    x.distance_km ≤ r ∧
    calculateDistance M lat lng x.facility.location.lat x.facility.location.lng ≤ r + 1 / 200 := by
  obtain ⟨h1, _, h3, h4⟩ := Facility.mem_findNearby M facilities lat lng r category x hx
  refine ⟨h1, h3, h4, ?_⟩
  apply toFixed2_le
  rw [← h3]
  exact h4

/-- C17, witness: the example facility returned for radius 5 at the origin. -/
theorem findNearby_within_rounded_witness :
    ({ facility := exFacility, distance_km := 5 } : NearbyFacility ℝ) ∈
      Facility.findNearby realMath [exFacility] 0 0 5 none ∧
    calculateDistance realMath 0 0 (exFacility.location.lat : ℝ) (exFacility.location.lng : ℝ) ≤
      5 + 1 / 200 :=
  ⟨by rw [findNearby_exFacility]; exact List.mem_singleton_self _,
    (findNearby_within_rounded realMath [exFacility] 0 0 5 none
      { facility := exFacility, distance_km := 5 }
      (by rw [findNearby_exFacility]; exact List.mem_singleton_self _)).2.2.2⟩

/-- The two depots are 6371 * 901 * pi / 18000000 km (about 1.0019) and
6371 * pi / 20000 km (about 1.0008) from the origin. -/
theorem exDepots_distance :
    calculateDistance realMath 0 0 (exFacilityA.location.lat : ℝ) (exFacilityA.location.lng : ℝ) =
      6371 * 901 * Real.pi / 18000000 ∧
    calculateDistance realMath 0 0 (exFacilityB.location.lat : ℝ) (exFacilityB.location.lng : ℝ) =
      6371 * Real.pi / 20000 := by
  have h1 : ((exFacilityA.location.lat : ℚ) : ℝ) = 0 := by simp [exFacilityA]
  have h2 : ((exFacilityA.location.lng : ℚ) : ℝ) = 901 / 100000 := by simp [exFacilityA]
  have h3 : ((exFacilityB.location.lat : ℚ) : ℝ) = 0 := by simp [exFacilityB]
  have h4 : ((exFacilityB.location.lng : ℚ) : ℝ) = 9 / 1000 := by simp [exFacilityB]
  rw [h1, h2, h3, h4, calculateDistance_equator _ (by norm_num) (by norm_num),
    calculateDistance_equator _ (by norm_num) (by norm_num)]
  constructor <;> ring

/-- With radius 5 at the origin, `Facility.findNearby` returns the two depots
in stored order, both with `distance_km = 1`. -/
theorem findNearby_exDepots :
    Facility.findNearby realMath [exFacilityA, exFacilityB] 0 0 5 none =
      [{ facility := exFacilityA, distance_km := 1 },
       { facility := exFacilityB, distance_km := 1 }] := by
  have hboxA : inBox realMath 0 0 5 exFacilityA.location = true := by
    apply inBox_origin <;> simp [exFacilityA] <;> norm_num
  have hboxB : inBox realMath 0 0 5 exFacilityB.location = true := by
    apply inBox_origin <;> simp [exFacilityB] <;> norm_num
  have hpi1 := Real.pi_gt_d6
  have hpi2 := Real.pi_lt_d6
  have hdA : toFixed2 (calculateDistance realMath 0 0 (exFacilityA.location.lat : ℝ)
      (exFacilityA.location.lng : ℝ)) = 1 := by
    rw [exDepots_distance.1, toFixed2_eq _ 100 (by positivity) (by norm_num; linarith)
      (by norm_num; linarith)]
    norm_num
  have hdB : toFixed2 (calculateDistance realMath 0 0 (exFacilityB.location.lat : ℝ)
      (exFacilityB.location.lng : ℝ)) = 1 := by
    rw [exDepots_distance.2, toFixed2_eq _ 100 (by positivity) (by norm_num; linarith)
      (by norm_num; linarith)]
    norm_num
  have hactA : exFacilityA.isActive = true := rfl
  have hactB : exFacilityB.isActive = true := rfl
  simp [Facility.findNearby, hboxA, hboxB, hactA, hactB, truthy, hdA, hdB]

/-- C18 (as stated, refuted). Over the reals, `Facility.findNearby(0, 0, 5)`
on the two depots returns depot A before depot B although A is farther from
the centre than B (about 1.0019 km against 1.0008 km): both round to 1.00 and
the sort, which compares the rounded values, keeps the stored order. -/
theorem findNearby_not_sorted_by_distance :
    (Facility.findNearby realMath [exFacilityA, exFacilityB] 0 0 5 none).map
        (fun x => x.facility) = [exFacilityA, exFacilityB] ∧
    calculateDistance realMath 0 0 (exFacilityB.location.lat : ℝ) (exFacilityB.location.lng : ℝ) <
      calculateDistance realMath 0 0 (exFacilityA.location.lat : ℝ)
        (exFacilityA.location.lng : ℝ) := by
  refine ⟨by rw [findNearby_exDepots]; rfl, ?_⟩
  rw [exDepots_distance.1, exDepots_distance.2]
  have := Real.pi_pos
  linarith

/-- C18 (amended). For every `Math` object, centre, radius and stored
candidates, the result of `Facility.findNearby` is in non-decreasing order of
`distance_km`, the Haversine distance rounded to two decimals, and the
`workers` list of `getNearbyWorkers` is in non-decreasing order of its
`distance`, the Haversine distance rounded likewise. -/
theorem proximity_sorted_by_rounded {K : Type} [LinearOrderedField K] [FloorRing K]
    (M : JsMath K) (facilities : List Facility) (lat lng r : K) (category : Option String)
    (s : Store) (q : NearbyWorkersQuery K) :
    ((Facility.findNearby M facilities lat lng r category).map
      (fun x => x.distance_km)).Sorted (fun a b => a ≤ b) ∧
    (∀ x ∈ Facility.findNearby M facilities lat lng r category, x.distance_km =
      toFixed2 (calculateDistance M lat lng x.facility.location.lat x.facility.location.lng)) ∧
    ((getNearbyWorkers M s q).2.map (fun w => w.distance)).Sorted (fun a b => a ≤ b) ∧
    (∀ userLat userLng, q.lat = some userLat → q.lng = some userLng →
      ∀ w ∈ (getNearbyWorkers M s q).2,
        w.distance = round2 (calculateDistance M userLat userLng w.lat w.lng)) := by
  haveI : IsTotal (NearbyFacility K) (fun a b => a.distance_km ≤ b.distance_km) :=
    ⟨fun a b => le_total _ _⟩
  haveI : IsTrans (NearbyFacility K) (fun a b => a.distance_km ≤ b.distance_km) :=
    ⟨fun a b c h1 h2 => le_trans h1 h2⟩
  haveI : IsTotal (NearbyWorker K) (fun a b => a.distance ≤ b.distance) :=
    ⟨fun a b => le_total _ _⟩
  haveI : IsTrans (NearbyWorker K) (fun a b => a.distance ≤ b.distance) :=
    ⟨fun a b c h1 h2 => le_trans h1 h2⟩
  refine ⟨?_, ?_, ?_, ?_⟩
  · unfold Facility.findNearby
    rw [List.Sorted, List.pairwise_map]
    exact List.sorted_insertionSort _ _
  · intro x hx
    exact (Facility.mem_findNearby M facilities lat lng r category x hx).2.2.1
  · unfold getNearbyWorkers
    cases hlat : q.lat with
    | none => simp [List.Sorted]
    | some userLat =>
      cases hlng : q.lng with
      | none => simp [List.Sorted]
      | some userLng =>
        dsimp only
        rw [List.Sorted, List.pairwise_map]
        exact List.sorted_insertionSort _ _
  · intro userLat userLng hlat hlng w hw
    unfold getNearbyWorkers at hw
    simp only [hlat, hlng] at hw
    rw [List.mem_insertionSort, List.mem_filter, List.mem_map] at hw
    obtain ⟨⟨u, _, rfl⟩, _⟩ := hw
    rfl

/-- The example incident is 6371 * pi / 1998 km (about 10.0175 km) from the
origin. -/
theorem exIncident_distance :
    calculateDistance realMath 0 0 (exIncident.location.lat : ℝ) (exIncident.location.lng : ℝ) =
      6371 * Real.pi / 1998 := by
  have h1 : ((exIncident.location.lat : ℚ) : ℝ) = 0 := by simp [exIncident]
  have h2 : ((exIncident.location.lng : ℚ) : ℝ) = 10 / 111 := by simp [exIncident]
  rw [h1, h2, calculateDistance_equator _ (by norm_num) (by norm_num)]
  ring

/-- Over the reals the corner (10/111, 10/111) of the bounding box of radius
10 at the origin is more than 14 km from the origin. -/
theorem exCorner_distance :
    (14 : ℝ) < calculateDistance realMath 0 0 (exCorner.location.lat : ℝ)
      (exCorner.location.lng : ℝ) := by
  have h1 : ((exCorner.location.lat : ℚ) : ℝ) = 10 / 111 := by simp [exCorner]
  have h2 : ((exCorner.location.lng : ℚ) : ℝ) = 10 / 111 := by simp [exCorner]
  rw [h1, h2]
  have hpi1 := Real.pi_gt_d6
  have hpi2 := Real.pi_lt_d6
  have hx : (10 / 111 - 0) * Real.pi / 180 / 2 = Real.pi / 3996 := by ring
  have hphi : 10 / 111 * Real.pi / 180 = Real.pi / 1998 := by ring
  have hx_lo : (786 / 1000000 : ℝ) < Real.pi / 3996 := by
    rw [lt_div_iff₀ (by norm_num : (0 : ℝ) < 3996)]; linarith
  have hx_hi : Real.pi / 3996 < (787 / 1000000 : ℝ) := by
    rw [div_lt_iff₀ (by norm_num : (0 : ℝ) < 3996)]; linarith
  have hs_lo : (785 / 1000000 : ℝ) < Real.sin (Real.pi / 3996) := by
    have h := Real.sin_gt_sub_cube (x := Real.pi / 3996) (by linarith) (by linarith)
    have hcube : (Real.pi / 3996) ^ 3 ≤ (787 / 1000000 : ℝ) ^ 3 :=
      pow_le_pow_left₀ (by linarith) hx_hi.le 3
    have : (787 / 1000000 : ℝ) ^ 3 / 4 < 1 / 1000000 := by norm_num
    linarith
  have hs_hi : Real.sin (Real.pi / 3996) < (787 / 1000000 : ℝ) :=
    lt_trans (Real.sin_lt (by linarith)) hx_hi
  have hc_lo : (99 / 100 : ℝ) ≤ Real.cos (Real.pi / 1998) := by
    have h := Real.one_sub_sq_div_two_le_cos (x := Real.pi / 1998)
    have hp : Real.pi / 1998 = 2 * (Real.pi / 3996) := by ring
    have hsq : (Real.pi / 1998) ^ 2 ≤ (2 * (787 / 1000000 : ℝ)) ^ 2 := by
      rw [hp]
      exact pow_le_pow_left₀ (by linarith) (by linarith) 2
    have : (2 * (787 / 1000000 : ℝ)) ^ 2 / 2 < 1 / 100 := by norm_num
    linarith
  have hc_hi : Real.cos (Real.pi / 1998) ≤ 1 := Real.cos_le_one _
  set s := Real.sin (Real.pi / 3996) with hs
  set c := Real.cos (Real.pi / 1998) with hc
  have ha : s * s + 1 * c * s * s = s * s * (1 + c) := by ring
  have hss_lo : (785 / 1000000 : ℝ) * (785 / 1000000) < s * s :=
    mul_lt_mul'' hs_lo hs_lo (by norm_num) (by norm_num)
  have hss_hi : s * s < (787 / 1000000 : ℝ) * (787 / 1000000) :=
    mul_lt_mul'' hs_hi hs_hi (by linarith) (by linarith)
  have ha_lo : (7 / 6371 : ℝ) ^ 2 < s * s * (1 + c) := by
    have h3 : (785 / 1000000 : ℝ) * (785 / 1000000) * (199 / 100) ≤ s * s * (1 + c) :=
      mul_le_mul hss_lo.le (by linarith) (by norm_num) (by nlinarith)
    have : (7 / 6371 : ℝ) ^ 2 < (785 / 1000000 : ℝ) * (785 / 1000000) * (199 / 100) := by
      norm_num
    linarith
  have ha_nonneg : 0 ≤ s * s * (1 + c) := by nlinarith
  have ha_le : s * s * (1 + c) ≤ 1 := by nlinarith
  simp only [calculateDistance, realMath, zero_mul, zero_div, Real.cos_zero, hx, hphi]
  rw [← hs, ← hc, ha]
  set a := s * s * (1 + c) with hae
  have him : (Complex.mk (Real.sqrt (1 - a)) (Real.sqrt a)).im = Real.sqrt a := rfl
  have habs : Complex.abs (Complex.mk (Real.sqrt (1 - a)) (Real.sqrt a)) = 1 := by
    rw [Complex.abs_apply, Complex.normSq_mk, Real.mul_self_sqrt (by linarith),
      Real.mul_self_sqrt ha_nonneg]
    simp
  have harg0 : 0 ≤ Complex.arg (Complex.mk (Real.sqrt (1 - a)) (Real.sqrt a)) := by
    rw [Complex.arg_nonneg_iff, him]
    exact Real.sqrt_nonneg a
  have hsin := Complex.sin_arg (Complex.mk (Real.sqrt (1 - a)) (Real.sqrt a))
  rw [him, habs, div_one] at hsin
  have hle := Real.sin_le harg0
  rw [hsin] at hle
  have hsqrt : (7 / 6371 : ℝ) < Real.sqrt a := (Real.lt_sqrt (by norm_num)).mpr ha_lo
  linarith

/-- C19 (the code diverges). Over the reals, `Incident.findNearby(0, 0, 10)`
returns the active incident at the corner (10/111, 10/111) of its bounding
box, and `getNearbyIncidents` lists it, although its Haversine distance from
the centre is more than 14 km; it also returns the active incident at
(0, 10/111), at 6371 * pi / 1998 km, more than 10 km.  The query is the
bounding box alone: no distance is compared with the radius. -/
theorem incident_findNearby_beyond_radius :
    Incident.findNearby realMath [exCorner] 0 0 10 "active" = [exCorner] ∧
    (getNearbyIncidents realMath [exCorner]
        { lat := some 0, lng := some 0, radius := some 10, type := none, severity := none,
          status := none }).2.map (fun x => x.incident) = [exCorner] ∧
    (14 : ℝ) < calculateDistance realMath 0 0 (exCorner.location.lat : ℝ)
      (exCorner.location.lng : ℝ) ∧
    Incident.findNearby realMath [exIncident] 0 0 10 "active" = [exIncident] ∧
    (getNearbyIncidents realMath [exIncident]
        { lat := some 0, lng := some 0, radius := some 10, type := none, severity := none,
          status := none }).2.map (fun x => x.incident) = [exIncident] ∧
    calculateDistance realMath 0 0 (exIncident.location.lat : ℝ) (exIncident.location.lng : ℝ) =
      6371 * Real.pi / 1998 ∧
    (10 : ℝ) < calculateDistance realMath 0 0 (exIncident.location.lat : ℝ)
      (exIncident.location.lng : ℝ) := by
  have hbox : inBox realMath 0 0 10 exIncident.location = true := by
    apply inBox_origin <;> simp [exIncident] <;> norm_num
  have hst : (exIncident.status == "active") = true := by decide
  have hfind : Incident.findNearby realMath [exIncident] 0 0 10 "active" = [exIncident] := by
    simp [Incident.findNearby, hbox, hst]
  have hboxc : inBox realMath 0 0 10 exCorner.location = true := by
    apply inBox_origin <;> simp [exCorner] <;> norm_num
  have hstc : (exCorner.status == "active") = true := by decide
  have hfindc : Incident.findNearby realMath [exCorner] 0 0 10 "active" = [exCorner] := by
    simp [Incident.findNearby, hboxc, hstc]
  refine ⟨hfindc, ?_, exCorner_distance, hfind, ?_, exIncident_distance, ?_⟩
  · simp [getNearbyIncidents, orElse, truthy, hfindc]
  · simp [getNearbyIncidents, orElse, truthy, hfind]
  · rw [exIncident_distance]
    have := Real.pi_gt_d6
    rw [lt_div_iff₀ (by norm_num : (0 : ℝ) < 1998)]
    linarith

/-- What an element of the `orders` list of `getPendingOrdersInArea` satisfies. -/
theorem mem_getPendingOrdersInArea {K : Type} [LinearOrderedField K] [FloorRing K]
    (M : JsMath K) (regexTest : String → String → Bool) (s : Store) (q : PendingOrdersQuery K)
    (x : PendingOrder K) (hx : x ∈ (getPendingOrdersInArea M regexTest s q).2) :
    x.order ∈ s.orders ∧ x.order.status = "pending" ∧ x.order.assignedWorker = none ∧
    (∀ userLat userLng, q.lat = some userLat → q.lng = some userLng →
      (x.order.location.coordinates = none ∧ x.distance = none) ∨
      (∃ c, x.order.location.coordinates = some c ∧
        x.distance = some (round2 (calculateDistance M userLat userLng c.lat c.lng)) ∧
        (round2 (calculateDistance M userLat userLng c.lat c.lng) = 0 ∨
          round2 (calculateDistance M userLat userLng c.lat c.lng) ≤ q.radius.getD 10))) := by
  have hquery : ∀ o : Order, o ∈ (s.orders.filter (fun o =>
      o.status == "pending" && o.assignedWorker == none &&
        (if truthy q.area then
          (match o.location.area with
            | some a => regexTest (orElse q.area "") a
            | none => false)
          else true))).insertionSort
      (fun a b => a.scheduledDate < b.scheduledDate ∨
        (a.scheduledDate = b.scheduledDate ∧ ¬ b.scheduledTime < a.scheduledTime)) →
      o ∈ s.orders ∧ o.status = "pending" ∧ o.assignedWorker = none := by
    intro o ho
    rw [List.mem_insertionSort, List.mem_filter] at ho
    simp only [Bool.and_eq_true, beq_iff_eq] at ho
    exact ⟨ho.1, ho.2.1.1, ho.2.1.2⟩
  unfold getPendingOrdersInArea at hx
  cases hlat : q.lat with
  | none =>
    simp only [hlat, List.mem_map] at hx
    obtain ⟨o, ho, rfl⟩ := hx
    obtain ⟨h1, h2, h3⟩ := hquery o ho
    exact ⟨h1, h2, h3, fun _ _ h => by simp at h⟩
  | some userLat =>
    cases hlng : q.lng with
    | none =>
      simp only [hlat, hlng, List.mem_map] at hx
      obtain ⟨o, ho, rfl⟩ := hx
      obtain ⟨h1, h2, h3⟩ := hquery o ho
      exact ⟨h1, h2, h3, fun _ _ _ h => by simp at h⟩
    | some userLng =>
      simp only [hlat, hlng] at hx
      rw [List.mem_insertionSort, List.mem_filter, List.mem_map] at hx
      obtain ⟨⟨o, ho, rfl⟩, hkeep⟩ := hx
      obtain ⟨h1, h2, h3⟩ := hquery o ho
      cases hc : o.location.coordinates with
      | none =>
        simp only [hc]
        refine ⟨h1, h2, h3, fun _ _ _ _ => Or.inl ⟨trivial, trivial⟩⟩
      | some c =>
        simp only [hc] at hkeep ⊢
        refine ⟨h1, h2, h3, ?_⟩
        intro a b ha hb
        simp only [Option.some.injEq] at ha hb
        subst ha hb
        right
        refine ⟨c, rfl, rfl, ?_⟩
        simp only [distanceOrZero, Option.getD_some, Bool.or_eq_true, beq_iff_eq,
          decide_eq_true_eq, Option.some.injEq, reduceCtorEq, false_or] at hkeep
        exact hkeep

/-- With a worker at the origin and radius 5, `getPendingOrdersInArea` returns
the order stored without coordinates, with a null distance. -/
theorem getPendingOrdersInArea_exNoCoordinates :
    (getPendingOrdersInArea realMath (fun _ _ => true)
        { orders := [exNoCoordinates], users := [], scans := [] }
        { area := none, lat := some 0, lng := some 0, radius := some 5 }).2 =
      [{ order := exNoCoordinates, distance := none }] := by
  have h1 : (exNoCoordinates.status == "pending") = true := by decide
  have h2 : (exNoCoordinates.assignedWorker == none) = true := by decide
  have h3 : exNoCoordinates.location.coordinates = none := rfl
  simp [getPendingOrdersInArea, truthy, h1, h2, h3]

/-- C20 (as stated, refuted). A worker at the origin asks for the pending
orders within 5 km.  The stored pending, unassigned order `o5` has no
coordinates; it is returned, with `distance` null, so it is not an order
lying within the radius of the position. -/
theorem pendingOrders_without_coordinates :
    exNoCoordinates.location.coordinates = none ∧
    (getPendingOrdersInArea realMath (fun _ _ => true)
        { orders := [exNoCoordinates], users := [], scans := [] }
        { area := none, lat := some 0, lng := some 0, radius := some 5 }).2.map
      (fun x => (x.order._id, x.distance)) = [("o5", none)] := by
  refine ⟨rfl, ?_⟩
  rw [getPendingOrdersInArea_exNoCoordinates]
  rfl

/-- C20 (amended). For every `Math` object, store and query, each order that
`getPendingOrdersInArea` returns is a stored order with `status = pending`
and no assigned worker.  When a position is supplied, a returned order either
has no coordinates (it is returned with a null distance) or has a Haversine
distance from the position whose rounding to two decimals is 0 or at most the
radius (default 10); for a non-negative radius the distance itself is then
less than the radius plus 0.005 km. -/
theorem pendingOrders_spec {K : Type} [LinearOrderedField K] [FloorRing K]
    (M : JsMath K) (regexTest : String → String → Bool) (s : Store) (q : PendingOrdersQuery K)
    (x : PendingOrder K) (hx : x ∈ (getPendingOrdersInArea M regexTest s q).2) :
    x.order ∈ s.orders ∧ x.order.status = "pending" ∧ x.order.assignedWorker = none ∧
    (∀ userLat userLng, q.lat = some userLat → q.lng = some userLng →
      (x.order.location.coordinates = none ∧ x.distance = none) ∨
      (∃ c, x.order.location.coordinates = some c ∧
        x.distance = some (round2 (calculateDistance M userLat userLng c.lat c.lng)) ∧
        (round2 (calculateDistance M userLat userLng c.lat c.lng) = 0 ∨
          round2 (calculateDistance M userLat userLng c.lat c.lng) ≤ q.radius.getD 10) ∧
        (0 ≤ q.radius.getD 10 →
          calculateDistance M userLat userLng c.lat c.lng < q.radius.getD 10 + 1 / 200))) := by
  obtain ⟨h1, h2, h3, h4⟩ := mem_getPendingOrdersInArea M regexTest s q x hx
  refine ⟨h1, h2, h3, ?_⟩
  intro userLat userLng hlat hlng
  rcases h4 userLat userLng hlat hlng with h | ⟨c, hc, hd, hr⟩
  · exact Or.inl h
  · right
    refine ⟨c, hc, hd, hr, ?_⟩
    intro hr0
    apply round2_le
    rcases hr with h | h
    · rw [h]; exact hr0
    · exact h

/-- C20, witness: the order without coordinates in the answer to a worker at
the origin. -/
theorem pendingOrders_spec_witness :
    ({ order := exNoCoordinates, distance := none } : PendingOrder ℝ) ∈
      (getPendingOrdersInArea realMath (fun _ _ => true)
        { orders := [exNoCoordinates], users := [], scans := [] }
        { area := none, lat := some 0, lng := some 0, radius := some 5 }).2 ∧
    exNoCoordinates.status = "pending" ∧ exNoCoordinates.assignedWorker = none :=
  ⟨by rw [getPendingOrdersInArea_exNoCoordinates]; exact List.mem_singleton_self _,
    (pendingOrders_spec realMath (fun _ _ => true)
      { orders := [exNoCoordinates], users := [], scans := [] }
      { area := none, lat := some 0, lng := some 0, radius := some 5 }
      { order := exNoCoordinates, distance := none }
      (by rw [getPendingOrdersInArea_exNoCoordinates]; exact List.mem_singleton_self _)).2.1,
    (pendingOrders_spec realMath (fun _ _ => true)
      { orders := [exNoCoordinates], users := [], scans := [] }
      { area := none, lat := some 0, lng := some 0, radius := some 5 }
      { order := exNoCoordinates, distance := none }
      (by rw [getPendingOrdersInArea_exNoCoordinates]; exact List.mem_singleton_self _)).2.2.1⟩

/-- The score test of `rateOrder` passes exactly for a supplied score between
1 and 5. -/
theorem rateOrder_score_test (score : Option Rat) :
    (! truthyNum score || decide (score.getD 0 < 1) || decide (score.getD 0 > 5)) = false ↔
      ∃ sc, score = some sc ∧ 1 ≤ sc ∧ sc ≤ 5 := by
  cases score with
  | none => simp [truthyNum]
  | some sc =>
    have h0 : 1 ≤ sc → sc ≠ 0 := fun h e => by rw [e] at h; norm_num at h
    by_cases h1 : 1 ≤ sc
    · by_cases h2 : sc ≤ 5
      · simp [truthyNum, h1, h2, h0 h1, not_lt.mpr h1, not_lt.mpr h2]
      · simp [truthyNum, h2, lt_of_not_le h2]
    · simp [truthyNum, h1, lt_of_not_le h1]

/-- The handler `rateOrder` on a key that passed the cast and addresses the
stored order `o`: the answer is 200 if and only if the caller owns `o`, the
status of `o` is `completed` and a score with 1 <= score <= 5 is supplied; on
success the rating of the order with the `_id` of `o` becomes the score and
feedback of the request, stamped with the current instant; in every other
case the answer is a failure (`success: false`, status 400 or 404) and the
whole store is unchanged. -/
theorem rateOrder_spec (s : Store) (now : Timestamp) (req : RateRequest) (o : Order)
    (hmem : o ∈ s.orders) (hkey : matchesKey req.orderId o = true)
    (huniq : ∀ x ∈ s.orders, matchesKey req.orderId x = true → x = o) :
    ((rateOrder s now req).1.status = 200 ↔
        (o.user = req.userId ∧ o.status = "completed" ∧
          ∃ sc, req.score = some sc ∧ 1 ≤ sc ∧ sc ≤ 5)) ∧
    ((rateOrder s now req).1.status = 200 →
        (rateOrder s now req).2 =
          { s with orders := s.orders.map (fun x => if x._id = o._id then
              { x with rating := { score := req.score
                                   feedback := some (orElse req.feedback "")
                                   ratedAt := some now }
                       updatedAt := now } else x) }) ∧
    ((rateOrder s now req).1.status ≠ 200 →
        (rateOrder s now req).1.success = false ∧
        ((rateOrder s now req).1.status = 400 ∨ (rateOrder s now req).1.status = 404) ∧
        (rateOrder s now req).2 = s) := by
  have hfind := find?_of_unique s.orders (matchesKey req.orderId)
    (fun x => x.user == req.userId) o hmem hkey huniq
  have hscore := rateOrder_score_test req.score
  unfold rateOrder
  rw [hfind]
  by_cases ht : (! truthyNum req.score || decide (req.score.getD 0 < 1) ||
      decide (req.score.getD 0 > 5)) = true
  · have hno : ¬ ∃ sc, req.score = some sc ∧ 1 ≤ sc ∧ sc ≤ 5 := by
      rw [← hscore, ht]; simp
    simp only [ht, if_true]
    simp [fail, hno]
  · have ht2 : (! truthyNum req.score || decide (req.score.getD 0 < 1) ||
        decide (req.score.getD 0 > 5)) = false := by simpa using ht
    have hyes := hscore.mp ht2
    simp only [ht2, Bool.false_eq_true, if_false]
    by_cases hu : o.user = req.userId
    · by_cases hs : o.status = "completed"
      · simp [hu, hs, hyes, ok, updateOrderById]
      · simp [hu, hs, fail]
    · simp [hu, fail]

/-- C26 (as stated, refuted). The owner rates the completed example order
with 4 and the rating is stored; a later `rateOrder` call of the owner on the
same order with score 1 answers 200 and the stored score and feedback become
those of the later call: `rateOrder` has no test for an existing rating. -/
theorem rateOrder_overwrites_rating :
    ((rateOrder exStore 77 exRate).2.orders.find? (fun o => o._id == "o4")).map
        (fun o => o.rating) =
      some { score := some 4, feedback := some "on time", ratedAt := some 77 } ∧
    (rateOrder (rateOrder exStore 77 exRate).2 88 exRateAgain).1.status = 200 ∧
    ((rateOrder (rateOrder exStore 77 exRate).2 88 exRateAgain).2.orders.find?
        (fun o => o._id == "o4")).map (fun o => o.rating) =
      some { score := some 1, feedback := some "changed my mind", ratedAt := some 88 } := by
  decide

/-- The handler `rateOrder` on a key that passed the cast: a request of the
owner of the completed order `o` with a score between 1 and 5 is answered 200
and afterwards the order with the `_id` of `o` is stored with the score and
the feedback of this request, whatever rating it had before. -/
theorem rateOrder_replaces_rating (s : Store) (now : Timestamp) (req : RateRequest) (o : Order)
    (sc : Rat) (hmem : o ∈ s.orders) (hkey : matchesKey req.orderId o = true)
    (huniq : ∀ x ∈ s.orders, matchesKey req.orderId x = true → x = o)
    (hu : o.user = req.userId) (hs : o.status = "completed")
    (hsc : req.score = some sc) (h1 : 1 ≤ sc) (h5 : sc ≤ 5) :
    (rateOrder s now req).1.status = 200 ∧
    (∃ x ∈ (rateOrder s now req).2.orders, x._id = o._id) ∧
    ∀ x ∈ (rateOrder s now req).2.orders, x._id = o._id →
      x.rating = { score := some sc, feedback := some (orElse req.feedback ""),
                   ratedAt := some now } := by
  have hfind := find?_of_unique s.orders (matchesKey req.orderId)
    (fun x => x.user == req.userId) o hmem hkey huniq
  have hscore := (rateOrder_score_test req.score).mpr ⟨sc, hsc, h1, h5⟩
  unfold rateOrder
  rw [hfind]
  simp only [hscore, Bool.false_eq_true, if_false]
  simp only [hu, hs, beq_self_eq_true, if_true, bne_self_eq_false, Bool.false_eq_true, if_false,
    ok, updateOrderById, List.mem_map, true_and]
  refine ⟨⟨_, ⟨o, hmem, rfl⟩, by simp⟩, ?_⟩
  rintro x ⟨y, _, rfl⟩ hid
  by_cases hy : y._id = o._id
  · simp [hy, hsc]
  · simp only [hy, if_false] at hid

/-- The owner filter finds nothing for a caller who does not own the order
that the key identifies. -/
theorem findOwned_not_owner (s : Store) (key : String) (u : ObjectId) (o : Order)
    (hmem : o ∈ s.orders) (hkey : matchesKey key o = true)
    (huniq : ∀ x ∈ s.orders, matchesKey key x = true → x = o) (hown : o.user ≠ u) :
    s.orders.find? (fun x => matchesKey key x && x.user == u) = none := by
  rw [find?_of_unique s.orders (matchesKey key) (fun x => x.user == u) o hmem hkey huniq]
  simp [hown]

/-- C24. Let the key identify the stored order `o` and let `u` be a user who
does not own `o`.  Called by `u` with that key, `getOrderById` and
`trackOrder` answer 404 `Order not found` with no order, no worker and no
live tracking in the answer; `cancelOrder` answers 404 `Order not found`;
`rateOrder` answers 404 `Order not found`, or 400 when the score of the
request is not between 1 and 5; the answers are these constants, so nothing
of `o` is in them, and the two writing handlers leave the whole store, hence
`o`, unchanged (the two reading handlers have no store to return). -/
theorem owner_only_access {K : Type} [LinearOrderedField K] [FloorRing K] (M : JsMath K)
    (s : Store) (now : Timestamp) (key : String) (u : ObjectId) (o : Order)
    (hmem : o ∈ s.orders) (hkey : matchesKey key o = true)
    (huniq : ∀ x ∈ s.orders, matchesKey key x = true → x = o) (hown : o.user ≠ u) :
    (getOrderById s { userId := u, orderId := key } =
      { status := 404, success := false, message := some "Order not found", order := none,
        assignedWorker := none }) ∧
    ((trackOrder M s { userId := u, orderId := key }).status = 404 ∧
      (trackOrder M s { userId := u, orderId := key }).success = false ∧
      (trackOrder M s { userId := u, orderId := key }).message = some "Order not found" ∧
      (trackOrder M s { userId := u, orderId := key }).order = none ∧
      (trackOrder M s { userId := u, orderId := key }).worker = none ∧
      (trackOrder M s { userId := u, orderId := key }).liveTracking = none) ∧
    (∀ reason, cancelOrder s now { userId := u, orderId := key, reason := reason } =
      (fail 404 "Order not found", s)) ∧
    (∀ score feedback,
      rateOrder s now { userId := u, orderId := key, score := score, feedback := feedback } =
        (fail 404 "Order not found", s) ∨
      rateOrder s now { userId := u, orderId := key, score := score, feedback := feedback } =
        (fail 400 "Please provide a rating between 1 and 5", s)) := by
  have hnone := findOwned_not_owner s key u o hmem hkey huniq hown
  refine ⟨?_, ?_, ?_, ?_⟩
  · simp only [getOrderById, findOwned, hnone]
  · simp only [trackOrder, findOwned, hnone, and_self]
  · intro reason
    simp only [cancelOrder, hnone]
  · intro score feedback
    unfold rateOrder
    simp only [hnone]
    split_ifs
    · right; rfl
    · left; rfl

/-- C24, witness: the second customer asks for the tracked order of the first. -/
theorem owner_only_access_witness :
    getOrderById exTrackStore { userId := "u2", orderId := "o6" } =
      { status := 404, success := false, message := some "Order not found", order := none,
        assignedWorker := none } :=
  (owner_only_access realMath exTrackStore 0 "o6" "u2" exTracked (by simp [exTrackStore])
    (by decide) (by decide) (by decide)).1

/-- The distance written inline in `trackOrder` is `calculateDistance` from
the worker's position to the destination. -/
theorem trackDistance_eq {K : Type} [LinearOrderedField K] [FloorRing K] (M : JsMath K)
    (userLat userLng workerLat workerLng : K) :
    trackDistance M userLat userLng workerLat workerLng =
      calculateDistance M workerLat workerLng userLat userLng := rfl

/-- The function `Math.round` is within one half of its argument. -/
theorem jsRound_nearest {K : Type} [LinearOrderedField K] [FloorRing K] (x : K) :
    |((jsRound x : Int) : K) - x| ≤ 1 / 2 := by
  unfold jsRound
  have h1 := Int.floor_le (x + 1 / 2)
  have h2 := Int.lt_floor_add_one (x + 1 / 2)
  rw [abs_le]
  constructor <;> linarith

/-- C21. Let the key of the request identify the stored order `o`, owned by
the caller, with destination `dest` (`location.coordinates`), and let the
worker assigned to `o` share a position `pos`.  Then `trackOrder` answers 200
and the `eta` of its `liveTracking` is `Math.round` of the Haversine distance
(`calculateDistance`, radius 6371 km) from `pos` to `dest`, divided by 25 and
multiplied by 60: an integer within half a minute of that quotient. -/
theorem trackOrder_eta {K : Type} [LinearOrderedField K] [FloorRing K] (M : JsMath K)
    (s : Store) (req : OrderKeyRequest) (o : Order) (wid : ObjectId) (w : User)
    (dest pos : Coordinates)
    (hmem : o ∈ s.orders) (hkey : matchesKey req.orderId o = true)
    (huniq : ∀ x ∈ s.orders, matchesKey req.orderId x = true → x = o)
    (hown : o.user = req.userId)
    (hworker : o.assignedWorker = some wid) (hw : findUserById s wid = some w)
    (hshare : w.liveLocation.isSharing = true)
    (hdest : o.location.coordinates = some dest)
    (hpos : w.liveLocation.coordinates = some pos) :
    (trackOrder M s req).status = 200 ∧
    (trackOrder M s req).liveTracking.bind (fun t => t.eta) =
      some (jsRound (calculateDistance M (pos.lat : K) (pos.lng : K) (dest.lat : K)
        (dest.lng : K) / 25 * 60)) ∧
    |((jsRound (calculateDistance M (pos.lat : K) (pos.lng : K) (dest.lat : K)
        (dest.lng : K) / 25 * 60) : Int) : K) -
      calculateDistance M (pos.lat : K) (pos.lng : K) (dest.lat : K) (dest.lng : K) / 25 * 60| ≤
      1 / 2 := by
  have hfind : findOwned s req.orderId req.userId = some o := by
    unfold findOwned
    rw [find?_of_unique s.orders (matchesKey req.orderId) (fun x => x.user == req.userId) o hmem
      hkey huniq]
    simp [hown]
  refine ⟨?_, ?_, jsRound_nearest _⟩
  · simp only [trackOrder, hfind]
  · simp [trackOrder, hfind, populateWorker, hworker, hw, liveTracking, hshare, hdest, hpos,
      trackDistance_eq]

/-- C21, witness: the owner tracks the example order whose worker shares the
position (19.01, 72); the destination is (19, 72). -/
theorem trackOrder_eta_witness :
    (trackOrder realMath exTrackStore { userId := "u1", orderId := "o6" }).liveTracking.bind
        (fun t => t.eta) =
      some (jsRound (calculateDistance realMath (((1901 / 100 : Rat)) : ℝ) ((72 : Rat) : ℝ)
        ((19 : Rat) : ℝ) ((72 : Rat) : ℝ) / 25 * 60)) :=
  (trackOrder_eta realMath exTrackStore { userId := "u1", orderId := "o6" } exTracked "w5"
    exSharing { lat := 19, lng := 72 } { lat := 1901 / 100, lng := 72 }
    (by simp [exTrackStore]) (by decide) (by decide) rfl rfl rfl rfl rfl rfl).2.1

/-- Reading a user back after a modification of the users with that `_id`. -/
theorem findUserById_updateUserById (s : Store) (id : ObjectId) (f : User → User)
    (hf : ∀ u, (f u)._id = u._id) :
    findUserById (updateUserById s id f) id = (findUserById s id).map f := by
  unfold findUserById updateUserById
  simp only
  induction s.users with
  | nil => rfl
  | cons a t ih =>
    by_cases h : a._id = id
    · simp [List.find?, h, hf]
    · have hb : (a._id == id) = false := by simpa using h
      simp [List.find?, h, hb, ih]

/-- The user that `findUserById` returns has the `_id` asked for. -/
theorem findUserById_id (s : Store) (id : ObjectId) (u : User)
    (h : findUserById s id = some u) : u._id = id := by
  have := List.find?_some h
  simpa using this

/-- C23. For every stored worker or driver (whose stored `workerInfo.status`
is a value of the schema, as `save()` requires), `toggleDutyStatus` with
`isOnDuty = false` answers 200 and afterwards the stored user is off duty,
`liveLocation.isSharing` is false and `liveLocation.coordinates` is (0, 0),
whatever the flags and the position were before. -/
theorem toggleDutyStatus_off (s : Store) (req : DutyRequest) (user : User)
    (hfind : findUserById s req.userId = some user)
    (hrole : user.role = "WORKER" ∨ user.role = "DRIVER")
    (hvalid : user.workerInfo.status ∈ workerStatusEnum)
    (hoff : req.isOnDuty = false) :
    (toggleDutyStatus s req).1 = ok 200 "You are now off duty" ∧
    ∃ u, findUserById (toggleDutyStatus s req).2 req.userId = some u ∧
      u.workerInfo.isOnDuty = false ∧ u.liveLocation.isSharing = false ∧
      u.liveLocation.coordinates = some { lat := 0, lng := 0 } := by
  have hid := findUserById_id s req.userId user hfind
  have hr : ["WORKER", "DRIVER"].contains user.role = true := by
    rcases hrole with h | h <;> simp [h]
  have hv : workerStatusEnum.contains user.workerInfo.status = true := by
    simpa using hvalid
  unfold toggleDutyStatus
  simp only [hfind, hr, hoff, Bool.not_true, Bool.not_false, Bool.false_eq_true, if_false,
    if_true, saveUser, userValidationError, hv, hid]
  refine ⟨trivial, ?_⟩
  rw [findUserById_updateUserById, hfind]
  · exact ⟨_, rfl, rfl, rfl, rfl⟩
  · intro u; rfl

/-- C23, witness: the sharing worker at (19.01, 72) goes off duty. -/
theorem toggleDutyStatus_off_witness :
    (toggleDutyStatus exTrackStore { userId := "w5", isOnDuty := false }).1 =
      ok 200 "You are now off duty" ∧
    ∃ u, findUserById (toggleDutyStatus exTrackStore { userId := "w5", isOnDuty := false }).2
        "w5" = some u ∧
      u.workerInfo.isOnDuty = false ∧ u.liveLocation.isSharing = false ∧
      u.liveLocation.coordinates = some { lat := 0, lng := 0 } :=
  toggleDutyStatus_off exTrackStore { userId := "w5", isOnDuty := false } exSharing rfl
    (Or.inl rfl) (by decide) rfl

/-- C30 (the code diverges). The stored worker `w4` is off duty and not
sharing.  One `updateLiveLocation` call of that worker with a position and no
`isSharing` field answers 200 and stores `isSharing = true` while `isOnDuty`
stays false: the reached state breaks the invariant.  `updateLiveLocation`
never reads `workerInfo.isOnDuty`. -/
theorem updateLiveLocation_shares_off_duty :
    (findUserById exTrackStore "w4").map
        (fun u => (u.workerInfo.isOnDuty, u.liveLocation.isSharing)) = some (false, false) ∧
    (updateLiveLocation exTrackStore 60 exReport).1 = ok 200 "Live location updated" ∧
    (findUserById ((WorkerOp.updateLiveLocation 60 exReport).run exTrackStore) "w4").map
        (fun u => (u.workerInfo.isOnDuty, u.liveLocation.isSharing)) = some (false, true) ∧
    ¬ ∀ u ∈ ((WorkerOp.updateLiveLocation 60 exReport).run exTrackStore).users,
        dutyInvariant u := by
  refine ⟨by decide, by decide, by decide, ?_⟩
  decide

/-- C27 (the code diverges). Worker `w1` has two assigned orders in the
example store, one `arrived` and one `completed` (both values of the schema
enum).  Without a status filter `getMyAssignedOrders` returns both: the
default filter excludes the strings `COMPLETED`, `CANCELLED` and `FAILED`,
which no stored status equals, so it lets every order with a status of the
schema through. -/
theorem getMyAssignedOrders_lists_completed :
    exCompleted ∈ exStore.orders ∧ exCompleted.status ∈ orderStatusEnum ∧
    (getMyAssignedOrders exStore { userId := "w1", status := none }).2.map
        (fun o => (o.id, o.status)) = [("o3", "arrived"), ("o4", "completed")] ∧
    ∀ o : Order, o.status ∈ orderStatusEnum → assignedStatusFilter none o = true := by
  refine ⟨by simp [exStore], by decide, ?_, ?_⟩
  swap
  · intro o ho
    simp only [orderStatusEnum, List.mem_cons, List.mem_singleton, List.not_mem_nil,
      or_false] at ho
    rcases ho with h | h | h | h | h | h | h <;> simp [assignedStatusFilter, truthy, h]
  have hf : exStore.orders.filter (fun o =>
      o.assignedWorker == some "w1" && assignedStatusFilter none o) =
      [exArrived, exCompleted] := by decide
  have hle : scheduleLe exArrived exCompleted := Or.inr ⟨rfl, le_refl _⟩
  simp only [getMyAssignedOrders, hf, List.insertionSort, List.orderedInsert, hle, if_true]
  decide

/-- A sequence of `updateOrderStatus` calls leaves the store as it was. -/
theorem runStatusCalls_inert (calls : List (Timestamp × UpdateStatusRequest)) (s : Store) :
    runStatusCalls s calls = s := by
  unfold runStatusCalls
  induction calls generalizing s with
  | nil => rfl
  | cons c cs ih =>
    simp only [List.foldl]
    rw [(updateOrderStatus_inert s c.1 c.2).1]
    exact ih s

/-- C28. Over any sequence of `updateOrderStatus` calls (on one order or on
several), starting from any store, the points of the owner of an order `o`
grow by at most `o.ecoPointsEarned` and the completed-order counter of any
worker grows by at most 1.  In fact nothing is credited at all: the store
after the calls is the store before them, because every call whose status
change would be saved throws on the undeclared `statusHistory` first. -/
theorem completion_credited_at_most_once (s : Store)
    (calls : List (Timestamp × UpdateStatusRequest)) (o : Order) (worker : ObjectId)
    (hpts : 0 ≤ o.ecoPointsEarned) :
    ((pointsOf (runStatusCalls s calls) o.user : Int) ≤ pointsOf s o.user + o.ecoPointsEarned) ∧
    completedOrdersOf (runStatusCalls s calls) worker ≤ completedOrdersOf s worker + 1 ∧
    runStatusCalls s calls = s := by
  rw [runStatusCalls_inert]
  exact ⟨by linarith, Nat.le_succ _, rfl⟩

/-- C28, witness: worker `w1` asks twice to complete the order at which he has
arrived. -/
theorem completion_credited_at_most_once_witness :
    ((pointsOf (runStatusCalls exStore exCompleteTwice) exArrived.user : Int) ≤
      pointsOf exStore exArrived.user + exArrived.ecoPointsEarned) ∧
    completedOrdersOf (runStatusCalls exStore exCompleteTwice) "w1" ≤
      completedOrdersOf exStore "w1" + 1 ∧
    runStatusCalls exStore exCompleteTwice = exStore :=
  completion_credited_at_most_once exStore exCompleteTwice exArrived "w1" (by decide)

/-- An accepted scan validation returns the record stored under the supplied,
non-empty `scanId`. -/
theorem scanBinding_ok (s : Store) (now : Timestamp) (input : Option ScanDataInput)
    (scanRecord : ScanHistory) (h : scanBinding s now input = Except.ok scanRecord) :
    ∃ id, input.bind (fun x => x.scanId) = some id ∧ id ≠ "" ∧
      findScanById s id = some scanRecord := by
  unfold scanBinding at h
  cases hi : input.bind (fun x => x.scanId) with
  | none => simp [hi] at h
  | some scanId =>
    simp only [hi] at h
    split_ifs at h with h1
    cases hf : findScanById s scanId with
    | none => simp [hf] at h
    | some found =>
      simp only [hf] at h
      split_ifs at h
      simp only [Except.ok.injEq] at h
      exact ⟨scanId, rfl, h1, by rw [← h]; exact hf⟩

/-- An accepted `createOrder` appends one order, whose `scanData` is the
snapshot of the record stored under the `scanId` of the request. -/
theorem createOrder_snapshot (s : Store) (env : Env) (req : CreateOrderRequest)
    (h : (createOrder s env req).1.status = 201) :
    ∃ id scanRecord order, req.scanData.bind (fun x => x.scanId) = some id ∧
      findScanById s id = some scanRecord ∧
      (createOrder s env req).2.orders = s.orders ++ [order] ∧
      order.scanData = scanSnapshot id scanRecord req.scanData := by
  unfold createOrder at h ⊢
  cases hu : findUserById s req.userId with
  | none => simp [hu, fail] at h
  | some user =>
    simp only [hu] at h ⊢
    cases hg : subscriptionGate user (monthlyOrders s req.userId env.monthStart) with
    | some r => simp [hg, subscriptionGate_status user _ r hg] at h
    | none =>
      simp only [hg] at h ⊢
      cases hb : scanBinding s env.now req.scanData with
      | error r => simp [hb, (scanBinding_status s env.now req.scanData r hb).1] at h
      | ok scanRecord =>
        simp only [hb] at h ⊢
        cases hv : validateFields req with
        | some r => simp [hv, (validateFields_status req r hv).1] at h
        | none =>
          simp only [hv] at h ⊢
          obtain ⟨id, hid, hne, hrec⟩ := scanBinding_ok s env.now req.scanData scanRecord hb
          have hor : orElse (req.scanData.bind (fun x => x.scanId)) "" = id := by
            rw [hid]; simp [orElse, hne]
          rw [hor] at h ⊢
          cases hi : insertError s (calculateEstimatedValue (newOrder env req id scanRecord)) with
          | some msg => simp [hi, serverError] at h
          | none =>
            simp only [hi]
            refine ⟨id, scanRecord, _, hid, hrec, rfl, ?_⟩
            simp only [calculateEstimatedValue, newOrder]
            split_ifs <;> rfl

/-- The snapshot of a record that has `results` ignores the request. -/
theorem scanSnapshot_of_results (id : ObjectId) (scanRecord : ScanHistory)
    (input : Option ScanDataInput) (h : scanRecord.results ≠ none) :
    scanSnapshot id scanRecord input = scanSnapshot id scanRecord none := by
  unfold scanSnapshot
  cases hr : scanRecord.results with
  | none => exact absurd hr h
  | some r => rfl

/-- C29. Two accepted `createOrder` requests (in one store or in two, with
any callers, fields and client-supplied `scanData.aiAnalysis`) that carry the
same `scanId`, where the scan record stored under it has the same `results`
and `createdAt` in both stores, store orders with identical `scanData`.  The
record is one read through the `ScanHistory` model, on which the nested path
`results` is always present. -/
theorem scan_snapshot_from_record (s1 s2 : Store) (env1 env2 : Env)
    (req1 req2 : CreateOrderRequest) (id : ObjectId) (rec1 rec2 : ScanHistory)
    (h1 : (createOrder s1 env1 req1).1.status = 201)
    (h2 : (createOrder s2 env2 req2).1.status = 201)
    (hid1 : req1.scanData.bind (fun x => x.scanId) = some id)
    (hid2 : req2.scanData.bind (fun x => x.scanId) = some id)
    (hrec1 : findScanById s1 id = some rec1) (hrec2 : findScanById s2 id = some rec2)
    (hres : rec1.results = rec2.results) (hat : rec1.createdAt = rec2.createdAt)
    (hpresent : rec1.results ≠ none) :
    ∃ o1 o2, (createOrder s1 env1 req1).2.orders = s1.orders ++ [o1] ∧
      (createOrder s2 env2 req2).2.orders = s2.orders ++ [o2] ∧
      o1.scanData = o2.scanData ∧ o1.scanData = scanSnapshot id rec1 none := by
  obtain ⟨i1, r1, o1, hi1, hr1, ho1, hs1⟩ := createOrder_snapshot s1 env1 req1 h1
  obtain ⟨i2, r2, o2, hi2, hr2, ho2, hs2⟩ := createOrder_snapshot s2 env2 req2 h2
  rw [hid1] at hi1
  rw [hid2] at hi2
  cases hi1
  cases hi2
  rw [hrec1] at hr1
  rw [hrec2] at hr2
  cases hr1
  cases hr2
  have hpresent2 : rec2.results ≠ none := by rw [← hres]; exact hpresent
  refine ⟨o1, o2, ho1, ho2, ?_, ?_⟩
  · rw [hs1, hs2, scanSnapshot_of_results _ _ _ hpresent, scanSnapshot_of_results _ _ _ hpresent2]
    simp only [scanSnapshot, hres, hat]
  · rw [hs1, scanSnapshot_of_results _ _ _ hpresent]

/-- C29, witness: the example request and the same request with an analysis
made up by the client, both on the example store. -/
theorem scan_snapshot_from_record_witness :
    ∃ o1 o2, (createOrder exStore exEnv exCreate).2.orders = exStore.orders ++ [o1] ∧
      (createOrder exStore exEnv exCreateForged).2.orders = exStore.orders ++ [o2] ∧
      o1.scanData = o2.scanData ∧ o1.scanData = scanSnapshot "s1" exScan none :=
  scan_snapshot_from_record exStore exStore exEnv exEnv exCreate exCreateForged "s1" exScan exScan
    (by decide) (by decide) rfl rfl rfl rfl rfl rfl (by decide)

/-- The cosine of the latitude 19.076 degrees lies between 0.9439 and 0.9453. -/
theorem cos_latitude_bounds :
    (9439 / 10000 : ℝ) < Real.cos (4769 * Real.pi / 45000) ∧
      Real.cos (4769 * Real.pi / 45000) < 9453 / 10000 := by
  have hpi1 := Real.pi_gt_d6
  have hpi2 := Real.pi_lt_d6
  have hx_lo : (33293 / 100000 : ℝ) < 4769 * Real.pi / 45000 := by
    rw [lt_div_iff₀ (by norm_num : (0 : ℝ) < 45000)]; linarith
  have hx_hi : 4769 * Real.pi / 45000 < (33294 / 100000 : ℝ) := by
    rw [div_lt_iff₀ (by norm_num : (0 : ℝ) < 45000)]; linarith
  have hpos : (0 : ℝ) < 4769 * Real.pi / 45000 := by linarith
  have hb := Real.cos_bound (x := 4769 * Real.pi / 45000) (by rw [abs_of_pos hpos]; linarith)
  rw [abs_of_pos hpos, abs_le] at hb
  have h2_hi : (4769 * Real.pi / 45000) ^ 2 ≤ (33294 / 100000 : ℝ) ^ 2 :=
    pow_le_pow_left₀ hpos.le hx_hi.le 2
  have h2_lo : (33293 / 100000 : ℝ) ^ 2 ≤ (4769 * Real.pi / 45000) ^ 2 :=
    pow_le_pow_left₀ (by norm_num) hx_lo.le 2
  have h4_hi : (4769 * Real.pi / 45000) ^ 4 ≤ (33294 / 100000 : ℝ) ^ 4 :=
    pow_le_pow_left₀ hpos.le hx_hi.le 4
  have e1 : (9439 / 10000 : ℝ) <
      1 - (33294 / 100000 : ℝ) ^ 2 / 2 - (33294 / 100000 : ℝ) ^ 4 * (5 / 96) := by norm_num
  have e2 : 1 - (33293 / 100000 : ℝ) ^ 2 / 2 + (33294 / 100000 : ℝ) ^ 4 * (5 / 96) <
      (9453 / 10000 : ℝ) := by norm_num
  constructor
  · nlinarith [hb.1]
  · nlinarith [hb.2]

/-- The sine of half the longitude difference of 0.01 degrees. -/
theorem sin_half_step_bounds :
    (87265 / 1000000000 : ℝ) < Real.sin (Real.pi / 36000) ∧
      Real.sin (Real.pi / 36000) < 87267 / 1000000000 := by
  have hpi1 := Real.pi_gt_d6
  have hpi2 := Real.pi_lt_d6
  have hx_lo : (87266 / 1000000000 : ℝ) < Real.pi / 36000 := by
    rw [lt_div_iff₀ (by norm_num : (0 : ℝ) < 36000)]; linarith
  have hx_hi : Real.pi / 36000 < (87267 / 1000000000 : ℝ) := by
    rw [div_lt_iff₀ (by norm_num : (0 : ℝ) < 36000)]; linarith
  constructor
  · have h := Real.sin_gt_sub_cube (x := Real.pi / 36000) (by linarith) (by linarith)
    have hcube : (Real.pi / 36000) ^ 3 ≤ (87267 / 1000000000 : ℝ) ^ 3 :=
      pow_le_pow_left₀ (by linarith) hx_hi.le 3
    have : (87267 / 1000000000 : ℝ) ^ 3 / 4 < 1 / 1000000000 := by norm_num
    linarith
  · exact lt_trans (Real.sin_lt (by linarith)) hx_hi

/-- Over the reals the Haversine distance between (19.0760, 72.8777) and
(19.0760, 72.8877) lies between 1.0495 km and 1.0513 km. -/
theorem haversine_example_bounds :
    (10495 / 10000 : ℝ) <
      calculateDistance realMath (19076 / 1000) (728777 / 10000) (19076 / 1000)
        (728877 / 10000) ∧
    calculateDistance realMath (19076 / 1000) (728777 / 10000) (19076 / 1000)
        (728877 / 10000) < (10513 / 10000 : ℝ) := by
  have hpi1 := Real.pi_gt_d6
  have hpi2 := Real.pi_lt_d6
  obtain ⟨hc_lo, hc_hi⟩ := cos_latitude_bounds
  obtain ⟨hs_lo, hs_hi⟩ := sin_half_step_bounds
  have hlat : ((19076 / 1000 : ℝ) - 19076 / 1000) * Real.pi / 180 / 2 = 0 := by ring
  have hlon : ((728877 / 10000 : ℝ) - 728777 / 10000) * Real.pi / 180 / 2 = Real.pi / 36000 := by
    ring
  have hphi : (19076 / 1000 : ℝ) * Real.pi / 180 = 4769 * Real.pi / 45000 := by ring
  simp only [calculateDistance, realMath, hlat, hlon, hphi, Real.sin_zero, mul_zero, zero_add]
  set s := Real.sin (Real.pi / 36000) with hs
  set c := Real.cos (4769 * Real.pi / 45000) with hc
  have ha : c * c * s * s = (c * s) * (c * s) := by ring
  rw [ha]
  have ht_lo : (82369 / 1000000000 : ℝ) < c * s := by
    have h3 : (9439 / 10000 : ℝ) * (87265 / 1000000000) < c * s :=
      mul_lt_mul'' hc_lo hs_lo (by norm_num) (by norm_num)
    have : (82369 / 1000000000 : ℝ) < (9439 / 10000 : ℝ) * (87265 / 1000000000) := by norm_num
    linarith
  have ht_hi : c * s < (82494 / 1000000000 : ℝ) := by
    have h3 : c * s < (9453 / 10000 : ℝ) * (87267 / 1000000000) :=
      mul_lt_mul'' hc_hi hs_hi (by linarith) (by linarith)
    have : (9453 / 10000 : ℝ) * (87267 / 1000000000) < (82494 / 1000000000 : ℝ) := by norm_num
    linarith
  set t := c * s with ht
  have ht0 : 0 ≤ t := by linarith
  have htt : t * t ≤ 1 := by nlinarith
  rw [Real.sqrt_mul_self ht0]
  have hre : (0 : ℝ) ≤ (Complex.mk (Real.sqrt (1 - t * t)) t).re := Real.sqrt_nonneg _
  have habs : Complex.abs (Complex.mk (Real.sqrt (1 - t * t)) t) = 1 := by
    rw [Complex.abs_apply, Complex.normSq_mk, Real.mul_self_sqrt (by linarith)]
    simp
  rw [Complex.arg_of_re_nonneg hre, habs, div_one]
  have him : (Complex.mk (Real.sqrt (1 - t * t)) t).im = t := rfl
  rw [him]
  have hpi2pos : (1 : ℝ) < Real.pi / 2 := by linarith
  have hlow : (82369 / 1000000000 : ℝ) < Real.arcsin t := by
    rw [Real.lt_arcsin_iff_sin_lt ⟨by linarith, by linarith⟩ ⟨by linarith, by linarith⟩]
    exact lt_trans (Real.sin_lt (by norm_num)) ht_lo
  have hhigh : Real.arcsin t < (82500 / 1000000000 : ℝ) := by
    rw [Real.arcsin_lt_iff_lt_sin ⟨by linarith, by linarith⟩ ⟨by linarith, by linarith⟩]
    have h := Real.sin_gt_sub_cube (x := (82500 / 1000000000 : ℝ)) (by norm_num) (by norm_num)
    have : (82494 / 1000000000 : ℝ) <
        82500 / 1000000000 - (82500 / 1000000000 : ℝ) ^ 3 / 4 := by norm_num
    linarith
  constructor <;> linarith

/-- C22. Over the reals `calculateDistance` between (19.0760, 72.8777) and
(19.0760, 72.8877) lies between 1.0495 km and 1.0513 km, so it is 1.05 when
rounded to two decimals, more than 1 km and less than 5 km; the query
`Facility.findNearby` centred on the first point returns a facility at the
second point (with `distance_km = 1.05`) for radius 5 and returns nothing for
radius 1. -/
theorem haversine_example :
    (10495 / 10000 : ℝ) <
      calculateDistance realMath (19076 / 1000) (728777 / 10000) (19076 / 1000)
        (728877 / 10000) ∧
    calculateDistance realMath (19076 / 1000) (728777 / 10000) (19076 / 1000)
        (728877 / 10000) < (10513 / 10000 : ℝ) ∧
    toFixed2 (calculateDistance realMath (19076 / 1000) (728777 / 10000) (19076 / 1000)
        (728877 / 10000) : ℝ) = 105 / 100 ∧
    (1 : ℝ) < calculateDistance realMath (19076 / 1000) (728777 / 10000) (19076 / 1000)
        (728877 / 10000) ∧
    calculateDistance realMath (19076 / 1000) (728777 / 10000) (19076 / 1000)
        (728877 / 10000) < (5 : ℝ) ∧
    ((exNeighbour.location.lat : ℝ) = 19076 / 1000 ∧
      (exNeighbour.location.lng : ℝ) = 728877 / 10000) ∧
    Facility.findNearby realMath [exNeighbour] (19076 / 1000) (728777 / 10000) 5 none =
      [{ facility := exNeighbour, distance_km := 105 / 100 }] ∧
    Facility.findNearby realMath [exNeighbour] (19076 / 1000) (728777 / 10000) 1 none = [] := by
  obtain ⟨hlo, hhi⟩ := haversine_example_bounds
  obtain ⟨hc_lo, hc_hi⟩ := cos_latitude_bounds
  have hlat : ((exNeighbour.location.lat : ℚ) : ℝ) = 19076 / 1000 := by
    norm_num [exNeighbour]
  have hlng : ((exNeighbour.location.lng : ℚ) : ℝ) = 728877 / 10000 := by
    norm_num [exNeighbour]
  have hphi : (19076 / 1000 : ℝ) * Real.pi / 180 = 4769 * Real.pi / 45000 := by ring
  have hd : toFixed2 (calculateDistance realMath (19076 / 1000) (728777 / 10000)
      (19076 / 1000) (728877 / 10000) : ℝ) = 105 / 100 := by
    rw [toFixed2_eq _ 105 (by linarith) (by push_cast; linarith) (by push_cast; linarith)]
    norm_num
  have hbox : inBox realMath (19076 / 1000) (728777 / 10000) 5 exNeighbour.location = true := by
    simp only [inBox, realMath, Bool.and_eq_true, decide_eq_true_eq, hlat, hlng, hphi]
    have hpos : (0 : ℝ) < 111 * Real.cos (4769 * Real.pi / 45000) := by linarith
    have hdiv : (0 : ℝ) ≤ 5 / (111 * Real.cos (4769 * Real.pi / 45000)) := by positivity
    have hwin : (1 / 100 : ℝ) ≤ 5 / (111 * Real.cos (4769 * Real.pi / 45000)) := by
      rw [le_div_iff₀ hpos]; linarith
    refine ⟨⟨⟨?_, ?_⟩, ?_⟩, ?_⟩
    · norm_num
    · norm_num
    · linarith
    · linarith
  have hact : exNeighbour.isActive = true := rfl
  refine ⟨hlo, hhi, hd, by linarith, by linarith, ⟨hlat, hlng⟩, ?_, ?_⟩
  · simp only [Facility.findNearby, List.filter, hact, hbox, truthy, Bool.and_self,
      Bool.false_eq_true, if_false, List.map, hlat, hlng, hd]
    norm_num [List.insertionSort, List.orderedInsert]
  · rw [List.eq_nil_iff_forall_not_mem]
    intro x hx
    obtain ⟨hmem, _, hdist, hle⟩ := Facility.mem_findNearby realMath _ _ _ _ _ x hx
    rw [List.mem_singleton] at hmem
    rw [hmem, hlat, hlng, hd] at hdist
    rw [hdist] at hle
    norm_num at hle

/-- A user of the store after `updateUserById` is a user of the store before,
or the image of one. -/
theorem mem_updateUserById (s : Store) (id : ObjectId) (f : User → User) (u : User)
    (h : u ∈ (updateUserById s id f).users) : u ∈ s.users ∨ ∃ x ∈ s.users, u = f x := by
  simp only [updateUserById, List.mem_map] at h
  obtain ⟨x, hx, rfl⟩ := h
  split_ifs
  · exact Or.inr ⟨x, hx, rfl⟩
  · exact Or.inl hx

/-- The handler `toggleDutyStatus` keeps the invariant: it sets `isSharing`
to the value it gives `isOnDuty`. -/
theorem toggleDutyStatus_keeps_invariant (s : Store) (req : DutyRequest)
    (h : ∀ u ∈ s.users, dutyInvariant u) :
    ∀ u ∈ (toggleDutyStatus s req).2.users, dutyInvariant u := by
  rcases req with ⟨uid, b⟩
  unfold toggleDutyStatus
  cases hf : findUserById s uid with
  | none => exact h
  | some user =>
    dsimp only
    by_cases h1 : (! ["WORKER", "DRIVER"].contains user.role) = true
    · rw [if_pos h1]; exact h
    · rw [if_neg h1]
      unfold saveUser
      cases userValidationError _ with
      | some msg => exact h
      | none =>
        intro u hu
        rcases mem_updateUserById _ _ _ _ hu with hm | ⟨x, _, rfl⟩
        · exact h u hm
        · unfold dutyInvariant
          cases b <;> simp

/-- The handler `updateWorkerStatus` keeps the invariant: where it takes a
worker off duty it also stops the sharing. -/
theorem updateWorkerStatus_keeps_invariant (s : Store) (req : WorkerStatusRequest)
    (h : ∀ u ∈ s.users, dutyInvariant u) :
    ∀ u ∈ (updateWorkerStatus s req).2.users, dutyInvariant u := by
  unfold updateWorkerStatus
  cases hf : findUserById s req.userId with
  | none => exact h
  | some user =>
    have hinv : dutyInvariant user := h user (List.mem_of_find?_eq_some hf)
    dsimp only
    by_cases h1 : (! ["WORKER", "DRIVER"].contains user.role) = true
    · rw [if_pos h1]; exact h
    · rw [if_neg h1]
      by_cases h2 : (truthy req.status &&
          ! validWorkerStatuses.contains (toUpperCase (orElse req.status ""))) = true
      · rw [if_pos h2]; exact h
      · rw [if_neg h2]
        unfold saveUser
        cases userValidationError _ with
        | some msg => exact h
        | none =>
          intro u hu
          rcases mem_updateUserById _ _ _ _ hu with hm | ⟨x, _, rfl⟩
          · exact h u hm
          · unfold dutyInvariant at hinv ⊢
            dsimp only
            split_ifs <;> simp_all

/-- A request of `updateWorkerStatus` that carries a status never writes: the
handler stores the upper-cased status, which is not a value of the schema
enum, so `save()` rejects the document and the answer is 500 (or 404 or 400
earlier). -/
theorem updateWorkerStatus_status_rejected (s : Store) (req : WorkerStatusRequest)
    (hst : truthy req.status = true) :
    (updateWorkerStatus s req).2 = s ∧ (updateWorkerStatus s req).1.status ≠ 200 := by
  unfold updateWorkerStatus
  cases hf : findUserById s req.userId with
  | none => simp [fail]
  | some user =>
    dsimp only
    by_cases h1 : (! ["WORKER", "DRIVER"].contains user.role) = true
    · rw [if_pos h1]; simp [fail]
    · rw [if_neg h1]
      by_cases h2 : (truthy req.status &&
          ! validWorkerStatuses.contains (toUpperCase (orElse req.status ""))) = true
      · rw [if_pos h2]; simp [fail]
      · rw [if_neg h2]
        have hv : validWorkerStatuses.contains (toUpperCase (orElse req.status "")) = true := by
          simpa [hst] using h2
        have hne : workerStatusEnum.contains (toUpperCase (orElse req.status "")) = false := by
          generalize toUpperCase (orElse req.status "") = v at hv
          have hm : v ∈ validWorkerStatuses := by simpa using hv
          simp only [validWorkerStatuses, List.mem_cons, List.mem_singleton, List.not_mem_nil,
            or_false] at hm
          rcases hm with h | h | h | h <;> rw [h] <;> decide
        simp only [hst, if_true, Bool.true_and, saveUser, userValidationError]
        split_ifs <;> simp_all [serverError]

/-- On a key that passes the cast the handler is its body. -/
theorem cancelOrder_cast_of_objectId (s : Store) (now : Timestamp) (req : CancelRequest)
    (h : isObjectId req.orderId = true) :
    Cast.cancelOrder s now req = EcoSystem.cancelOrder s now req := by
  simp [Cast.cancelOrder, h]

/-- On a key that fails the cast `cancelOrder` answers 500 and writes nothing. -/
theorem cancelOrder_cast_malformed (s : Store) (now : Timestamp) (req : CancelRequest)
    (h : isObjectId req.orderId = false) :
    Cast.cancelOrder s now req = (castError req.orderId "_id" "Order", s) := by
  simp [Cast.cancelOrder, h]

/-- C9 (the code diverges). The customer owns the pending order with the code
`ORD-250101-ABC123`, the only identifier of the order that `createOrder`
returns.  Cancelling it by that code is answered 500 with the cast error of
the filter and the order stays pending; the same request with the `_id` of
the order is answered 200 and the order is then stored as `cancelled`. -/
theorem cancelOrder_by_code_fails :
    hexPending ∈ hexStore.orders ∧ hexPending.user = hexCancelByCode.userId ∧
    hexPending.status = "pending" ∧ hexPending.orderId = hexCancelByCode.orderId ∧
    Cast.cancelOrder hexStore 77 hexCancelByCode =
      (castError "ORD-250101-ABC123" "_id" "Order", hexStore) ∧
    (Cast.cancelOrder hexStore 77 hexCancelByCode).1.status = 500 ∧
    hexPending._id = hexCancelById.orderId ∧
    (Cast.cancelOrder hexStore 77 hexCancelById).1.status = 200 ∧
    ((Cast.cancelOrder hexStore 77 hexCancelById).2.orders.find?
        (fun o => o._id == hexPending._id)).map (fun o => o.status) = some "cancelled" :=
  ⟨by simp [hexStore], rfl, rfl, rfl, rfl, rfl, rfl, by decide, by decide⟩

/-- The handler `cancelOrder` with the cast, on a request that addresses the
stored order `o`.  When the key is an ObjectId string the answer is 200
exactly when `o` belongs to the caller and is `pending` or `confirmed`, and
then the order is stored as cancelled with the reason and the instant; when
the key is any other string (such as the code of `o`) the answer is 500; on
every answer other than 200 the store is unchanged. -/
theorem cancelOrder_cast_spec (s : Store) (now : Timestamp) (req : CancelRequest) (o : Order)
    (hmem : o ∈ s.orders) (hkey : matchesKey req.orderId o = true)
    (huniq : ∀ x ∈ s.orders, matchesKey req.orderId x = true → x = o) :
    ((Cast.cancelOrder s now req).1.status = 200 ↔
        (isObjectId req.orderId = true ∧ o.user = req.userId ∧
          (o.status = "pending" ∨ o.status = "confirmed"))) ∧
    ((Cast.cancelOrder s now req).1.status = 200 →
        (Cast.cancelOrder s now req).2 =
          { s with orders := s.orders.map (fun x => if x._id = o._id then
              { x with status := "cancelled"
                       cancellationReason := some (orElse req.reason "Cancelled by user")
                       cancelledAt := some now
                       updatedAt := now } else x) }) ∧
    ((Cast.cancelOrder s now req).1.status ≠ 200 → (Cast.cancelOrder s now req).2 = s) ∧
    (isObjectId req.orderId = false → (Cast.cancelOrder s now req).1.status = 500) := by
  have hold := cancelOrder_spec s now req o hmem hkey huniq
  by_cases hc : isObjectId req.orderId = true
  · rw [cancelOrder_cast_of_objectId s now req hc]
    refine ⟨?_, hold.2.1, hold.2.2, ?_⟩
    · rw [hold.1]; simp [hc]
    · intro h; rw [hc] at h; cases h
  · have hc2 : isObjectId req.orderId = false := by simpa using hc
    rw [cancelOrder_cast_malformed s now req hc2]
    simp [castError, serverError, hc2]

/-- With a valid score and a key that passes the cast the handler is its body. -/
theorem rateOrder_cast_of_objectId (s : Store) (now : Timestamp) (req : RateRequest)
    (h : isObjectId req.orderId = true) :
    Cast.rateOrder s now req = rateOrder s now req := by
  unfold Cast.rateOrder rateOrder
  split_ifs <;> simp_all

/-- With a valid score and a key that fails the cast `rateOrder` answers 500
and writes nothing. -/
theorem rateOrder_cast_malformed (s : Store) (now : Timestamp) (req : RateRequest)
    (hscore : (! truthyNum req.score || decide (req.score.getD 0 < 1) ||
      decide (req.score.getD 0 > 5)) = false)
    (h : isObjectId req.orderId = false) :
    Cast.rateOrder s now req = (castError req.orderId "_id" "Order", s) := by
  simp [Cast.rateOrder, hscore, h]

/-- A call of `rateOrder` that is not answered 200 leaves the store as it was. -/
theorem rateOrder_cast_error_unchanged (s : Store) (now : Timestamp) (req : RateRequest)
    (h : (Cast.rateOrder s now req).1.status ≠ 200) : (Cast.rateOrder s now req).2 = s := by
  unfold Cast.rateOrder at h ⊢
  split_ifs at h ⊢
  · rfl
  · rfl
  · rcases rateOrder_error_unchanged s now req with h1 | h1
    · exact h1
    · rw [h1] at h
      simp [ok] at h

/-- C25 (the code diverges). The customer owns the completed order with the
code `ORD-250101-COMPLT` and rates it with 4.  Named by that code the request
is answered 500 with the cast error of the filter and no rating is recorded,
although the caller owns the order, the order is completed and the score is
between 1 and 5; the same request with the `_id` of the order is answered 200
and the rating is stored. -/
theorem rateOrder_by_code_fails :
    hexCompleted ∈ hexStore.orders ∧ hexCompleted.user = hexRateByCode.userId ∧
    hexCompleted.status = "completed" ∧ hexCompleted.orderId = hexRateByCode.orderId ∧
    hexRateByCode.score = some 4 ∧
    Cast.rateOrder hexStore 77 hexRateByCode =
      (castError "ORD-250101-COMPLT" "_id" "Order", hexStore) ∧
    (Cast.rateOrder hexStore 77 hexRateByCode).1.status = 500 ∧
    hexCompleted._id = hexRateById.orderId ∧
    (Cast.rateOrder hexStore 77 hexRateById).1.status = 200 ∧
    ((Cast.rateOrder hexStore 77 hexRateById).2.orders.find?
        (fun o => o._id == hexCompleted._id)).map (fun o => o.rating.score) = some (some 4) :=
  ⟨by simp [hexStore], rfl, rfl, rfl, rfl, rfl, rfl, rfl, by decide, by decide⟩

/-- The handler `rateOrder` with the cast, on a request that addresses the
stored order `o`: the answer is 200 exactly when the key is an ObjectId
string, the caller owns `o`, `o` is completed and a score between 1 and 5 is
supplied; every other answer leaves the store unchanged. -/
theorem rateOrder_cast_spec (s : Store) (now : Timestamp) (req : RateRequest) (o : Order)
    (hmem : o ∈ s.orders) (hkey : matchesKey req.orderId o = true)
    (huniq : ∀ x ∈ s.orders, matchesKey req.orderId x = true → x = o) :
    ((Cast.rateOrder s now req).1.status = 200 ↔
        (isObjectId req.orderId = true ∧ o.user = req.userId ∧ o.status = "completed" ∧
          ∃ sc, req.score = some sc ∧ 1 ≤ sc ∧ sc ≤ 5)) ∧
    ((Cast.rateOrder s now req).1.status ≠ 200 → (Cast.rateOrder s now req).2 = s) := by
  refine ⟨?_, rateOrder_cast_error_unchanged s now req⟩
  have hold := (rateOrder_spec s now req o hmem hkey huniq).1
  by_cases hc : isObjectId req.orderId = true
  · rw [rateOrder_cast_of_objectId s now req hc, hold]
    simp [hc]
  · have hc2 : isObjectId req.orderId = false := by simpa using hc
    have hne : (Cast.rateOrder s now req).1.status ≠ 200 := by
      unfold Cast.rateOrder
      split_ifs <;> simp_all [fail, castError, serverError]
    simp [hne, hc2]

/-- C26 (amended). The last successful rating wins.  For a request whose key
is an ObjectId string identifying the stored order `o`, made by the owner of
`o` while `o` is completed and carrying a score between 1 and 5, `rateOrder`
answers 200 and afterwards the order with the `_id` of `o` is stored with the
score and the feedback of this request (and `ratedAt` the current instant),
whatever rating it had before; and any call of `rateOrder` that is not
answered 200 leaves the whole store, hence every stored rating, unchanged. -/
theorem rateOrder_last_rating_wins (s : Store) (now : Timestamp) (req : RateRequest) (o : Order)
    (sc : Rat) (hcast : isObjectId req.orderId = true)
    (hmem : o ∈ s.orders) (hkey : matchesKey req.orderId o = true)
    (huniq : ∀ x ∈ s.orders, matchesKey req.orderId x = true → x = o)
    (hu : o.user = req.userId) (hs : o.status = "completed")
    (hsc : req.score = some sc) (h1 : 1 ≤ sc) (h5 : sc ≤ 5) :
    (Cast.rateOrder s now req).1.status = 200 ∧
    (∃ x ∈ (Cast.rateOrder s now req).2.orders, x._id = o._id) ∧
    (∀ x ∈ (Cast.rateOrder s now req).2.orders, x._id = o._id →
      x.rating = { score := some sc, feedback := some (orElse req.feedback ""),
                   ratedAt := some now }) ∧
    (∀ now2 req2, (Cast.rateOrder s now2 req2).1.status ≠ 200 →
      (Cast.rateOrder s now2 req2).2 = s) := by
  rw [rateOrder_cast_of_objectId s now req hcast]
  obtain ⟨h200, hex, hall⟩ :=
    rateOrder_replaces_rating s now req o sc hmem hkey huniq hu hs hsc h1 h5
  exact ⟨h200, hex, hall, fun now2 req2 => rateOrder_cast_error_unchanged s now2 req2⟩

/-- C26, witness of the amended statement: the customer rates the completed
order, named by its `_id`, with 4. -/
theorem rateOrder_last_rating_wins_witness :
    (Cast.rateOrder hexStore 77 hexRateById).1.status = 200 ∧
    ∀ x ∈ (Cast.rateOrder hexStore 77 hexRateById).2.orders, x._id = hexCompleted._id →
      x.rating = { score := some 4, feedback := some (orElse hexRateById.feedback ""),
                   ratedAt := some 77 } :=
  have h := rateOrder_last_rating_wins hexStore 77 hexRateById hexCompleted 4 (by decide)
    (by simp [hexStore]) (by decide) (by decide) rfl rfl rfl (by norm_num) (by norm_num)
  ⟨h.1, h.2.2.1⟩

/-- Where no `scanId` is supplied, or the supplied one passes the cast,
`createOrder` with the cast is its body. -/
theorem createOrder_cast_of_objectId (s : Store) (env : Env) (req : CreateOrderRequest)
    (h : (truthy (req.scanData.bind (fun x => x.scanId)) &&
      ! isObjectId (orElse (req.scanData.bind (fun x => x.scanId)) "")) = false) :
    Cast.createOrder s env req = createOrder s env req := by
  unfold Cast.createOrder createOrder
  cases findUserById s req.userId with
  | none => rfl
  | some user =>
    dsimp only
    cases subscriptionGate user (monthlyOrders s req.userId env.monthStart) with
    | some r => rfl
    | none =>
      dsimp only
      rw [h]
      simp only [Bool.false_eq_true, if_false]

/-- C7 (as stated, refuted). The customer passes the subscription gate and
sends the `scanId` `nope`.  No scan record exists for it, yet `createOrder`
does not answer 400: `ScanHistory.findById` throws on the cast and the answer
is 500. -/
theorem createOrder_malformed_scanId :
    findUserById hexStore hexCreateMalformed.userId = some hexOwner ∧
    subscriptionGate hexOwner
      (monthlyOrders hexStore hexCreateMalformed.userId exEnv.monthStart) = none ∧
    hexCreateMalformed.scanData.bind (fun x => x.scanId) = some "nope" ∧
    findScanById hexStore "nope" = none ∧
    Cast.createOrder hexStore exEnv hexCreateMalformed =
      (castError "nope" "_id" "ScanHistory", hexStore) ∧
    (Cast.createOrder hexStore exEnv hexCreateMalformed).1.status = 500 ∧
    (Cast.createOrder hexStore exEnv hexCreateMalformed).1.status ≠ 400 :=
  ⟨rfl, rfl, rfl, rfl, rfl, rfl, by decide⟩

/-- C7 (amended). For an existing caller whom the subscription gate lets
through, `createOrder` answers 400 with `scanRequired` exactly when no
(non-empty) `scanId` is supplied, or the `scanId` is an ObjectId string and no
scan record has that id, or the `scanId` is an ObjectId string and the record
was created strictly more than 86,400,000 ms before the current instant; a
supplied `scanId` that is not an ObjectId string is answered 500 with the cast
error, and nothing is written. -/
theorem scan_binding_cast_spec (s : Store) (env : Env) (req : CreateOrderRequest) (user : User)
    (hu : findUserById s req.userId = some user)
    (hgate : subscriptionGate user (monthlyOrders s req.userId env.monthStart) = none) :
    (((Cast.createOrder s env req).1.status = 400 ∧
        "scanRequired" ∈ (Cast.createOrder s env req).1.flags) ↔
      ((¬ ∃ id, req.scanData.bind (fun x => x.scanId) = some id ∧ id ≠ "") ∨
        (∃ id, req.scanData.bind (fun x => x.scanId) = some id ∧ id ≠ "" ∧
          isObjectId id = true ∧ findScanById s id = none) ∨
        (∃ id scanRecord, req.scanData.bind (fun x => x.scanId) = some id ∧ id ≠ "" ∧
          isObjectId id = true ∧ findScanById s id = some scanRecord ∧
          scanRecord.createdAt + 86400000 < env.now))) ∧
    (∀ id, req.scanData.bind (fun x => x.scanId) = some id → id ≠ "" →
      isObjectId id = false →
      Cast.createOrder s env req = (castError id "_id" "ScanHistory", s)) := by
  have hold := scan_binding_spec s env req user hu hgate
  cases hi : req.scanData.bind (fun x => x.scanId) with
  | none =>
    have hc : (truthy (req.scanData.bind (fun x => x.scanId)) &&
        ! isObjectId (orElse (req.scanData.bind (fun x => x.scanId)) "")) = false := by
      simp [hi, truthy]
    rw [createOrder_cast_of_objectId s env req hc, hold, hi]
    simp
  | some id =>
    by_cases he : id = ""
    · have hc : (truthy (req.scanData.bind (fun x => x.scanId)) &&
          ! isObjectId (orElse (req.scanData.bind (fun x => x.scanId)) "")) = false := by
        simp [hi, truthy, he]
      rw [createOrder_cast_of_objectId s env req hc, hold, hi]
      simp [he]
    · by_cases hid : isObjectId id = true
      · have hc : (truthy (req.scanData.bind (fun x => x.scanId)) &&
            ! isObjectId (orElse (req.scanData.bind (fun x => x.scanId)) "")) = false := by
          simp [hi, truthy, he, orElse, hid]
        rw [createOrder_cast_of_objectId s env req hc, hold, hi]
        simp [he, hid]
      · have hid2 : isObjectId id = false := by simpa using hid
        have hval : Cast.createOrder s env req = (castError id "_id" "ScanHistory", s) := by
          unfold Cast.createOrder
          simp [hu, hgate, hi, truthy, he, orElse, hid2]
        rw [hval]
        simp [castError, serverError, he, hid2]

/-- C7, witness of the amended statement: the customer passes the gate and
binds the fresh stored scan by its ObjectId. -/
theorem scan_binding_cast_spec_witness :
    findUserById hexStore hexCreate.userId = some hexOwner ∧
    (((Cast.createOrder hexStore exEnv hexCreate).1.status = 400 ∧
        "scanRequired" ∈ (Cast.createOrder hexStore exEnv hexCreate).1.flags) ↔
      ((¬ ∃ id, hexCreate.scanData.bind (fun x => x.scanId) = some id ∧ id ≠ "") ∨
        (∃ id, hexCreate.scanData.bind (fun x => x.scanId) = some id ∧ id ≠ "" ∧
          isObjectId id = true ∧ findScanById hexStore id = none) ∨
        (∃ id scanRecord, hexCreate.scanData.bind (fun x => x.scanId) = some id ∧ id ≠ "" ∧
          isObjectId id = true ∧ findScanById hexStore id = some scanRecord ∧
          scanRecord.createdAt + 86400000 < exEnv.now))) :=
  ⟨rfl, (scan_binding_cast_spec hexStore exEnv hexCreate hexOwner rfl rfl).1⟩

/-- C11 (as stated, refuted). The worker passes the checks of
`selfAssignOrder`.  The order with `_id` `65f...c3` exists but is no longer
pending and unassigned; no order has the `_id` `65f...ff`.  Both calls get
the very same answer, 404 `Order not found or already assigned`.  Named by
its code `ORD-250101-ARRIVE` the existing order gets 500 (the cast of the
filter throws), the same status and error kind as the unknown key `missing`. -/
theorem selfAssign_unavailable_same_answer :
    findUserById hexStore (hexSelfAssign "").userId = some hexWorker ∧
    selfAssignChecks hexWorker = none ∧
    hexArrived ∈ hexStore.orders ∧ hexArrived._id = "65f0000000000000000000c3" ∧
    hexArrived.orderId = "ORD-250101-ARRIVE" ∧ hexArrived.status = "arrived" ∧
    hexStore.orders.find? (fun o => matchesKey "65f0000000000000000000ff" o) = none ∧
    hexStore.orders.find? (fun o => matchesKey "missing" o) = none ∧
    Cast.selfAssignOrder hexStore 100 (hexSelfAssign "65f0000000000000000000c3") =
      (fail 404 "Order not found or already assigned", hexStore) ∧
    Cast.selfAssignOrder hexStore 100 (hexSelfAssign "65f0000000000000000000ff") =
      (fail 404 "Order not found or already assigned", hexStore) ∧
    Cast.selfAssignOrder hexStore 100 (hexSelfAssign "ORD-250101-ARRIVE") =
      (castError "ORD-250101-ARRIVE" "_id" "Order", hexStore) ∧
    Cast.selfAssignOrder hexStore 100 (hexSelfAssign "missing") =
      (castError "missing" "_id" "Order", hexStore) ∧
    (castError "ORD-250101-ARRIVE" "_id" "Order").status = 500 ∧
    (castError "missing" "_id" "Order").status = 500 :=
  ⟨rfl, rfl, by simp [hexStore], rfl, rfl, rfl, rfl, rfl, rfl, rfl, rfl, rfl, rfl, rfl⟩

/-- C11 (amended). After the checks on the caller `selfAssignOrder` runs one
query for a pending, unassigned order with the key, and its answer on a
failure depends on the form of the key alone, not on whether an order with
that key exists: for a caller who passes the role, status and duty checks, a
key that is not an ObjectId string is answered 500 with the cast error
(whatever is stored), and a key that is an ObjectId string for which the
query finds nothing, because the order is no longer pending and unassigned or
because there is no such order, is answered 404
`Order not found or already assigned`; a caller who fails a check gets the
answer of that check for every key.  Nothing is written in any of these
cases. -/
theorem selfAssign_failure_by_key (s : Store) (now : Timestamp) (userId : ObjectId)
    (user : User) (k : String) (hu : findUserById s userId = some user) :
    (selfAssignChecks user = none → isObjectId k = false →
      Cast.selfAssignOrder s now { userId := userId, orderId := k } =
        (castError k "_id" "Order", s)) ∧
    (selfAssignChecks user = none → isObjectId k = true → findPendingUnassigned s k = none →
      Cast.selfAssignOrder s now { userId := userId, orderId := k } =
        (fail 404 "Order not found or already assigned", s)) ∧
    (∀ r, selfAssignChecks user = some r → ∀ k2,
      Cast.selfAssignOrder s now { userId := userId, orderId := k2 } = (r, s)) := by
  refine ⟨?_, ?_, ?_⟩
  · intro hc hk
    simp [Cast.selfAssignOrder, hu, hc, hk]
  · intro hc hk hmiss
    simp [Cast.selfAssignOrder, selfAssignOrder, hu, hc, hk, hmiss]
  · intro r hr k2
    simp [Cast.selfAssignOrder, hu, hr]

/-- C11, witness of the amended statement: the worker who passes the checks
asks for the order that is already assigned, by its `_id`. -/
theorem selfAssign_failure_by_key_witness :
    findPendingUnassigned hexStore "65f0000000000000000000c3" = none ∧
    Cast.selfAssignOrder hexStore 100
        { userId := "65f0000000000000000000b1", orderId := "65f0000000000000000000c3" } =
      (fail 404 "Order not found or already assigned", hexStore) :=
  ⟨rfl, (selfAssign_failure_by_key hexStore 100 "65f0000000000000000000b1" hexWorker
    "65f0000000000000000000c3" rfl).2.1 rfl (by decide) rfl⟩

/-- The handler `assignOrder` with the casts never answers 200 and never
writes. -/
theorem assignOrder_cast_inert (s : Store) (now : Timestamp) (req : AssignRequest) :
    (Cast.assignOrder s now req).2 = s ∧ (Cast.assignOrder s now req).1.status ≠ 200 ∧
    (Cast.assignOrder s now req).1.success = false := by
  unfold Cast.assignOrder
  by_cases h1 : (! truthy req.workerId) = true
  · rw [if_pos h1]; simp [fail]
  · rw [if_neg h1]
    by_cases h2 : (! isObjectId req.orderId) = true
    · rw [if_pos h2]; simp [castError, serverError]
    · rw [if_neg h2]
      cases s.orders.find? (fun o => matchesKey req.orderId o) with
      | none => simp [fail]
      | some o =>
        dsimp only
        by_cases h3 : (! isObjectId (orElse req.workerId "")) = true
        · rw [if_pos h3]; simp [castError, serverError]
        · rw [if_neg h3]
          exact ⟨(assignOrder_inert s now req).1, (assignOrder_inert s now req).2,
            assignOrder_fails s now req⟩

/-- C13. `assignOrder` never answers 200 and never writes, so it succeeds
only for a worker who is on duty and active, and a call whose target worker
is off duty or not active fails with the store unchanged.  For a request
whose identifiers are ObjectId strings, whose order exists and whose target
is a stored worker or driver: a worker whose stored status is not the string
`ACTIVE` is answered 400 `Worker is not active`; a worker whose stored status
is `ACTIVE` passes every check, on duty or off duty (`isOnDuty` is never
read), and the call is answered 500 by the push on the undeclared
`statusHistory`. -/
theorem assignOrder_off_duty_or_inactive (s : Store) (now : Timestamp) (req : AssignRequest)
    (o : Order) (wid : ObjectId) (worker : User)
    (hwid : req.workerId = some wid) (hne : wid ≠ "")
    (hcast : isObjectId req.orderId = true) (hcastw : isObjectId wid = true)
    (ho : s.orders.find? (fun x => matchesKey req.orderId x) = some o)
    (hw : findUserById s wid = some worker)
    (hrole : worker.role = "WORKER" ∨ worker.role = "DRIVER") :
    ((worker.workerInfo.isOnDuty = false ∨ worker.workerInfo.status ≠ "active") →
      (Cast.assignOrder s now req).1.success = false ∧
      (Cast.assignOrder s now req).1.status ≠ 200 ∧ (Cast.assignOrder s now req).2 = s) ∧
    (worker.workerInfo.status ≠ "ACTIVE" →
      Cast.assignOrder s now req = (fail 400 "Worker is not active", s)) ∧
    (worker.workerInfo.status = "ACTIVE" →
      Cast.assignOrder s now req =
        (serverError "Cannot read properties of undefined (reading push)", s)) ∧
    (∀ req2, (Cast.assignOrder s now req2).1.status = 200 →
      ∃ w, findUserById s (orElse req2.workerId "") = some w ∧
        w.workerInfo.isOnDuty = true ∧ w.workerInfo.status = "active") := by
  have hor : orElse req.workerId "" = wid := by simp [hwid, orElse, hne]
  have htr : truthy req.workerId = true := by simp [hwid, truthy, hne]
  have hr : ["WORKER", "DRIVER"].contains worker.role = true := by
    rcases hrole with h | h <;> simp [h]
  have hval : Cast.assignOrder s now req = assignOrder s now req := by
    simp [Cast.assignOrder, htr, hcast, ho, hor, hcastw]
  refine ⟨fun _ => ⟨(assignOrder_cast_inert s now req).2.2, (assignOrder_cast_inert s now req).2.1,
    (assignOrder_cast_inert s now req).1⟩, ?_, ?_,
    fun req2 h => absurd h (assignOrder_cast_inert s now req2).2.1⟩
  · intro hst
    rw [hval]
    unfold assignOrder
    simp only [htr, Bool.not_true, Bool.false_eq_true, if_false, ho, hor, hw, hr]
    simp [hst]
  · intro hst
    rw [hval]
    unfold assignOrder
    simp only [htr, Bool.not_true, Bool.false_eq_true, if_false, ho, hor, hw, hr]
    simp [hst, pushStatusHistory, hydrate]

/-- C13, witness: the administrator gives the pending order to the worker
whose status is `inactive` (answered 400) and to the off-duty worker whose
stored status is `ACTIVE` (answered 500 by the push). -/
theorem assignOrder_off_duty_or_inactive_witness :
    hexInactive.workerInfo.status = "inactive" ∧
    Cast.assignOrder hexStore 100 hexAssignInactive =
      (fail 400 "Worker is not active", hexStore) ∧
    hexOffDuty.workerInfo.isOnDuty = false ∧
    Cast.assignOrder hexStore 100 hexAssignOffDuty =
      (serverError "Cannot read properties of undefined (reading push)", hexStore) :=
  ⟨rfl,
    (assignOrder_off_duty_or_inactive hexStore 100 hexAssignInactive hexPending
      "65f0000000000000000000b2" hexInactive rfl (by decide) (by decide) (by decide) rfl rfl
      (Or.inl rfl)).2.1 (by decide),
    rfl,
    (assignOrder_off_duty_or_inactive hexStore 100 hexAssignOffDuty hexPending
      "65f0000000000000000000b3" hexOffDuty rfl (by decide) (by decide) (by decide) rfl rfl
      (Or.inl rfl)).2.2.1 rfl⟩

end EcoSystem
